import Mathlib

set_option maxHeartbeats 1000000

/-!
Verification of the TerraNova density-function schema (`src-tauri/src/schema/density.rs`,
a serde internally-tagged enum of 68 variants) and of the I/O and hardware helpers
(`src-tauri/src/commands/io.rs`, `src-tauri/src/commands/hardware.rs`).

The JSON data model and the serde-derived parser/serializer are embedded shallowly:
numbers are rationals (the finite values of `f64`/`serde_json::Number`), sub-trees are
raw JSON values exactly as the Rust schema keeps them (`serde_json::Value`). Parts of
the repository that are not in the schema or command sources — the parse error taxonomy
`SchemaError`, the depth guard, the evaluator and the memoization layer — are modelled
from the specification and are marked as such on their definitions.
-/

/-- A JSON value, as `serde_json::Value` models it: numbers are the finite values
representable by its numeric tower, modelled as rationals. -/
inductive Json where
  | null
  | bool (b : Bool)
  | num (q : ℚ)
  | str (s : String)
  | arr (elems : List Json)
  | obj (fields : List (String × Json))

/-- First-match association lookup: how serde finds an object field by key. -/
def alookup {β : Type _} : List (String × β) → String → Option β
  | [], _ => none
  | (a, b) :: es, key => if a = key then some b else alookup es key

/-- Modelled from the spec: the parse-time error taxonomy `SchemaError` (unknown
type, type mismatch, depth exceeded). The Rust crate surfaces serde's stringly
errors; the spec names them, and an absent discriminator is reported as
`UnknownType` as the spec's parser contract describes. -/
inductive SchemaError where
  | UnknownType
  | TypeMismatch
  | TooDeep
deriving DecidableEq

/-- A 32-bit signed integer, the value range of the Rust `i32` fields. -/
def Int32 := { n : Int // -2147483648 ≤ n ∧ n < 2147483648 }

/-- serde's reading of an `Option<f64>` field with `#[serde(default)]`:
absent or null is `None`, a number is `Some`, any other shape is an error. -/
def decodeOptNum : Option Json → Except SchemaError (Option ℚ)
  | none => .ok none
  | some .null => .ok none
  | some (.num q) => .ok (some q)
  | some _ => .error .TypeMismatch

/-- serde's reading of an `Option<i32>` field: the number must be integral and
in the `i32` range. -/
def decodeOptInt : Option Json → Except SchemaError (Option Int32)
  | none => .ok none
  | some .null => .ok none
  | some (.num q) =>
      if h : q.den = 1 ∧ -2147483648 ≤ q.num ∧ q.num < 2147483648 then
        .ok (some ⟨q.num, h.2⟩)
      else .error .TypeMismatch
  | some _ => .error .TypeMismatch

/-- serde's reading of an `Option<String>` field. -/
def decodeOptStr : Option Json → Except SchemaError (Option String)
  | none => .ok none
  | some .null => .ok none
  | some (.str s) => .ok (some s)
  | some _ => .error .TypeMismatch

/-- serde's reading of an `Option<bool>` field. -/
def decodeOptBool : Option Json → Except SchemaError (Option Bool)
  | none => .ok none
  | some .null => .ok none
  | some (.bool b) => .ok (some b)
  | some _ => .error .TypeMismatch

/-- serde's reading of an `Option<serde_json::Value>` field: any JSON shape is
accepted; null reads back as `None` (the `Option` layer consumes it). -/
def decodeOptVal : Option Json → Except SchemaError (Option Json)
  | none => .ok none
  | some .null => .ok none
  | some v => .ok (some v)

/-- serde's reading of a `Vec<serde_json::Value>` field with `#[serde(default)]`:
absent is the empty list, an array is its elements, any other shape is an error. -/
def decodeVec : Option Json → Except SchemaError (List Json)
  | none => .ok []
  | some (.arr xs) => .ok xs
  | some _ => .error .TypeMismatch

def encOptNum : Option ℚ → Json
  | none => .null
  | some q => .num q

def encOptInt : Option Int32 → Json
  | none => .null
  | some i => .num (i.val : ℚ)

def encOptStr : Option String → Json
  | none => .null
  | some s => .str s

def encOptBool : Option Bool → Json
  | none => .null
  | some b => .bool b

def encOptVal : Option Json → Json
  | none => .null
  | some v => v

/-- The 68 density function node kinds of `DensityType` in
`src-tauri/src/schema/density.rs`, with the serde field types: optional scalars,
strings, booleans and 32-bit integers, and sub-trees kept as raw JSON values
(`Option Json` for `Input`-style slots, `List Json` for `Inputs`-style slots).
The Rust fields `from`/`to` are written `from_`/`to_` (Lean keywords). -/
inductive DensityType where
  | SimplexNoise2D (lacunarity : Option ℚ) (persistence : Option ℚ) (scale : Option ℚ) (octaves : Option Int32) (seed : Option String)
  | SimplexNoise3D (lacunarity : Option ℚ) (persistence : Option ℚ) (scale_xz : Option ℚ) (scale_y : Option ℚ) (octaves : Option Int32) (seed : Option String)
  | CellNoise2D (scale : Option ℚ) (seed : Option String) (return_type : Option String) (distance_function : Option String)
  | CellNoise3D (scale : Option ℚ) (seed : Option String) (return_type : Option String) (distance_function : Option String)
  | Constant (value : Option ℚ)
  | Sum (inputs : List Json)
  | Multiplier (inputs : List Json)
  | Abs (input : Option Json)
  | Inverter (input : Option Json)
  | Sqrt (input : Option Json)
  | Pow (exponent : Option ℚ) (input : Option Json)
  | OffsetConstant (offset : Option ℚ) (input : Option Json)
  | AmplitudeConstant (amplitude : Option ℚ) (input : Option Json)
  | Clamp (wall_a : Option ℚ) (wall_b : Option ℚ) (input : Option Json)
  | SmoothClamp (wall_a : Option ℚ) (wall_b : Option ℚ) (range : Option ℚ) (input : Option Json)
  | Floor (floor : Option ℚ) (input : Option Json)
  | SmoothFloor (floor : Option ℚ) (range : Option ℚ) (input : Option Json)
  | Ceiling (ceiling : Option ℚ) (input : Option Json)
  | SmoothCeiling (ceiling : Option ℚ) (range : Option ℚ) (input : Option Json)
  | Min (inputs : List Json)
  | SmoothMin (range : Option ℚ) (inputs : List Json)
  | Max (inputs : List Json)
  | SmoothMax (range : Option ℚ) (inputs : List Json)
  | Normalizer (from_min : Option ℚ) (from_max : Option ℚ) (to_min : Option ℚ) (to_max : Option ℚ) (input : Option Json)
  | CurveMapper (curve : Option Json) (input : Option Json)
  | Offset (offset : Option Json) (input : Option Json)
  | Amplitude (amplitude : Option Json) (input : Option Json)
  | Mix (inputs : List Json)
  | MultiMix (keys : List Json) (inputs : List Json)
  | Scale (x : Option ℚ) (y : Option ℚ) (z : Option ℚ) (input : Option Json)
  | Slider (slide_x : Option ℚ) (slide_y : Option ℚ) (slide_z : Option ℚ) (input : Option Json)
  | Rotator (new_y_axis : Option Json) (x : Option ℚ) (y : Option ℚ) (z : Option ℚ) (spin_angle : Option ℚ) (input : Option Json)
  | Anchor (reverse : Option Bool) (input : Option Json)
  | XOverride (input : Option Json) (override_value : Option Json)
  | YOverride (input : Option Json) (override_value : Option Json)
  | ZOverride (input : Option Json) (override_value : Option Json)
  | GradientWarp (sample_range : Option ℚ) (warp_factor : Option ℚ) (is_2d : Option Bool) (y_for_2d : Option ℚ) (inputs : List Json)
  | FastGradientWarp (warp_scale : Option ℚ) (warp_lacunarity : Option ℚ) (warp_persistence : Option ℚ) (warp_octaves : Option Int32) (warp_factor : Option ℚ) (seed : Option String) (is_2d : Option Bool) (input : Option Json)
  | VectorWarp (warp_factor : Option ℚ) (warp_vector : Option Json) (x : Option ℚ) (y : Option ℚ) (z : Option ℚ) (inputs : List Json)
  | Distance (curve : Option Json)
  | Cube (curve : Option Json)
  | Ellipsoid (curve : Option Json) (scale : Option Json) (x : Option ℚ) (y : Option ℚ) (z : Option ℚ) (spin : Option ℚ)
  | Cuboid (curve : Option Json) (scale : Option Json) (x : Option ℚ) (y : Option ℚ) (z : Option ℚ) (spin : Option ℚ) (new_y_axis : Option Json)
  | Cylinder (axial_curve : Option Json) (radial_curve : Option Json) (spin : Option ℚ) (new_y_axis : Option Json)
  | Plane (plane_normal : Option Json) (x : Option ℚ) (y : Option ℚ) (z : Option ℚ) (curve : Option Json)
  | Axis (axis : Option Json) (x : Option ℚ) (y : Option ℚ) (z : Option ℚ) (curve : Option Json) (is_anchored : Option Bool)
  | Shell (axis : Option Json) (x : Option ℚ) (y : Option ℚ) (z : Option ℚ) (mirror : Option Bool) (angle_curve : Option Json) (distance_curve : Option Json)
  | Angle (vector : Option Json) (vector_provider : Option Json)
  | XValue
  | YValue
  | ZValue
  | Terrain
  | BaseHeight (base_height_name : Option String) (distance : Option Bool)
  | CellWallDistance (positions : Option Json) (max_distance : Option ℚ)
  | DistanceToBiomeEdge
  | Gradient (from_ : Option ℚ) (to_ : Option ℚ) (from_y : Option ℚ) (to_y : Option ℚ)
  | Cache (capacity : Option Int32) (input : Option Json)
  | Cache2D (input : Option Json)
  | YSampled (y : Option ℚ) (input : Option Json)
  | Switch (switch_cases : List Json) (input : Option Json)
  | SwitchState (switch_state : Option String) (input : Option Json)
  | PositionsCellNoise (positions : Option Json) (return_type : Option Json) (distance_function : Option Json) (max_distance : Option ℚ)
  | Positions3D (positions : Option Json) (density : Option Json) (max_distance : Option ℚ)
  | PositionsPinch (positions : Option Json) (pinch_curve : Option Json) (max_distance : Option ℚ) (normalize_distance : Option Bool) (horizontal_pinch : Option Bool) (positions_max_y : Option ℚ) (positions_min_y : Option ℚ) (input : Option Json)
  | PositionsTwist (positions : Option Json) (twist_curve : Option Json) (twist_axis : Option Json) (x : Option ℚ) (y : Option ℚ) (z : Option ℚ) (max_distance : Option ℚ) (normalize_distance : Option Bool) (input : Option Json)
  | Exported (single_instance : Option Bool) (density : Option Json) (input : Option Json)
  | Imported (name : Option String)
  | Pipeline (steps : List Json) (input : Option Json)

/-- The serde tag of a node: the string the `Type` discriminator carries. -/
def tagName : DensityType → String
  | .SimplexNoise2D _ _ _ _ _ => "SimplexNoise2D"
  | .SimplexNoise3D _ _ _ _ _ _ => "SimplexNoise3D"
  | .CellNoise2D _ _ _ _ => "CellNoise2D"
  | .CellNoise3D _ _ _ _ => "CellNoise3D"
  | .Constant _ => "Constant"
  | .Sum _ => "Sum"
  | .Multiplier _ => "Multiplier"
  | .Abs _ => "Abs"
  | .Inverter _ => "Inverter"
  | .Sqrt _ => "Sqrt"
  | .Pow _ _ => "Pow"
  | .OffsetConstant _ _ => "OffsetConstant"
  | .AmplitudeConstant _ _ => "AmplitudeConstant"
  | .Clamp _ _ _ => "Clamp"
  | .SmoothClamp _ _ _ _ => "SmoothClamp"
  | .Floor _ _ => "Floor"
  | .SmoothFloor _ _ _ => "SmoothFloor"
  | .Ceiling _ _ => "Ceiling"
  | .SmoothCeiling _ _ _ => "SmoothCeiling"
  | .Min _ => "Min"
  | .SmoothMin _ _ => "SmoothMin"
  | .Max _ => "Max"
  | .SmoothMax _ _ => "SmoothMax"
  | .Normalizer _ _ _ _ _ => "Normalizer"
  | .CurveMapper _ _ => "CurveMapper"
  | .Offset _ _ => "Offset"
  | .Amplitude _ _ => "Amplitude"
  | .Mix _ => "Mix"
  | .MultiMix _ _ => "MultiMix"
  | .Scale _ _ _ _ => "Scale"
  | .Slider _ _ _ _ => "Slider"
  | .Rotator _ _ _ _ _ _ => "Rotator"
  | .Anchor _ _ => "Anchor"
  | .XOverride _ _ => "XOverride"
  | .YOverride _ _ => "YOverride"
  | .ZOverride _ _ => "ZOverride"
  | .GradientWarp _ _ _ _ _ => "GradientWarp"
  | .FastGradientWarp _ _ _ _ _ _ _ _ => "FastGradientWarp"
  | .VectorWarp _ _ _ _ _ _ => "VectorWarp"
  | .Distance _ => "Distance"
  | .Cube _ => "Cube"
  | .Ellipsoid _ _ _ _ _ _ => "Ellipsoid"
  | .Cuboid _ _ _ _ _ _ _ => "Cuboid"
  | .Cylinder _ _ _ _ => "Cylinder"
  | .Plane _ _ _ _ _ => "Plane"
  | .Axis _ _ _ _ _ _ => "Axis"
  | .Shell _ _ _ _ _ _ _ => "Shell"
  | .Angle _ _ => "Angle"
  | .XValue => "XValue"
  | .YValue => "YValue"
  | .ZValue => "ZValue"
  | .Terrain => "Terrain"
  | .BaseHeight _ _ => "BaseHeight"
  | .CellWallDistance _ _ => "CellWallDistance"
  | .DistanceToBiomeEdge => "DistanceToBiomeEdge"
  | .Gradient _ _ _ _ => "Gradient"
  | .Cache _ _ => "Cache"
  | .Cache2D _ => "Cache2D"
  | .YSampled _ _ => "YSampled"
  | .Switch _ _ => "Switch"
  | .SwitchState _ _ => "SwitchState"
  | .PositionsCellNoise _ _ _ _ => "PositionsCellNoise"
  | .Positions3D _ _ _ => "Positions3D"
  | .PositionsPinch _ _ _ _ _ _ _ _ => "PositionsPinch"
  | .PositionsTwist _ _ _ _ _ _ _ _ _ => "PositionsTwist"
  | .Exported _ _ _ => "Exported"
  | .Imported _ => "Imported"
  | .Pipeline _ _ => "Pipeline"

def pSimplexNoise2D (f : List (String × Json)) : Except SchemaError DensityType :=
  (decodeOptNum (alookup f "Lacunarity")).bind fun lacunarity =>
  (decodeOptNum (alookup f "Persistence")).bind fun persistence =>
  (decodeOptNum (alookup f "Scale")).bind fun scale =>
  (decodeOptInt (alookup f "Octaves")).bind fun octaves =>
  (decodeOptStr (alookup f "Seed")).bind fun seed =>
  .ok (.SimplexNoise2D lacunarity persistence scale octaves seed)

def pSimplexNoise3D (f : List (String × Json)) : Except SchemaError DensityType :=
  (decodeOptNum (alookup f "Lacunarity")).bind fun lacunarity =>
  (decodeOptNum (alookup f "Persistence")).bind fun persistence =>
  (decodeOptNum (alookup f "ScaleXZ")).bind fun scale_xz =>
  (decodeOptNum (alookup f "ScaleY")).bind fun scale_y =>
  (decodeOptInt (alookup f "Octaves")).bind fun octaves =>
  (decodeOptStr (alookup f "Seed")).bind fun seed =>
  .ok (.SimplexNoise3D lacunarity persistence scale_xz scale_y octaves seed)

def pCellNoise2D (f : List (String × Json)) : Except SchemaError DensityType :=
  (decodeOptNum (alookup f "Scale")).bind fun scale =>
  (decodeOptStr (alookup f "Seed")).bind fun seed =>
  (decodeOptStr (alookup f "ReturnType")).bind fun return_type =>
  (decodeOptStr (alookup f "DistanceFunction")).bind fun distance_function =>
  .ok (.CellNoise2D scale seed return_type distance_function)

def pCellNoise3D (f : List (String × Json)) : Except SchemaError DensityType :=
  (decodeOptNum (alookup f "Scale")).bind fun scale =>
  (decodeOptStr (alookup f "Seed")).bind fun seed =>
  (decodeOptStr (alookup f "ReturnType")).bind fun return_type =>
  (decodeOptStr (alookup f "DistanceFunction")).bind fun distance_function =>
  .ok (.CellNoise3D scale seed return_type distance_function)

def pConstant (f : List (String × Json)) : Except SchemaError DensityType :=
  (decodeOptNum (alookup f "Value")).bind fun value =>
  .ok (.Constant value)

def pSum (f : List (String × Json)) : Except SchemaError DensityType :=
  (decodeVec (alookup f "Inputs")).bind fun inputs =>
  .ok (.Sum inputs)

def pMultiplier (f : List (String × Json)) : Except SchemaError DensityType :=
  (decodeVec (alookup f "Inputs")).bind fun inputs =>
  .ok (.Multiplier inputs)

def pAbs (f : List (String × Json)) : Except SchemaError DensityType :=
  (decodeOptVal (alookup f "Input")).bind fun input =>
  .ok (.Abs input)

def pInverter (f : List (String × Json)) : Except SchemaError DensityType :=
  (decodeOptVal (alookup f "Input")).bind fun input =>
  .ok (.Inverter input)

def pSqrt (f : List (String × Json)) : Except SchemaError DensityType :=
  (decodeOptVal (alookup f "Input")).bind fun input =>
  .ok (.Sqrt input)

def pPow (f : List (String × Json)) : Except SchemaError DensityType :=
  (decodeOptNum (alookup f "Exponent")).bind fun exponent =>
  (decodeOptVal (alookup f "Input")).bind fun input =>
  .ok (.Pow exponent input)

def pOffsetConstant (f : List (String × Json)) : Except SchemaError DensityType :=
  (decodeOptNum (alookup f "Offset")).bind fun offset =>
  (decodeOptVal (alookup f "Input")).bind fun input =>
  .ok (.OffsetConstant offset input)

def pAmplitudeConstant (f : List (String × Json)) : Except SchemaError DensityType :=
  (decodeOptNum (alookup f "Amplitude")).bind fun amplitude =>
  (decodeOptVal (alookup f "Input")).bind fun input =>
  .ok (.AmplitudeConstant amplitude input)

def pClamp (f : List (String × Json)) : Except SchemaError DensityType :=
  (decodeOptNum (alookup f "WallA")).bind fun wall_a =>
  (decodeOptNum (alookup f "WallB")).bind fun wall_b =>
  (decodeOptVal (alookup f "Input")).bind fun input =>
  .ok (.Clamp wall_a wall_b input)

def pSmoothClamp (f : List (String × Json)) : Except SchemaError DensityType :=
  (decodeOptNum (alookup f "WallA")).bind fun wall_a =>
  (decodeOptNum (alookup f "WallB")).bind fun wall_b =>
  (decodeOptNum (alookup f "Range")).bind fun range =>
  (decodeOptVal (alookup f "Input")).bind fun input =>
  .ok (.SmoothClamp wall_a wall_b range input)

def pFloor (f : List (String × Json)) : Except SchemaError DensityType :=
  (decodeOptNum (alookup f "Floor")).bind fun floor =>
  (decodeOptVal (alookup f "Input")).bind fun input =>
  .ok (.Floor floor input)

def pSmoothFloor (f : List (String × Json)) : Except SchemaError DensityType :=
  (decodeOptNum (alookup f "Floor")).bind fun floor =>
  (decodeOptNum (alookup f "Range")).bind fun range =>
  (decodeOptVal (alookup f "Input")).bind fun input =>
  .ok (.SmoothFloor floor range input)

def pCeiling (f : List (String × Json)) : Except SchemaError DensityType :=
  (decodeOptNum (alookup f "Ceiling")).bind fun ceiling =>
  (decodeOptVal (alookup f "Input")).bind fun input =>
  .ok (.Ceiling ceiling input)

def pSmoothCeiling (f : List (String × Json)) : Except SchemaError DensityType :=
  (decodeOptNum (alookup f "Ceiling")).bind fun ceiling =>
  (decodeOptNum (alookup f "Range")).bind fun range =>
  (decodeOptVal (alookup f "Input")).bind fun input =>
  .ok (.SmoothCeiling ceiling range input)

def pMin (f : List (String × Json)) : Except SchemaError DensityType :=
  (decodeVec (alookup f "Inputs")).bind fun inputs =>
  .ok (.Min inputs)

def pSmoothMin (f : List (String × Json)) : Except SchemaError DensityType :=
  (decodeOptNum (alookup f "Range")).bind fun range =>
  (decodeVec (alookup f "Inputs")).bind fun inputs =>
  .ok (.SmoothMin range inputs)

def pMax (f : List (String × Json)) : Except SchemaError DensityType :=
  (decodeVec (alookup f "Inputs")).bind fun inputs =>
  .ok (.Max inputs)

def pSmoothMax (f : List (String × Json)) : Except SchemaError DensityType :=
  (decodeOptNum (alookup f "Range")).bind fun range =>
  (decodeVec (alookup f "Inputs")).bind fun inputs =>
  .ok (.SmoothMax range inputs)

def pNormalizer (f : List (String × Json)) : Except SchemaError DensityType :=
  (decodeOptNum (alookup f "FromMin")).bind fun from_min =>
  (decodeOptNum (alookup f "FromMax")).bind fun from_max =>
  (decodeOptNum (alookup f "ToMin")).bind fun to_min =>
  (decodeOptNum (alookup f "ToMax")).bind fun to_max =>
  (decodeOptVal (alookup f "Input")).bind fun input =>
  .ok (.Normalizer from_min from_max to_min to_max input)

def pCurveMapper (f : List (String × Json)) : Except SchemaError DensityType :=
  (decodeOptVal (alookup f "Curve")).bind fun curve =>
  (decodeOptVal (alookup f "Input")).bind fun input =>
  .ok (.CurveMapper curve input)

def pOffset (f : List (String × Json)) : Except SchemaError DensityType :=
  (decodeOptVal (alookup f "Offset")).bind fun offset =>
  (decodeOptVal (alookup f "Input")).bind fun input =>
  .ok (.Offset offset input)

def pAmplitude (f : List (String × Json)) : Except SchemaError DensityType :=
  (decodeOptVal (alookup f "Amplitude")).bind fun amplitude =>
  (decodeOptVal (alookup f "Input")).bind fun input =>
  .ok (.Amplitude amplitude input)

def pMix (f : List (String × Json)) : Except SchemaError DensityType :=
  (decodeVec (alookup f "Inputs")).bind fun inputs =>
  .ok (.Mix inputs)

def pMultiMix (f : List (String × Json)) : Except SchemaError DensityType :=
  (decodeVec (alookup f "Keys")).bind fun keys =>
  (decodeVec (alookup f "Inputs")).bind fun inputs =>
  .ok (.MultiMix keys inputs)

def pScale (f : List (String × Json)) : Except SchemaError DensityType :=
  (decodeOptNum (alookup f "X")).bind fun x =>
  (decodeOptNum (alookup f "Y")).bind fun y =>
  (decodeOptNum (alookup f "Z")).bind fun z =>
  (decodeOptVal (alookup f "Input")).bind fun input =>
  .ok (.Scale x y z input)

def pSlider (f : List (String × Json)) : Except SchemaError DensityType :=
  (decodeOptNum (alookup f "SlideX")).bind fun slide_x =>
  (decodeOptNum (alookup f "SlideY")).bind fun slide_y =>
  (decodeOptNum (alookup f "SlideZ")).bind fun slide_z =>
  (decodeOptVal (alookup f "Input")).bind fun input =>
  .ok (.Slider slide_x slide_y slide_z input)

def pRotator (f : List (String × Json)) : Except SchemaError DensityType :=
  (decodeOptVal (alookup f "NewYAxis")).bind fun new_y_axis =>
  (decodeOptNum (alookup f "X")).bind fun x =>
  (decodeOptNum (alookup f "Y")).bind fun y =>
  (decodeOptNum (alookup f "Z")).bind fun z =>
  (decodeOptNum (alookup f "SpinAngle")).bind fun spin_angle =>
  (decodeOptVal (alookup f "Input")).bind fun input =>
  .ok (.Rotator new_y_axis x y z spin_angle input)

def pAnchor (f : List (String × Json)) : Except SchemaError DensityType :=
  (decodeOptBool (alookup f "Reverse")).bind fun reverse =>
  (decodeOptVal (alookup f "Input")).bind fun input =>
  .ok (.Anchor reverse input)

def pXOverride (f : List (String × Json)) : Except SchemaError DensityType :=
  (decodeOptVal (alookup f "Input")).bind fun input =>
  (decodeOptVal (alookup f "Override")).bind fun override_value =>
  .ok (.XOverride input override_value)

def pYOverride (f : List (String × Json)) : Except SchemaError DensityType :=
  (decodeOptVal (alookup f "Input")).bind fun input =>
  (decodeOptVal (alookup f "Override")).bind fun override_value =>
  .ok (.YOverride input override_value)

def pZOverride (f : List (String × Json)) : Except SchemaError DensityType :=
  (decodeOptVal (alookup f "Input")).bind fun input =>
  (decodeOptVal (alookup f "Override")).bind fun override_value =>
  .ok (.ZOverride input override_value)

def pGradientWarp (f : List (String × Json)) : Except SchemaError DensityType :=
  (decodeOptNum (alookup f "SampleRange")).bind fun sample_range =>
  (decodeOptNum (alookup f "WarpFactor")).bind fun warp_factor =>
  (decodeOptBool (alookup f "2D")).bind fun is_2d =>
  (decodeOptNum (alookup f "YFor2D")).bind fun y_for_2d =>
  (decodeVec (alookup f "Inputs")).bind fun inputs =>
  .ok (.GradientWarp sample_range warp_factor is_2d y_for_2d inputs)

def pFastGradientWarp (f : List (String × Json)) : Except SchemaError DensityType :=
  (decodeOptNum (alookup f "WarpScale")).bind fun warp_scale =>
  (decodeOptNum (alookup f "WarpLacunarity")).bind fun warp_lacunarity =>
  (decodeOptNum (alookup f "WarpPersistence")).bind fun warp_persistence =>
  (decodeOptInt (alookup f "WarpOctaves")).bind fun warp_octaves =>
  (decodeOptNum (alookup f "WarpFactor")).bind fun warp_factor =>
  (decodeOptStr (alookup f "Seed")).bind fun seed =>
  (decodeOptBool (alookup f "2D")).bind fun is_2d =>
  (decodeOptVal (alookup f "Input")).bind fun input =>
  .ok (.FastGradientWarp warp_scale warp_lacunarity warp_persistence warp_octaves warp_factor seed is_2d input)

def pVectorWarp (f : List (String × Json)) : Except SchemaError DensityType :=
  (decodeOptNum (alookup f "WarpFactor")).bind fun warp_factor =>
  (decodeOptVal (alookup f "WarpVector")).bind fun warp_vector =>
  (decodeOptNum (alookup f "X")).bind fun x =>
  (decodeOptNum (alookup f "Y")).bind fun y =>
  (decodeOptNum (alookup f "Z")).bind fun z =>
  (decodeVec (alookup f "Inputs")).bind fun inputs =>
  .ok (.VectorWarp warp_factor warp_vector x y z inputs)

def pDistance (f : List (String × Json)) : Except SchemaError DensityType :=
  (decodeOptVal (alookup f "Curve")).bind fun curve =>
  .ok (.Distance curve)

def pCube (f : List (String × Json)) : Except SchemaError DensityType :=
  (decodeOptVal (alookup f "Curve")).bind fun curve =>
  .ok (.Cube curve)

def pEllipsoid (f : List (String × Json)) : Except SchemaError DensityType :=
  (decodeOptVal (alookup f "Curve")).bind fun curve =>
  (decodeOptVal (alookup f "Scale")).bind fun scale =>
  (decodeOptNum (alookup f "X")).bind fun x =>
  (decodeOptNum (alookup f "Y")).bind fun y =>
  (decodeOptNum (alookup f "Z")).bind fun z =>
  (decodeOptNum (alookup f "Spin")).bind fun spin =>
  .ok (.Ellipsoid curve scale x y z spin)

def pCuboid (f : List (String × Json)) : Except SchemaError DensityType :=
  (decodeOptVal (alookup f "Curve")).bind fun curve =>
  (decodeOptVal (alookup f "Scale")).bind fun scale =>
  (decodeOptNum (alookup f "X")).bind fun x =>
  (decodeOptNum (alookup f "Y")).bind fun y =>
  (decodeOptNum (alookup f "Z")).bind fun z =>
  (decodeOptNum (alookup f "Spin")).bind fun spin =>
  (decodeOptVal (alookup f "NewYAxis")).bind fun new_y_axis =>
  .ok (.Cuboid curve scale x y z spin new_y_axis)

def pCylinder (f : List (String × Json)) : Except SchemaError DensityType :=
  (decodeOptVal (alookup f "AxialCurve")).bind fun axial_curve =>
  (decodeOptVal (alookup f "RadialCurve")).bind fun radial_curve =>
  (decodeOptNum (alookup f "Spin")).bind fun spin =>
  (decodeOptVal (alookup f "NewYAxis")).bind fun new_y_axis =>
  .ok (.Cylinder axial_curve radial_curve spin new_y_axis)

def pPlane (f : List (String × Json)) : Except SchemaError DensityType :=
  (decodeOptVal (alookup f "PlaneNormal")).bind fun plane_normal =>
  (decodeOptNum (alookup f "X")).bind fun x =>
  (decodeOptNum (alookup f "Y")).bind fun y =>
  (decodeOptNum (alookup f "Z")).bind fun z =>
  (decodeOptVal (alookup f "Curve")).bind fun curve =>
  .ok (.Plane plane_normal x y z curve)

def pAxis (f : List (String × Json)) : Except SchemaError DensityType :=
  (decodeOptVal (alookup f "Axis")).bind fun axis =>
  (decodeOptNum (alookup f "X")).bind fun x =>
  (decodeOptNum (alookup f "Y")).bind fun y =>
  (decodeOptNum (alookup f "Z")).bind fun z =>
  (decodeOptVal (alookup f "Curve")).bind fun curve =>
  (decodeOptBool (alookup f "IsAnchored")).bind fun is_anchored =>
  .ok (.Axis axis x y z curve is_anchored)

def pShell (f : List (String × Json)) : Except SchemaError DensityType :=
  (decodeOptVal (alookup f "Axis")).bind fun axis =>
  (decodeOptNum (alookup f "X")).bind fun x =>
  (decodeOptNum (alookup f "Y")).bind fun y =>
  (decodeOptNum (alookup f "Z")).bind fun z =>
  (decodeOptBool (alookup f "Mirror")).bind fun mirror =>
  (decodeOptVal (alookup f "AngleCurve")).bind fun angle_curve =>
  (decodeOptVal (alookup f "DistanceCurve")).bind fun distance_curve =>
  .ok (.Shell axis x y z mirror angle_curve distance_curve)

def pAngle (f : List (String × Json)) : Except SchemaError DensityType :=
  (decodeOptVal (alookup f "Vector")).bind fun vector =>
  (decodeOptVal (alookup f "VectorProvider")).bind fun vector_provider =>
  .ok (.Angle vector vector_provider)

def pXValue (_f : List (String × Json)) : Except SchemaError DensityType :=
  .ok (.XValue)

def pYValue (_f : List (String × Json)) : Except SchemaError DensityType :=
  .ok (.YValue)

def pZValue (_f : List (String × Json)) : Except SchemaError DensityType :=
  .ok (.ZValue)

def pTerrain (_f : List (String × Json)) : Except SchemaError DensityType :=
  .ok (.Terrain)

def pBaseHeight (f : List (String × Json)) : Except SchemaError DensityType :=
  (decodeOptStr (alookup f "BaseHeightName")).bind fun base_height_name =>
  (decodeOptBool (alookup f "Distance")).bind fun distance =>
  .ok (.BaseHeight base_height_name distance)

def pCellWallDistance (f : List (String × Json)) : Except SchemaError DensityType :=
  (decodeOptVal (alookup f "Positions")).bind fun positions =>
  (decodeOptNum (alookup f "MaxDistance")).bind fun max_distance =>
  .ok (.CellWallDistance positions max_distance)

def pDistanceToBiomeEdge (_f : List (String × Json)) : Except SchemaError DensityType :=
  .ok (.DistanceToBiomeEdge)

def pGradient (f : List (String × Json)) : Except SchemaError DensityType :=
  (decodeOptNum (alookup f "From")).bind fun from_ =>
  (decodeOptNum (alookup f "To")).bind fun to_ =>
  (decodeOptNum (alookup f "FromY")).bind fun from_y =>
  (decodeOptNum (alookup f "ToY")).bind fun to_y =>
  .ok (.Gradient from_ to_ from_y to_y)

def pCache (f : List (String × Json)) : Except SchemaError DensityType :=
  (decodeOptInt (alookup f "Capacity")).bind fun capacity =>
  (decodeOptVal (alookup f "Input")).bind fun input =>
  .ok (.Cache capacity input)

def pCache2D (f : List (String × Json)) : Except SchemaError DensityType :=
  (decodeOptVal (alookup f "Input")).bind fun input =>
  .ok (.Cache2D input)

def pYSampled (f : List (String × Json)) : Except SchemaError DensityType :=
  (decodeOptNum (alookup f "Y")).bind fun y =>
  (decodeOptVal (alookup f "Input")).bind fun input =>
  .ok (.YSampled y input)

def pSwitch (f : List (String × Json)) : Except SchemaError DensityType :=
  (decodeVec (alookup f "SwitchCases")).bind fun switch_cases =>
  (decodeOptVal (alookup f "Input")).bind fun input =>
  .ok (.Switch switch_cases input)

def pSwitchState (f : List (String × Json)) : Except SchemaError DensityType :=
  (decodeOptStr (alookup f "SwitchState")).bind fun switch_state =>
  (decodeOptVal (alookup f "Input")).bind fun input =>
  .ok (.SwitchState switch_state input)

def pPositionsCellNoise (f : List (String × Json)) : Except SchemaError DensityType :=
  (decodeOptVal (alookup f "Positions")).bind fun positions =>
  (decodeOptVal (alookup f "ReturnType")).bind fun return_type =>
  (decodeOptVal (alookup f "DistanceFunction")).bind fun distance_function =>
  (decodeOptNum (alookup f "MaxDistance")).bind fun max_distance =>
  .ok (.PositionsCellNoise positions return_type distance_function max_distance)

def pPositions3D (f : List (String × Json)) : Except SchemaError DensityType :=
  (decodeOptVal (alookup f "Positions")).bind fun positions =>
  (decodeOptVal (alookup f "Density")).bind fun density =>
  (decodeOptNum (alookup f "MaxDistance")).bind fun max_distance =>
  .ok (.Positions3D positions density max_distance)

def pPositionsPinch (f : List (String × Json)) : Except SchemaError DensityType :=
  (decodeOptVal (alookup f "Positions")).bind fun positions =>
  (decodeOptVal (alookup f "PinchCurve")).bind fun pinch_curve =>
  (decodeOptNum (alookup f "MaxDistance")).bind fun max_distance =>
  (decodeOptBool (alookup f "NormalizeDistance")).bind fun normalize_distance =>
  (decodeOptBool (alookup f "HorizontalPinch")).bind fun horizontal_pinch =>
  (decodeOptNum (alookup f "PositionsMaxY")).bind fun positions_max_y =>
  (decodeOptNum (alookup f "PositionsMinY")).bind fun positions_min_y =>
  (decodeOptVal (alookup f "Input")).bind fun input =>
  .ok (.PositionsPinch positions pinch_curve max_distance normalize_distance horizontal_pinch positions_max_y positions_min_y input)

def pPositionsTwist (f : List (String × Json)) : Except SchemaError DensityType :=
  (decodeOptVal (alookup f "Positions")).bind fun positions =>
  (decodeOptVal (alookup f "TwistCurve")).bind fun twist_curve =>
  (decodeOptVal (alookup f "TwistAxis")).bind fun twist_axis =>
  (decodeOptNum (alookup f "X")).bind fun x =>
  (decodeOptNum (alookup f "Y")).bind fun y =>
  (decodeOptNum (alookup f "Z")).bind fun z =>
  (decodeOptNum (alookup f "MaxDistance")).bind fun max_distance =>
  (decodeOptBool (alookup f "NormalizeDistance")).bind fun normalize_distance =>
  (decodeOptVal (alookup f "Input")).bind fun input =>
  .ok (.PositionsTwist positions twist_curve twist_axis x y z max_distance normalize_distance input)

def pExported (f : List (String × Json)) : Except SchemaError DensityType :=
  (decodeOptBool (alookup f "SingleInstance")).bind fun single_instance =>
  (decodeOptVal (alookup f "Density")).bind fun density =>
  (decodeOptVal (alookup f "Input")).bind fun input =>
  .ok (.Exported single_instance density input)

def pImported (f : List (String × Json)) : Except SchemaError DensityType :=
  (decodeOptStr (alookup f "Name")).bind fun name =>
  .ok (.Imported name)

def pPipeline (f : List (String × Json)) : Except SchemaError DensityType :=
  (decodeVec (alookup f "Steps")).bind fun steps =>
  (decodeOptVal (alookup f "Input")).bind fun input =>
  .ok (.Pipeline steps input)

/-- The dispatch table the serde `#[serde(tag = "Type")]` derive encodes:
one field parser per variant name. -/
def parserTable : List (String × (List (String × Json) → Except SchemaError DensityType)) :=
  [
   ("SimplexNoise2D", pSimplexNoise2D),
   ("SimplexNoise3D", pSimplexNoise3D),
   ("CellNoise2D", pCellNoise2D),
   ("CellNoise3D", pCellNoise3D),
   ("Constant", pConstant),
   ("Sum", pSum),
   ("Multiplier", pMultiplier),
   ("Abs", pAbs),
   ("Inverter", pInverter),
   ("Sqrt", pSqrt),
   ("Pow", pPow),
   ("OffsetConstant", pOffsetConstant),
   ("AmplitudeConstant", pAmplitudeConstant),
   ("Clamp", pClamp),
   ("SmoothClamp", pSmoothClamp),
   ("Floor", pFloor),
   ("SmoothFloor", pSmoothFloor),
   ("Ceiling", pCeiling),
   ("SmoothCeiling", pSmoothCeiling),
   ("Min", pMin),
   ("SmoothMin", pSmoothMin),
   ("Max", pMax),
   ("SmoothMax", pSmoothMax),
   ("Normalizer", pNormalizer),
   ("CurveMapper", pCurveMapper),
   ("Offset", pOffset),
   ("Amplitude", pAmplitude),
   ("Mix", pMix),
   ("MultiMix", pMultiMix),
   ("Scale", pScale),
   ("Slider", pSlider),
   ("Rotator", pRotator),
   ("Anchor", pAnchor),
   ("XOverride", pXOverride),
   ("YOverride", pYOverride),
   ("ZOverride", pZOverride),
   ("GradientWarp", pGradientWarp),
   ("FastGradientWarp", pFastGradientWarp),
   ("VectorWarp", pVectorWarp),
   ("Distance", pDistance),
   ("Cube", pCube),
   ("Ellipsoid", pEllipsoid),
   ("Cuboid", pCuboid),
   ("Cylinder", pCylinder),
   ("Plane", pPlane),
   ("Axis", pAxis),
   ("Shell", pShell),
   ("Angle", pAngle),
   ("XValue", pXValue),
   ("YValue", pYValue),
   ("ZValue", pZValue),
   ("Terrain", pTerrain),
   ("BaseHeight", pBaseHeight),
   ("CellWallDistance", pCellWallDistance),
   ("DistanceToBiomeEdge", pDistanceToBiomeEdge),
   ("Gradient", pGradient),
   ("Cache", pCache),
   ("Cache2D", pCache2D),
   ("YSampled", pYSampled),
   ("Switch", pSwitch),
   ("SwitchState", pSwitchState),
   ("PositionsCellNoise", pPositionsCellNoise),
   ("Positions3D", pPositions3D),
   ("PositionsPinch", pPositionsPinch),
   ("PositionsTwist", pPositionsTwist),
   ("Exported", pExported),
   ("Imported", pImported),
   ("Pipeline", pPipeline)
  ]

/-- The 68 variant names of the schema, in declaration order. -/
def variantNames : List String :=
  [
   "SimplexNoise2D",
   "SimplexNoise3D",
   "CellNoise2D",
   "CellNoise3D",
   "Constant",
   "Sum",
   "Multiplier",
   "Abs",
   "Inverter",
   "Sqrt",
   "Pow",
   "OffsetConstant",
   "AmplitudeConstant",
   "Clamp",
   "SmoothClamp",
   "Floor",
   "SmoothFloor",
   "Ceiling",
   "SmoothCeiling",
   "Min",
   "SmoothMin",
   "Max",
   "SmoothMax",
   "Normalizer",
   "CurveMapper",
   "Offset",
   "Amplitude",
   "Mix",
   "MultiMix",
   "Scale",
   "Slider",
   "Rotator",
   "Anchor",
   "XOverride",
   "YOverride",
   "ZOverride",
   "GradientWarp",
   "FastGradientWarp",
   "VectorWarp",
   "Distance",
   "Cube",
   "Ellipsoid",
   "Cuboid",
   "Cylinder",
   "Plane",
   "Axis",
   "Shell",
   "Angle",
   "XValue",
   "YValue",
   "ZValue",
   "Terrain",
   "BaseHeight",
   "CellWallDistance",
   "DistanceToBiomeEdge",
   "Gradient",
   "Cache",
   "Cache2D",
   "YSampled",
   "Switch",
   "SwitchState",
   "PositionsCellNoise",
   "Positions3D",
   "PositionsPinch",
   "PositionsTwist",
   "Exported",
   "Imported",
   "Pipeline"
  ]

/-- Every JSON key the schema knows: the discriminator plus every field key of
every variant. A key outside this list is unknown to the whole schema. -/
def schemaKeys : List String :=
  [
   "Type",
   "Lacunarity",
   "Persistence",
   "Scale",
   "Octaves",
   "Seed",
   "ScaleXZ",
   "ScaleY",
   "ReturnType",
   "DistanceFunction",
   "Value",
   "Inputs",
   "Input",
   "Exponent",
   "Offset",
   "Amplitude",
   "WallA",
   "WallB",
   "Range",
   "Floor",
   "Ceiling",
   "FromMin",
   "FromMax",
   "ToMin",
   "ToMax",
   "Curve",
   "Keys",
   "X",
   "Y",
   "Z",
   "SlideX",
   "SlideY",
   "SlideZ",
   "NewYAxis",
   "SpinAngle",
   "Reverse",
   "Override",
   "SampleRange",
   "WarpFactor",
   "2D",
   "YFor2D",
   "WarpScale",
   "WarpLacunarity",
   "WarpPersistence",
   "WarpOctaves",
   "WarpVector",
   "Spin",
   "AxialCurve",
   "RadialCurve",
   "PlaneNormal",
   "Axis",
   "IsAnchored",
   "Mirror",
   "AngleCurve",
   "DistanceCurve",
   "Vector",
   "VectorProvider",
   "BaseHeightName",
   "Distance",
   "Positions",
   "MaxDistance",
   "From",
   "To",
   "FromY",
   "ToY",
   "Capacity",
   "SwitchCases",
   "SwitchState",
   "Density",
   "PinchCurve",
   "NormalizeDistance",
   "HorizontalPinch",
   "PositionsMaxY",
   "PositionsMinY",
   "TwistCurve",
   "TwistAxis",
   "SingleInstance",
   "Name",
   "Steps"
  ]

/-- Each variant as built from an object carrying only the discriminator:
every optional field `none`, every `Inputs`-style list empty. -/
def defaultTable : List (String × DensityType) :=
  [
   ("SimplexNoise2D", .SimplexNoise2D none none none none none),
   ("SimplexNoise3D", .SimplexNoise3D none none none none none none),
   ("CellNoise2D", .CellNoise2D none none none none),
   ("CellNoise3D", .CellNoise3D none none none none),
   ("Constant", .Constant none),
   ("Sum", .Sum []),
   ("Multiplier", .Multiplier []),
   ("Abs", .Abs none),
   ("Inverter", .Inverter none),
   ("Sqrt", .Sqrt none),
   ("Pow", .Pow none none),
   ("OffsetConstant", .OffsetConstant none none),
   ("AmplitudeConstant", .AmplitudeConstant none none),
   ("Clamp", .Clamp none none none),
   ("SmoothClamp", .SmoothClamp none none none none),
   ("Floor", .Floor none none),
   ("SmoothFloor", .SmoothFloor none none none),
   ("Ceiling", .Ceiling none none),
   ("SmoothCeiling", .SmoothCeiling none none none),
   ("Min", .Min []),
   ("SmoothMin", .SmoothMin none []),
   ("Max", .Max []),
   ("SmoothMax", .SmoothMax none []),
   ("Normalizer", .Normalizer none none none none none),
   ("CurveMapper", .CurveMapper none none),
   ("Offset", .Offset none none),
   ("Amplitude", .Amplitude none none),
   ("Mix", .Mix []),
   ("MultiMix", .MultiMix [] []),
   ("Scale", .Scale none none none none),
   ("Slider", .Slider none none none none),
   ("Rotator", .Rotator none none none none none none),
   ("Anchor", .Anchor none none),
   ("XOverride", .XOverride none none),
   ("YOverride", .YOverride none none),
   ("ZOverride", .ZOverride none none),
   ("GradientWarp", .GradientWarp none none none none []),
   ("FastGradientWarp", .FastGradientWarp none none none none none none none none),
   ("VectorWarp", .VectorWarp none none none none none []),
   ("Distance", .Distance none),
   ("Cube", .Cube none),
   ("Ellipsoid", .Ellipsoid none none none none none none),
   ("Cuboid", .Cuboid none none none none none none none),
   ("Cylinder", .Cylinder none none none none),
   ("Plane", .Plane none none none none none),
   ("Axis", .Axis none none none none none none),
   ("Shell", .Shell none none none none none none none),
   ("Angle", .Angle none none),
   ("XValue", .XValue),
   ("YValue", .YValue),
   ("ZValue", .ZValue),
   ("Terrain", .Terrain),
   ("BaseHeight", .BaseHeight none none),
   ("CellWallDistance", .CellWallDistance none none),
   ("DistanceToBiomeEdge", .DistanceToBiomeEdge),
   ("Gradient", .Gradient none none none none),
   ("Cache", .Cache none none),
   ("Cache2D", .Cache2D none),
   ("YSampled", .YSampled none none),
   ("Switch", .Switch [] none),
   ("SwitchState", .SwitchState none none),
   ("PositionsCellNoise", .PositionsCellNoise none none none none),
   ("Positions3D", .Positions3D none none none),
   ("PositionsPinch", .PositionsPinch none none none none none none none none),
   ("PositionsTwist", .PositionsTwist none none none none none none none none none),
   ("Exported", .Exported none none none),
   ("Imported", .Imported none),
   ("Pipeline", .Pipeline [] none)
  ]

def defaultNode (t : String) : Option DensityType := alookup defaultTable t

/-- The serde `Serialize` derive for the internally tagged enum: an object whose
first key is the `Type` tag, then each field under its renamed key; `None`
serializes as JSON null, a raw sub-tree value serializes as itself. -/
def serialize : DensityType → Json
  | .SimplexNoise2D lacunarity persistence scale octaves seed =>
      Json.obj [("Type", Json.str "SimplexNoise2D"), ("Lacunarity", encOptNum lacunarity), ("Persistence", encOptNum persistence), ("Scale", encOptNum scale), ("Octaves", encOptInt octaves), ("Seed", encOptStr seed)]
  | .SimplexNoise3D lacunarity persistence scale_xz scale_y octaves seed =>
      Json.obj [("Type", Json.str "SimplexNoise3D"), ("Lacunarity", encOptNum lacunarity), ("Persistence", encOptNum persistence), ("ScaleXZ", encOptNum scale_xz), ("ScaleY", encOptNum scale_y), ("Octaves", encOptInt octaves), ("Seed", encOptStr seed)]
  | .CellNoise2D scale seed return_type distance_function =>
      Json.obj [("Type", Json.str "CellNoise2D"), ("Scale", encOptNum scale), ("Seed", encOptStr seed), ("ReturnType", encOptStr return_type), ("DistanceFunction", encOptStr distance_function)]
  | .CellNoise3D scale seed return_type distance_function =>
      Json.obj [("Type", Json.str "CellNoise3D"), ("Scale", encOptNum scale), ("Seed", encOptStr seed), ("ReturnType", encOptStr return_type), ("DistanceFunction", encOptStr distance_function)]
  | .Constant value =>
      Json.obj [("Type", Json.str "Constant"), ("Value", encOptNum value)]
  | .Sum inputs =>
      Json.obj [("Type", Json.str "Sum"), ("Inputs", Json.arr inputs)]
  | .Multiplier inputs =>
      Json.obj [("Type", Json.str "Multiplier"), ("Inputs", Json.arr inputs)]
  | .Abs input =>
      Json.obj [("Type", Json.str "Abs"), ("Input", encOptVal input)]
  | .Inverter input =>
      Json.obj [("Type", Json.str "Inverter"), ("Input", encOptVal input)]
  | .Sqrt input =>
      Json.obj [("Type", Json.str "Sqrt"), ("Input", encOptVal input)]
  | .Pow exponent input =>
      Json.obj [("Type", Json.str "Pow"), ("Exponent", encOptNum exponent), ("Input", encOptVal input)]
  | .OffsetConstant offset input =>
      Json.obj [("Type", Json.str "OffsetConstant"), ("Offset", encOptNum offset), ("Input", encOptVal input)]
  | .AmplitudeConstant amplitude input =>
      Json.obj [("Type", Json.str "AmplitudeConstant"), ("Amplitude", encOptNum amplitude), ("Input", encOptVal input)]
  | .Clamp wall_a wall_b input =>
      Json.obj [("Type", Json.str "Clamp"), ("WallA", encOptNum wall_a), ("WallB", encOptNum wall_b), ("Input", encOptVal input)]
  | .SmoothClamp wall_a wall_b range input =>
      Json.obj [("Type", Json.str "SmoothClamp"), ("WallA", encOptNum wall_a), ("WallB", encOptNum wall_b), ("Range", encOptNum range), ("Input", encOptVal input)]
  | .Floor floor input =>
      Json.obj [("Type", Json.str "Floor"), ("Floor", encOptNum floor), ("Input", encOptVal input)]
  | .SmoothFloor floor range input =>
      Json.obj [("Type", Json.str "SmoothFloor"), ("Floor", encOptNum floor), ("Range", encOptNum range), ("Input", encOptVal input)]
  | .Ceiling ceiling input =>
      Json.obj [("Type", Json.str "Ceiling"), ("Ceiling", encOptNum ceiling), ("Input", encOptVal input)]
  | .SmoothCeiling ceiling range input =>
      Json.obj [("Type", Json.str "SmoothCeiling"), ("Ceiling", encOptNum ceiling), ("Range", encOptNum range), ("Input", encOptVal input)]
  | .Min inputs =>
      Json.obj [("Type", Json.str "Min"), ("Inputs", Json.arr inputs)]
  | .SmoothMin range inputs =>
      Json.obj [("Type", Json.str "SmoothMin"), ("Range", encOptNum range), ("Inputs", Json.arr inputs)]
  | .Max inputs =>
      Json.obj [("Type", Json.str "Max"), ("Inputs", Json.arr inputs)]
  | .SmoothMax range inputs =>
      Json.obj [("Type", Json.str "SmoothMax"), ("Range", encOptNum range), ("Inputs", Json.arr inputs)]
  | .Normalizer from_min from_max to_min to_max input =>
      Json.obj [("Type", Json.str "Normalizer"), ("FromMin", encOptNum from_min), ("FromMax", encOptNum from_max), ("ToMin", encOptNum to_min), ("ToMax", encOptNum to_max), ("Input", encOptVal input)]
  | .CurveMapper curve input =>
      Json.obj [("Type", Json.str "CurveMapper"), ("Curve", encOptVal curve), ("Input", encOptVal input)]
  | .Offset offset input =>
      Json.obj [("Type", Json.str "Offset"), ("Offset", encOptVal offset), ("Input", encOptVal input)]
  | .Amplitude amplitude input =>
      Json.obj [("Type", Json.str "Amplitude"), ("Amplitude", encOptVal amplitude), ("Input", encOptVal input)]
  | .Mix inputs =>
      Json.obj [("Type", Json.str "Mix"), ("Inputs", Json.arr inputs)]
  | .MultiMix keys inputs =>
      Json.obj [("Type", Json.str "MultiMix"), ("Keys", Json.arr keys), ("Inputs", Json.arr inputs)]
  | .Scale x y z input =>
      Json.obj [("Type", Json.str "Scale"), ("X", encOptNum x), ("Y", encOptNum y), ("Z", encOptNum z), ("Input", encOptVal input)]
  | .Slider slide_x slide_y slide_z input =>
      Json.obj [("Type", Json.str "Slider"), ("SlideX", encOptNum slide_x), ("SlideY", encOptNum slide_y), ("SlideZ", encOptNum slide_z), ("Input", encOptVal input)]
  | .Rotator new_y_axis x y z spin_angle input =>
      Json.obj [("Type", Json.str "Rotator"), ("NewYAxis", encOptVal new_y_axis), ("X", encOptNum x), ("Y", encOptNum y), ("Z", encOptNum z), ("SpinAngle", encOptNum spin_angle), ("Input", encOptVal input)]
  | .Anchor reverse input =>
      Json.obj [("Type", Json.str "Anchor"), ("Reverse", encOptBool reverse), ("Input", encOptVal input)]
  | .XOverride input override_value =>
      Json.obj [("Type", Json.str "XOverride"), ("Input", encOptVal input), ("Override", encOptVal override_value)]
  | .YOverride input override_value =>
      Json.obj [("Type", Json.str "YOverride"), ("Input", encOptVal input), ("Override", encOptVal override_value)]
  | .ZOverride input override_value =>
      Json.obj [("Type", Json.str "ZOverride"), ("Input", encOptVal input), ("Override", encOptVal override_value)]
  | .GradientWarp sample_range warp_factor is_2d y_for_2d inputs =>
      Json.obj [("Type", Json.str "GradientWarp"), ("SampleRange", encOptNum sample_range), ("WarpFactor", encOptNum warp_factor), ("2D", encOptBool is_2d), ("YFor2D", encOptNum y_for_2d), ("Inputs", Json.arr inputs)]
  | .FastGradientWarp warp_scale warp_lacunarity warp_persistence warp_octaves warp_factor seed is_2d input =>
      Json.obj [("Type", Json.str "FastGradientWarp"), ("WarpScale", encOptNum warp_scale), ("WarpLacunarity", encOptNum warp_lacunarity), ("WarpPersistence", encOptNum warp_persistence), ("WarpOctaves", encOptInt warp_octaves), ("WarpFactor", encOptNum warp_factor), ("Seed", encOptStr seed), ("2D", encOptBool is_2d), ("Input", encOptVal input)]
  | .VectorWarp warp_factor warp_vector x y z inputs =>
      Json.obj [("Type", Json.str "VectorWarp"), ("WarpFactor", encOptNum warp_factor), ("WarpVector", encOptVal warp_vector), ("X", encOptNum x), ("Y", encOptNum y), ("Z", encOptNum z), ("Inputs", Json.arr inputs)]
  | .Distance curve =>
      Json.obj [("Type", Json.str "Distance"), ("Curve", encOptVal curve)]
  | .Cube curve =>
      Json.obj [("Type", Json.str "Cube"), ("Curve", encOptVal curve)]
  | .Ellipsoid curve scale x y z spin =>
      Json.obj [("Type", Json.str "Ellipsoid"), ("Curve", encOptVal curve), ("Scale", encOptVal scale), ("X", encOptNum x), ("Y", encOptNum y), ("Z", encOptNum z), ("Spin", encOptNum spin)]
  | .Cuboid curve scale x y z spin new_y_axis =>
      Json.obj [("Type", Json.str "Cuboid"), ("Curve", encOptVal curve), ("Scale", encOptVal scale), ("X", encOptNum x), ("Y", encOptNum y), ("Z", encOptNum z), ("Spin", encOptNum spin), ("NewYAxis", encOptVal new_y_axis)]
  | .Cylinder axial_curve radial_curve spin new_y_axis =>
      Json.obj [("Type", Json.str "Cylinder"), ("AxialCurve", encOptVal axial_curve), ("RadialCurve", encOptVal radial_curve), ("Spin", encOptNum spin), ("NewYAxis", encOptVal new_y_axis)]
  | .Plane plane_normal x y z curve =>
      Json.obj [("Type", Json.str "Plane"), ("PlaneNormal", encOptVal plane_normal), ("X", encOptNum x), ("Y", encOptNum y), ("Z", encOptNum z), ("Curve", encOptVal curve)]
  | .Axis axis x y z curve is_anchored =>
      Json.obj [("Type", Json.str "Axis"), ("Axis", encOptVal axis), ("X", encOptNum x), ("Y", encOptNum y), ("Z", encOptNum z), ("Curve", encOptVal curve), ("IsAnchored", encOptBool is_anchored)]
  | .Shell axis x y z mirror angle_curve distance_curve =>
      Json.obj [("Type", Json.str "Shell"), ("Axis", encOptVal axis), ("X", encOptNum x), ("Y", encOptNum y), ("Z", encOptNum z), ("Mirror", encOptBool mirror), ("AngleCurve", encOptVal angle_curve), ("DistanceCurve", encOptVal distance_curve)]
  | .Angle vector vector_provider =>
      Json.obj [("Type", Json.str "Angle"), ("Vector", encOptVal vector), ("VectorProvider", encOptVal vector_provider)]
  | .XValue =>
      Json.obj [("Type", Json.str "XValue")]
  | .YValue =>
      Json.obj [("Type", Json.str "YValue")]
  | .ZValue =>
      Json.obj [("Type", Json.str "ZValue")]
  | .Terrain =>
      Json.obj [("Type", Json.str "Terrain")]
  | .BaseHeight base_height_name distance =>
      Json.obj [("Type", Json.str "BaseHeight"), ("BaseHeightName", encOptStr base_height_name), ("Distance", encOptBool distance)]
  | .CellWallDistance positions max_distance =>
      Json.obj [("Type", Json.str "CellWallDistance"), ("Positions", encOptVal positions), ("MaxDistance", encOptNum max_distance)]
  | .DistanceToBiomeEdge =>
      Json.obj [("Type", Json.str "DistanceToBiomeEdge")]
  | .Gradient from_ to_ from_y to_y =>
      Json.obj [("Type", Json.str "Gradient"), ("From", encOptNum from_), ("To", encOptNum to_), ("FromY", encOptNum from_y), ("ToY", encOptNum to_y)]
  | .Cache capacity input =>
      Json.obj [("Type", Json.str "Cache"), ("Capacity", encOptInt capacity), ("Input", encOptVal input)]
  | .Cache2D input =>
      Json.obj [("Type", Json.str "Cache2D"), ("Input", encOptVal input)]
  | .YSampled y input =>
      Json.obj [("Type", Json.str "YSampled"), ("Y", encOptNum y), ("Input", encOptVal input)]
  | .Switch switch_cases input =>
      Json.obj [("Type", Json.str "Switch"), ("SwitchCases", Json.arr switch_cases), ("Input", encOptVal input)]
  | .SwitchState switch_state input =>
      Json.obj [("Type", Json.str "SwitchState"), ("SwitchState", encOptStr switch_state), ("Input", encOptVal input)]
  | .PositionsCellNoise positions return_type distance_function max_distance =>
      Json.obj [("Type", Json.str "PositionsCellNoise"), ("Positions", encOptVal positions), ("ReturnType", encOptVal return_type), ("DistanceFunction", encOptVal distance_function), ("MaxDistance", encOptNum max_distance)]
  | .Positions3D positions density max_distance =>
      Json.obj [("Type", Json.str "Positions3D"), ("Positions", encOptVal positions), ("Density", encOptVal density), ("MaxDistance", encOptNum max_distance)]
  | .PositionsPinch positions pinch_curve max_distance normalize_distance horizontal_pinch positions_max_y positions_min_y input =>
      Json.obj [("Type", Json.str "PositionsPinch"), ("Positions", encOptVal positions), ("PinchCurve", encOptVal pinch_curve), ("MaxDistance", encOptNum max_distance), ("NormalizeDistance", encOptBool normalize_distance), ("HorizontalPinch", encOptBool horizontal_pinch), ("PositionsMaxY", encOptNum positions_max_y), ("PositionsMinY", encOptNum positions_min_y), ("Input", encOptVal input)]
  | .PositionsTwist positions twist_curve twist_axis x y z max_distance normalize_distance input =>
      Json.obj [("Type", Json.str "PositionsTwist"), ("Positions", encOptVal positions), ("TwistCurve", encOptVal twist_curve), ("TwistAxis", encOptVal twist_axis), ("X", encOptNum x), ("Y", encOptNum y), ("Z", encOptNum z), ("MaxDistance", encOptNum max_distance), ("NormalizeDistance", encOptBool normalize_distance), ("Input", encOptVal input)]
  | .Exported single_instance density input =>
      Json.obj [("Type", Json.str "Exported"), ("SingleInstance", encOptBool single_instance), ("Density", encOptVal density), ("Input", encOptVal input)]
  | .Imported name =>
      Json.obj [("Type", Json.str "Imported"), ("Name", encOptStr name)]
  | .Pipeline steps input =>
      Json.obj [("Type", Json.str "Pipeline"), ("Steps", Json.arr steps), ("Input", encOptVal input)]

/-- The optional raw-JSON sub-tree fields of a node, in declaration order. -/
def optJsonFields : DensityType → List (Option Json)
  | .SimplexNoise2D _ _ _ _ _ => []
  | .SimplexNoise3D _ _ _ _ _ _ => []
  | .CellNoise2D _ _ _ _ => []
  | .CellNoise3D _ _ _ _ => []
  | .Constant _ => []
  | .Sum _ => []
  | .Multiplier _ => []
  | .Abs input => [input]
  | .Inverter input => [input]
  | .Sqrt input => [input]
  | .Pow _ input => [input]
  | .OffsetConstant _ input => [input]
  | .AmplitudeConstant _ input => [input]
  | .Clamp _ _ input => [input]
  | .SmoothClamp _ _ _ input => [input]
  | .Floor _ input => [input]
  | .SmoothFloor _ _ input => [input]
  | .Ceiling _ input => [input]
  | .SmoothCeiling _ _ input => [input]
  | .Min _ => []
  | .SmoothMin _ _ => []
  | .Max _ => []
  | .SmoothMax _ _ => []
  | .Normalizer _ _ _ _ input => [input]
  | .CurveMapper curve input => [curve, input]
  | .Offset offset input => [offset, input]
  | .Amplitude amplitude input => [amplitude, input]
  | .Mix _ => []
  | .MultiMix _ _ => []
  | .Scale _ _ _ input => [input]
  | .Slider _ _ _ input => [input]
  | .Rotator new_y_axis _ _ _ _ input => [new_y_axis, input]
  | .Anchor _ input => [input]
  | .XOverride input override_value => [input, override_value]
  | .YOverride input override_value => [input, override_value]
  | .ZOverride input override_value => [input, override_value]
  | .GradientWarp _ _ _ _ _ => []
  | .FastGradientWarp _ _ _ _ _ _ _ input => [input]
  | .VectorWarp _ warp_vector _ _ _ _ => [warp_vector]
  | .Distance curve => [curve]
  | .Cube curve => [curve]
  | .Ellipsoid curve scale _ _ _ _ => [curve, scale]
  | .Cuboid curve scale _ _ _ _ new_y_axis => [curve, scale, new_y_axis]
  | .Cylinder axial_curve radial_curve _ new_y_axis => [axial_curve, radial_curve, new_y_axis]
  | .Plane plane_normal _ _ _ curve => [plane_normal, curve]
  | .Axis axis _ _ _ curve _ => [axis, curve]
  | .Shell axis _ _ _ _ angle_curve distance_curve => [axis, angle_curve, distance_curve]
  | .Angle vector vector_provider => [vector, vector_provider]
  | .XValue => []
  | .YValue => []
  | .ZValue => []
  | .Terrain => []
  | .BaseHeight _ _ => []
  | .CellWallDistance positions _ => [positions]
  | .DistanceToBiomeEdge => []
  | .Gradient _ _ _ _ => []
  | .Cache _ input => [input]
  | .Cache2D input => [input]
  | .YSampled _ input => [input]
  | .Switch _ input => [input]
  | .SwitchState _ input => [input]
  | .PositionsCellNoise positions return_type distance_function _ => [positions, return_type, distance_function]
  | .Positions3D positions density _ => [positions, density]
  | .PositionsPinch positions pinch_curve _ _ _ _ _ input => [positions, pinch_curve, input]
  | .PositionsTwist positions twist_curve twist_axis _ _ _ _ _ input => [positions, twist_curve, twist_axis, input]
  | .Exported _ density input => [density, input]
  | .Imported _ => []
  | .Pipeline _ input => [input]

/-- The serde-derived deserializer for the internally tagged enum: read the
required string discriminator `Type`, dispatch to that variant's field parser,
and report an unknown or absent discriminator as `UnknownType`. -/
def parse (j : Json) : Except SchemaError DensityType :=
  match j with
  | .obj fields =>
      match alookup fields "Type" with
      | some (.str t) =>
          match alookup parserTable t with
          | some p => p fields
          | none => .error .UnknownType
      | some _ => .error .TypeMismatch
      | none => .error .UnknownType
  | _ => .error .TypeMismatch

/-- Whether a JSON document nests no deeper than `d` levels of arrays/objects. -/
def depthLe : Nat → Json → Bool
  | _, .null => true
  | _, .bool _ => true
  | _, .num _ => true
  | _, .str _ => true
  | 0, .arr _ => false
  | 0, .obj _ => false
  | d + 1, .arr xs => xs.all (fun j => depthLe d j)
  | d + 1, .obj fs => fs.all (fun p => depthLe d p.2)

/-- Modelled from the spec: the parser's document entry point caps recursion
depth at a configured limit (the spec's example value, 512) and rejects deeper
documents with `SchemaError::TooDeep`. No depth guard exists in the schema
module itself; the surrounding parser code is not part of the available
sources. -/
def parseDocument (j : Json) : Except SchemaError DensityType :=
  if depthLe 512 j then parse j else .error .TooDeep

-- ## Evaluator fragments modelled from the spec (the evaluator sources are not
-- ## under the available src/ tree; only the schema is)

/-- Modelled from the spec: the error an evaluation of a failing sub-tree
reports. -/
inductive EvalError where
  | inputFailed
deriving DecidableEq

/-- Modelled from the spec: an input slot of a `Multiplier` node, as the
evaluator sees it — either a sub-tree that evaluates to a value, or one whose
evaluation fails. -/
inductive MultInput where
  | lit (q : ℚ)
  | failing

def evalInput : MultInput → Except EvalError ℚ
  | .lit q => .ok q
  | .failing => .error .inputFailed

/-- Modelled from the spec: `Multiplier` folds its `Inputs` left-to-right and
short-circuits to exactly 0 on an exact-zero input, without evaluating the
remaining inputs. -/
def multiplierFold (acc : ℚ) : List MultInput → Except EvalError ℚ
  | [] => .ok acc
  | i :: rest =>
    match evalInput i with
    | .error e => .error e
    | .ok v => if v = 0 then .ok 0 else multiplierFold (acc * v) rest

def multiplierEval (inputs : List MultInput) : Except EvalError ℚ :=
  multiplierFold 1 inputs

/-- A sample point (x, y, z). -/
structure Point where
  x : ℚ
  y : ℚ
  z : ℚ

def cacheFind : List ((ℚ × ℚ) × ℚ) → ℚ × ℚ → Option ℚ
  | [], _ => none
  | (k, v) :: es, key => if k = key then some v else cacheFind es key

/-- Modelled from the spec: `Cache2D` memoizes its input per (x, z) column —
the cache key excludes Y. On a miss it evaluates the input at the sample point
and stores the value under (x, z); on a hit it returns the stored value. -/
def cache2DEval (f : Point → ℚ) (p : Point) (st : List ((ℚ × ℚ) × ℚ)) :
    ℚ × List ((ℚ × ℚ) × ℚ) :=
  match cacheFind st (p.x, p.z) with
  | some v => (v, st)
  | none => (f p, ((p.x, p.z), f p) :: st)

/-- Two successive `Cache2D` evaluations in one fresh session: the pair of
values returned. -/
def cache2DTwice (f : Point → ℚ) (p₁ p₂ : Point) : ℚ × ℚ :=
  let r₁ := cache2DEval f p₁ []
  let r₂ := cache2DEval f p₂ r₁.2
  (r₁.1, r₂.1)

/-- A y-dependent stand-in field: distinct at (5, 10, 5) and (5, 99, 5), so
equality of the two cached results is informative. -/
def witnessField (p : Point) : ℚ := p.x + 100 * p.y + p.z

-- ## `write_asset_file` (src-tauri/src/commands/io.rs)

/-- serde_json's number formatting, down to a rational stand-in: integral
values print without a fraction. (Float shortest-round-trip formatting is not
itself modelled; no theorem depends on the digits.) -/
def renderNum (q : ℚ) : String :=
  if q.den = 1 then toString q.num else toString q

def pad (n : Nat) : String := String.mk (List.replicate n ' ')

/-- `serde_json::to_string_pretty`: two-space indentation, `": "` separators;
empty arrays and objects print compactly. String escaping is not modelled (no
document considered here needs an escape). On `serde_json::Value` this
serializer is total — the `Err` branch of `write_asset_file`'s serialization
step is unreachable. -/
def renderJson : Nat → Json → String
  | _, .null => "null"
  | _, .bool b => if b then "true" else "false"
  | _, .num q => renderNum q
  | _, .str s => "\"" ++ s ++ "\""
  | _, .arr [] => "[]"
  | ind, .arr (x :: xs) =>
      "[\n" ++
      String.intercalate ",\n"
        (((x :: xs).attach).map (fun e => pad (ind + 2) ++ renderJson (ind + 2) e.val)) ++
      "\n" ++ pad ind ++ "]"
  | _, .obj [] => "\x7b\x7d"
  | ind, .obj (kv :: fs) =>
      "\x7b\n" ++
      String.intercalate ",\n"
        (((kv :: fs).attach).map (fun e =>
          pad (ind + 2) ++ "\"" ++ e.val.1 ++ "\": " ++ renderJson (ind + 2) e.val.2)) ++
      "\n" ++ pad ind ++ "\x7d"
  termination_by _ j => sizeOf j
  decreasing_by
  · have h := List.sizeOf_lt_of_mem e.property
    simp only [Json.arr.sizeOf_spec, List.cons.sizeOf_spec] at *
    omega
  · rcases e with ⟨⟨a, b⟩, hmem⟩
    have h := List.sizeOf_lt_of_mem hmem
    simp only [Json.obj.sizeOf_spec, List.cons.sizeOf_spec, Prod.mk.sizeOf_spec] at *
    omega

/-- A flat filesystem: path to file contents. -/
def FS := String → Option String

def fsSet (fs : FS) (p c : String) : FS := fun q => if q = p then some c else fs q

def fsErase (fs : FS) (p : String) : FS := fun q => if q = p then none else fs q

/-- `Path::file_stem`: the file name up to its last dot, where a lone leading
dot (a hidden file such as `.gitignore`) starts no extension. -/
def stemOf (file : List Char) : List Char :=
  match file.reverse.dropWhile (fun c => c ≠ '.') with
  | [] => file
  | _ :: rest => if rest = [] then file else rest.reverse

/-- `file_path.with_extension("tmp")`: replace the file name's extension (or
append one) with `.tmp`. Note this replaces an existing extension, so
`data.json` becomes `data.tmp`, and a destination already named `*.tmp` is its
own temp path. -/
def withExtTmp (path : String) : String :=
  let rev := path.data.reverse
  let fileRev := rev.takeWhile (fun c => c ≠ '/')
  let dirRev := rev.dropWhile (fun c => c ≠ '/')
  ⟨dirRev.reverse ++ stemOf fileRev.reverse ++ ('.' :: ['t', 'm', 'p'])⟩

/-- The environment's outcome for one `write_asset_file` call: the temp-file
write or the rename may fail. -/
inductive WriteStep where
  | success
  | tmpWriteFails
  | renameFails

def isOkE {ε α : Type _} : Except ε α → Bool
  | .ok _ => true
  | .error _ => false

/-- `write_asset_file` of `commands/io.rs`: pretty-print the JSON, write it to
`path.with_extension("tmp")`, rename the temp file onto the destination.
The filesystem primitives are modelled atomically (a failed write leaves its
target unchanged); per POSIX, a rename whose source and destination are the
same existing file succeeds as a no-op, so `renameFails` cannot apply there. -/
def writeAssetFile (fs : FS) (path : String) (content : Json) (step : WriteStep) :
    Except String Unit × FS :=
  let json := renderJson 0 content
  let temp := withExtTmp path
  match step with
  | .tmpWriteFails => (.error "Failed to write temp file", fs)
  | .renameFails =>
      let fs1 := fsSet fs temp json
      if temp = path then (.ok (), fs1) else (.error "Failed to rename", fs1)
  | .success =>
      let fs1 := fsSet fs temp json
      (.ok (), fsSet (fsErase fs1 temp) path json)

-- ## `create_blank_project` (src-tauri/src/commands/io.rs)

/-- A filesystem with directories, for `create_blank_project`: paths are
component lists. -/
structure ProjFS where
  dirs : List (List String)
  files : List (List String × String)

def isDirectChild (parent child : List String) : Bool :=
  decide (child.length = parent.length + 1 ∧ child.take parent.length = parent)

/-- Whether `read_dir(p).next().is_some()`: some recorded path is a direct
child of `p`. -/
def hasEntry (fs : ProjFS) (p : List String) : Bool :=
  !((fs.dirs ++ fs.files.map Prod.fst).filter (fun q => isDirectChild p q)).isEmpty

/-- The `Settings/Settings.json` document `create_blank_project` writes. -/
def settingsJson : Json :=
  .obj [("CustomConcurrency", .num (-1)), ("BufferCapacityFactor", .num (3 / 10)),
        ("TargetViewDistance", .num 512), ("TargetPlayerCount", .num 3),
        ("StatsCheckpoints", .arr [])]

/-- The `WorldStructures/MainWorld.json` document `create_blank_project` writes. -/
def mainWorldJson : Json :=
  .obj [("Type", .str "NoiseRange"), ("DefaultBiome", .str "default_biome"),
        ("DefaultTransitionDistance", .num 16), ("MaxBiomeEdgeDistance", .num 32),
        ("Biomes", .arr [.obj [("Biome", .str "default_biome"), ("Min", .num (-1)),
          ("Max", .num 1)]]),
        ("Density", .obj [("Type", .str "SimplexNoise2D"), ("Lacunarity", .num 2),
          ("Persistence", .num (1 / 2)), ("Scale", .num 256), ("Octaves", .num 1),
          ("Seed", .str "main")]),
        ("Framework", .obj [])]

/-- The `Biomes/DefaultBiome.json` document `create_blank_project` writes. -/
def defaultBiomeJson : Json :=
  .obj [("Name", .str "default_biome"),
        ("Terrain", .obj [("Type", .str "DAOTerrain"),
          ("Density", .obj [("Type", .str "Constant"), ("Value", .num 0)])]),
        ("MaterialProvider", .obj [("Type", .str "Constant"), ("Material", .str "stone")]),
        ("Props", .arr []),
        ("EnvironmentProvider", .obj [("Type", .str "Constant"),
          ("Environment", .str "default")]),
        ("TintProvider", .obj [("Type", .str "Constant"), ("Color", .str "#7CFC00")])]

/-- The creation half of `create_blank_project`: `create_dir_all` for the three
subdirectories of `HytaleGenerator` (ancestors included) and the three JSON
files, all pretty-printed. -/
def createBlankFiles (fs : ProjFS) (target : List String) : ProjFS :=
  let gen := target ++ ["HytaleGenerator"]
  { dirs := fs.dirs ++ [target, gen, gen ++ ["Biomes"], gen ++ ["Settings"],
      gen ++ ["WorldStructures"]],
    files := fs.files ++
      [(gen ++ ["Settings", "Settings.json"], renderJson 0 settingsJson),
       (gen ++ ["WorldStructures", "MainWorld.json"], renderJson 0 mainWorldJson),
       (gen ++ ["Biomes", "DefaultBiome.json"], renderJson 0 defaultBiomeJson)] }

/-- `create_blank_project` of `commands/io.rs`: refuse an existing non-empty
target (`read_dir` errors on an existing non-directory target, which the `?`
propagates), otherwise scaffold the blank project. -/
def createBlankProject (fs : ProjFS) (target : List String) : Except String Unit × ProjFS :=
  if target ∈ fs.dirs then
    if hasEntry fs target then (.error "Target directory is not empty", fs)
    else (.ok (), createBlankFiles fs target)
  else if target ∈ fs.files.map Prod.fst then (.error "Not a directory", fs)
  else (.ok (), createBlankFiles fs target)

-- ## `parse_memory_value` (src-tauri/src/commands/hardware.rs)

def digitChars : List Char := ['0', '1', '2', '3', '4', '5', '6', '7', '8', '9']

/-- ASCII whitespace, for `str::trim` (the Unicode cases play no role here). -/
def isWs (c : Char) : Bool := decide (c = ' ' ∨ c = '\t' ∨ c = '\n' ∨ c = '\r')

def trimChars (cs : List Char) : List Char :=
  ((cs.dropWhile isWs).reverse.dropWhile isWs).reverse

def rustTrim (s : String) : String := ⟨trimChars s.data⟩

def lowerChar (c : Char) : Char :=
  if 'A' ≤ c ∧ c ≤ 'Z' then Char.ofNat (c.toNat + 32) else c

/-- `str::to_lowercase` restricted to ASCII, which covers the GB/MB suffixes. -/
def asciiLower (s : String) : String := ⟨s.data.map lowerChar⟩

/-- `str::strip_suffix`. -/
def dropSuffixOpt (s suf : String) : Option String :=
  if suf.data.length ≤ s.data.length ∧
     s.data.drop (s.data.length - suf.data.length) = suf.data
  then some ⟨s.data.take (s.data.length - suf.data.length)⟩ else none

def digitVal (c : Char) : Nat := c.toNat - 48

def digitsVal (cs : List Char) : Nat := cs.foldl (fun a c => a * 10 + digitVal c) 0

/-- `str::parse::<u64>`: an optional leading `+`, then decimal digits; overflow
past `u64::MAX` is an error. -/
def parseU64 (s : String) : Option Nat :=
  let l := if s.data.head? = some '+' then s.data.tail else s.data
  if l ≠ [] ∧ l.all Char.isDigit then
    if digitsVal l < 18446744073709551616 then some (digitsVal l) else none
  else none

/-- `str::parse::<f64>` down to the decimal forms a memory string carries
(digits with an optional fraction), as exact rationals. -/
def parseF64 (s : String) : Option ℚ :=
  let intPart := s.data.takeWhile (fun c => c ≠ '.')
  match s.data.dropWhile (fun c => c ≠ '.') with
  | [] =>
      if intPart ≠ [] ∧ intPart.all Char.isDigit then some (digitsVal intPart) else none
  | _ :: frac =>
      if intPart ≠ [] ∧ frac ≠ [] ∧ intPart.all Char.isDigit ∧ frac.all Char.isDigit
      then some ((digitsVal intPart : ℚ) + (digitsVal frac : ℚ) / (10 : ℚ) ^ frac.length)
      else none

/-- Rust's saturating `as u64` cast from `f64`. -/
def castU64 (q : ℚ) : Nat :=
  if q ≤ 0 then 0 else min q.floor.toNat 18446744073709551615

/-- `parse_memory_value` of `commands/hardware.rs`: try a `gb`/`mb` suffix with
an `f64` payload, else read a plain `u64` — over 1,000,000 it is taken as
bytes and divided down to megabytes, otherwise it is already megabytes. -/
def parse_memory_value (s : String) : Option Nat :=
  let t := rustTrim s
  let lower := asciiLower t
  let gbA := ((dropSuffixOpt lower "gb").orElse (fun _ => dropSuffixOpt lower " gb")).bind
    (fun ns => (parseF64 (rustTrim ns)).map (fun v => castU64 (v * 1024)))
  match gbA with
  | some r => some r
  | none =>
    let mbA := ((dropSuffixOpt lower "mb").orElse (fun _ => dropSuffixOpt lower " mb")).bind
      (fun ns => (parseF64 (rustTrim ns)).map (fun v => castU64 v))
    match mbA with
    | some r => some r
    | none =>
      match parseU64 t with
      | some val => if val > 1000000 then some (val / (1024 * 1024)) else some val
      | none => none

-- ## Generic lemmas

theorem alookup_eq_none {β : Type _} {l : List (String × β)} {k : String}
    (h : k ∉ l.map Prod.fst) : alookup l k = none := by
  induction l with
  | nil => rfl
  | cons p es ih =>
    simp only [List.map_cons, List.mem_cons] at h
    push_neg at h
    simp only [alookup]
    rw [if_neg (fun he => h.1 he.symm)]
    exact ih h.2

theorem alookup_mem {β : Type _} {l : List (String × β)} {k : String} {b : β}
    (h : alookup l k = some b) : (k, b) ∈ l := by
  induction l with
  | nil => exact absurd h (by simp [alookup])
  | cons p es ih =>
    obtain ⟨a, c⟩ := p
    simp only [alookup] at h
    by_cases he : a = k
    · rw [if_pos he] at h
      injection h with h2
      rw [← he, ← h2]
      exact List.mem_cons_self _ _
    · rw [if_neg he] at h
      exact List.mem_cons_of_mem _ (ih h)

theorem alookup_isSome_of_mem {β : Type _} (l : List (String × β)) (k : String)
    (h : k ∈ l.map Prod.fst) : (alookup l k).isSome := by
  induction l with
  | nil => simp at h
  | cons p es ih =>
    simp only [List.map_cons, List.mem_cons] at h
    simp only [alookup]
    by_cases he : p.1 = k
    · rw [if_pos he]; rfl
    · rw [if_neg he]
      exact ih (h.resolve_left (fun hk => he hk.symm))

theorem alookup_avoid {β : Type _} (extras : List (String × β)) (k : String)
    (hex : ∀ p ∈ extras, p.1 ∉ schemaKeys) (hk : k ∈ schemaKeys) :
    alookup extras k = none :=
  alookup_eq_none (fun hmem => by
    obtain ⟨p, hp, he⟩ := List.mem_map.mp hmem
    exact hex p hp (he ▸ hk))

-- ## Decoder/encoder round trips and decoder outcomes

theorem decode_enc_optNum (o : Option ℚ) : decodeOptNum (some (encOptNum o)) = .ok o := by
  cases o <;> rfl

theorem decode_enc_optInt (o : Option Int32) : decodeOptInt (some (encOptInt o)) = .ok o := by
  cases o with
  | none => rfl
  | some i =>
    obtain ⟨v, hv⟩ := i
    simp [encOptInt, decodeOptInt, Rat.den_intCast, Rat.num_intCast, hv.1, hv.2]

theorem decode_enc_optStr (o : Option String) : decodeOptStr (some (encOptStr o)) = .ok o := by
  cases o <;> rfl

theorem decode_enc_optBool (o : Option Bool) : decodeOptBool (some (encOptBool o)) = .ok o := by
  cases o <;> rfl

theorem decode_enc_optVal (o : Option Json) (h : o ≠ some Json.null) :
    decodeOptVal (some (encOptVal o)) = .ok o := by
  cases o with
  | none => rfl
  | some v =>
    cases v with
    | null => exact absurd rfl h
    | bool b => rfl
    | num q => rfl
    | str s => rfl
    | arr xs => rfl
    | obj fs => rfl

theorem decode_enc_vec (xs : List Json) : decodeVec (some (Json.arr xs)) = .ok xs := rfl

theorem decodeOptNum_out (x : Option Json) :
    (∃ a, decodeOptNum x = .ok a) ∨ decodeOptNum x = .error .TypeMismatch := by
  rcases x with _ | j
  · exact .inl ⟨_, rfl⟩
  · cases j <;> first | exact .inl ⟨_, rfl⟩ | exact .inr rfl

theorem decodeOptInt_out (x : Option Json) :
    (∃ a, decodeOptInt x = .ok a) ∨ decodeOptInt x = .error .TypeMismatch := by
  rcases x with _ | j
  · exact .inl ⟨_, rfl⟩
  · cases j with
    | num q =>
      simp only [decodeOptInt]
      split
      · exact .inl ⟨_, rfl⟩
      · exact .inr rfl
    | null => exact .inl ⟨_, rfl⟩
    | bool b => exact .inr rfl
    | str s => exact .inr rfl
    | arr xs => exact .inr rfl
    | obj fs => exact .inr rfl

theorem decodeOptStr_out (x : Option Json) :
    (∃ a, decodeOptStr x = .ok a) ∨ decodeOptStr x = .error .TypeMismatch := by
  rcases x with _ | j
  · exact .inl ⟨_, rfl⟩
  · cases j <;> first | exact .inl ⟨_, rfl⟩ | exact .inr rfl

theorem decodeOptBool_out (x : Option Json) :
    (∃ a, decodeOptBool x = .ok a) ∨ decodeOptBool x = .error .TypeMismatch := by
  rcases x with _ | j
  · exact .inl ⟨_, rfl⟩
  · cases j <;> first | exact .inl ⟨_, rfl⟩ | exact .inr rfl

theorem decodeOptVal_out (x : Option Json) :
    (∃ a, decodeOptVal x = .ok a) ∨ decodeOptVal x = .error .TypeMismatch := by
  rcases x with _ | j
  · exact .inl ⟨_, rfl⟩
  · cases j <;> exact .inl ⟨_, rfl⟩

theorem decodeVec_out (x : Option Json) :
    (∃ a, decodeVec x = .ok a) ∨ decodeVec x = .error .TypeMismatch := by
  rcases x with _ | j
  · exact .inl ⟨_, rfl⟩
  · cases j <;> first | exact .inl ⟨_, rfl⟩ | exact .inr rfl

theorem pSimplexNoise2D_out (f : List (String × Json)) :
    (∃ n, pSimplexNoise2D f = .ok n ∧ tagName n = "SimplexNoise2D") ∨ pSimplexNoise2D f = .error .TypeMismatch := by
  unfold pSimplexNoise2D
  rcases decodeOptNum_out (alookup f "Lacunarity") with ⟨a1, h1⟩ | h1
  · rw [h1]
    simp only [Except.bind]
    rcases decodeOptNum_out (alookup f "Persistence") with ⟨a2, h2⟩ | h2
    · rw [h2]
      simp only [Except.bind]
      rcases decodeOptNum_out (alookup f "Scale") with ⟨a3, h3⟩ | h3
      · rw [h3]
        simp only [Except.bind]
        rcases decodeOptInt_out (alookup f "Octaves") with ⟨a4, h4⟩ | h4
        · rw [h4]
          simp only [Except.bind]
          rcases decodeOptStr_out (alookup f "Seed") with ⟨a5, h5⟩ | h5
          · rw [h5]
            simp only [Except.bind]
            exact .inl ⟨_, rfl, rfl⟩
          · simp [h5, Except.bind]
        · simp [h4, Except.bind]
      · simp [h3, Except.bind]
    · simp [h2, Except.bind]
  · simp [h1, Except.bind]

theorem pSimplexNoise3D_out (f : List (String × Json)) :
    (∃ n, pSimplexNoise3D f = .ok n ∧ tagName n = "SimplexNoise3D") ∨ pSimplexNoise3D f = .error .TypeMismatch := by
  unfold pSimplexNoise3D
  rcases decodeOptNum_out (alookup f "Lacunarity") with ⟨a1, h1⟩ | h1
  · rw [h1]
    simp only [Except.bind]
    rcases decodeOptNum_out (alookup f "Persistence") with ⟨a2, h2⟩ | h2
    · rw [h2]
      simp only [Except.bind]
      rcases decodeOptNum_out (alookup f "ScaleXZ") with ⟨a3, h3⟩ | h3
      · rw [h3]
        simp only [Except.bind]
        rcases decodeOptNum_out (alookup f "ScaleY") with ⟨a4, h4⟩ | h4
        · rw [h4]
          simp only [Except.bind]
          rcases decodeOptInt_out (alookup f "Octaves") with ⟨a5, h5⟩ | h5
          · rw [h5]
            simp only [Except.bind]
            rcases decodeOptStr_out (alookup f "Seed") with ⟨a6, h6⟩ | h6
            · rw [h6]
              simp only [Except.bind]
              exact .inl ⟨_, rfl, rfl⟩
            · simp [h6, Except.bind]
          · simp [h5, Except.bind]
        · simp [h4, Except.bind]
      · simp [h3, Except.bind]
    · simp [h2, Except.bind]
  · simp [h1, Except.bind]

theorem pCellNoise2D_out (f : List (String × Json)) :
    (∃ n, pCellNoise2D f = .ok n ∧ tagName n = "CellNoise2D") ∨ pCellNoise2D f = .error .TypeMismatch := by
  unfold pCellNoise2D
  rcases decodeOptNum_out (alookup f "Scale") with ⟨a1, h1⟩ | h1
  · rw [h1]
    simp only [Except.bind]
    rcases decodeOptStr_out (alookup f "Seed") with ⟨a2, h2⟩ | h2
    · rw [h2]
      simp only [Except.bind]
      rcases decodeOptStr_out (alookup f "ReturnType") with ⟨a3, h3⟩ | h3
      · rw [h3]
        simp only [Except.bind]
        rcases decodeOptStr_out (alookup f "DistanceFunction") with ⟨a4, h4⟩ | h4
        · rw [h4]
          simp only [Except.bind]
          exact .inl ⟨_, rfl, rfl⟩
        · simp [h4, Except.bind]
      · simp [h3, Except.bind]
    · simp [h2, Except.bind]
  · simp [h1, Except.bind]

theorem pCellNoise3D_out (f : List (String × Json)) :
    (∃ n, pCellNoise3D f = .ok n ∧ tagName n = "CellNoise3D") ∨ pCellNoise3D f = .error .TypeMismatch := by
  unfold pCellNoise3D
  rcases decodeOptNum_out (alookup f "Scale") with ⟨a1, h1⟩ | h1
  · rw [h1]
    simp only [Except.bind]
    rcases decodeOptStr_out (alookup f "Seed") with ⟨a2, h2⟩ | h2
    · rw [h2]
      simp only [Except.bind]
      rcases decodeOptStr_out (alookup f "ReturnType") with ⟨a3, h3⟩ | h3
      · rw [h3]
        simp only [Except.bind]
        rcases decodeOptStr_out (alookup f "DistanceFunction") with ⟨a4, h4⟩ | h4
        · rw [h4]
          simp only [Except.bind]
          exact .inl ⟨_, rfl, rfl⟩
        · simp [h4, Except.bind]
      · simp [h3, Except.bind]
    · simp [h2, Except.bind]
  · simp [h1, Except.bind]

theorem pConstant_out (f : List (String × Json)) :
    (∃ n, pConstant f = .ok n ∧ tagName n = "Constant") ∨ pConstant f = .error .TypeMismatch := by
  unfold pConstant
  rcases decodeOptNum_out (alookup f "Value") with ⟨a1, h1⟩ | h1
  · rw [h1]
    simp only [Except.bind]
    exact .inl ⟨_, rfl, rfl⟩
  · simp [h1, Except.bind]

theorem pSum_out (f : List (String × Json)) :
    (∃ n, pSum f = .ok n ∧ tagName n = "Sum") ∨ pSum f = .error .TypeMismatch := by
  unfold pSum
  rcases decodeVec_out (alookup f "Inputs") with ⟨a1, h1⟩ | h1
  · rw [h1]
    simp only [Except.bind]
    exact .inl ⟨_, rfl, rfl⟩
  · simp [h1, Except.bind]

theorem pMultiplier_out (f : List (String × Json)) :
    (∃ n, pMultiplier f = .ok n ∧ tagName n = "Multiplier") ∨ pMultiplier f = .error .TypeMismatch := by
  unfold pMultiplier
  rcases decodeVec_out (alookup f "Inputs") with ⟨a1, h1⟩ | h1
  · rw [h1]
    simp only [Except.bind]
    exact .inl ⟨_, rfl, rfl⟩
  · simp [h1, Except.bind]

theorem pAbs_out (f : List (String × Json)) :
    (∃ n, pAbs f = .ok n ∧ tagName n = "Abs") ∨ pAbs f = .error .TypeMismatch := by
  unfold pAbs
  rcases decodeOptVal_out (alookup f "Input") with ⟨a1, h1⟩ | h1
  · rw [h1]
    simp only [Except.bind]
    exact .inl ⟨_, rfl, rfl⟩
  · simp [h1, Except.bind]

theorem pInverter_out (f : List (String × Json)) :
    (∃ n, pInverter f = .ok n ∧ tagName n = "Inverter") ∨ pInverter f = .error .TypeMismatch := by
  unfold pInverter
  rcases decodeOptVal_out (alookup f "Input") with ⟨a1, h1⟩ | h1
  · rw [h1]
    simp only [Except.bind]
    exact .inl ⟨_, rfl, rfl⟩
  · simp [h1, Except.bind]

theorem pSqrt_out (f : List (String × Json)) :
    (∃ n, pSqrt f = .ok n ∧ tagName n = "Sqrt") ∨ pSqrt f = .error .TypeMismatch := by
  unfold pSqrt
  rcases decodeOptVal_out (alookup f "Input") with ⟨a1, h1⟩ | h1
  · rw [h1]
    simp only [Except.bind]
    exact .inl ⟨_, rfl, rfl⟩
  · simp [h1, Except.bind]

theorem pPow_out (f : List (String × Json)) :
    (∃ n, pPow f = .ok n ∧ tagName n = "Pow") ∨ pPow f = .error .TypeMismatch := by
  unfold pPow
  rcases decodeOptNum_out (alookup f "Exponent") with ⟨a1, h1⟩ | h1
  · rw [h1]
    simp only [Except.bind]
    rcases decodeOptVal_out (alookup f "Input") with ⟨a2, h2⟩ | h2
    · rw [h2]
      simp only [Except.bind]
      exact .inl ⟨_, rfl, rfl⟩
    · simp [h2, Except.bind]
  · simp [h1, Except.bind]

theorem pOffsetConstant_out (f : List (String × Json)) :
    (∃ n, pOffsetConstant f = .ok n ∧ tagName n = "OffsetConstant") ∨ pOffsetConstant f = .error .TypeMismatch := by
  unfold pOffsetConstant
  rcases decodeOptNum_out (alookup f "Offset") with ⟨a1, h1⟩ | h1
  · rw [h1]
    simp only [Except.bind]
    rcases decodeOptVal_out (alookup f "Input") with ⟨a2, h2⟩ | h2
    · rw [h2]
      simp only [Except.bind]
      exact .inl ⟨_, rfl, rfl⟩
    · simp [h2, Except.bind]
  · simp [h1, Except.bind]

theorem pAmplitudeConstant_out (f : List (String × Json)) :
    (∃ n, pAmplitudeConstant f = .ok n ∧ tagName n = "AmplitudeConstant") ∨ pAmplitudeConstant f = .error .TypeMismatch := by
  unfold pAmplitudeConstant
  rcases decodeOptNum_out (alookup f "Amplitude") with ⟨a1, h1⟩ | h1
  · rw [h1]
    simp only [Except.bind]
    rcases decodeOptVal_out (alookup f "Input") with ⟨a2, h2⟩ | h2
    · rw [h2]
      simp only [Except.bind]
      exact .inl ⟨_, rfl, rfl⟩
    · simp [h2, Except.bind]
  · simp [h1, Except.bind]

theorem pClamp_out (f : List (String × Json)) :
    (∃ n, pClamp f = .ok n ∧ tagName n = "Clamp") ∨ pClamp f = .error .TypeMismatch := by
  unfold pClamp
  rcases decodeOptNum_out (alookup f "WallA") with ⟨a1, h1⟩ | h1
  · rw [h1]
    simp only [Except.bind]
    rcases decodeOptNum_out (alookup f "WallB") with ⟨a2, h2⟩ | h2
    · rw [h2]
      simp only [Except.bind]
      rcases decodeOptVal_out (alookup f "Input") with ⟨a3, h3⟩ | h3
      · rw [h3]
        simp only [Except.bind]
        exact .inl ⟨_, rfl, rfl⟩
      · simp [h3, Except.bind]
    · simp [h2, Except.bind]
  · simp [h1, Except.bind]

theorem pSmoothClamp_out (f : List (String × Json)) :
    (∃ n, pSmoothClamp f = .ok n ∧ tagName n = "SmoothClamp") ∨ pSmoothClamp f = .error .TypeMismatch := by
  unfold pSmoothClamp
  rcases decodeOptNum_out (alookup f "WallA") with ⟨a1, h1⟩ | h1
  · rw [h1]
    simp only [Except.bind]
    rcases decodeOptNum_out (alookup f "WallB") with ⟨a2, h2⟩ | h2
    · rw [h2]
      simp only [Except.bind]
      rcases decodeOptNum_out (alookup f "Range") with ⟨a3, h3⟩ | h3
      · rw [h3]
        simp only [Except.bind]
        rcases decodeOptVal_out (alookup f "Input") with ⟨a4, h4⟩ | h4
        · rw [h4]
          simp only [Except.bind]
          exact .inl ⟨_, rfl, rfl⟩
        · simp [h4, Except.bind]
      · simp [h3, Except.bind]
    · simp [h2, Except.bind]
  · simp [h1, Except.bind]

theorem pFloor_out (f : List (String × Json)) :
    (∃ n, pFloor f = .ok n ∧ tagName n = "Floor") ∨ pFloor f = .error .TypeMismatch := by
  unfold pFloor
  rcases decodeOptNum_out (alookup f "Floor") with ⟨a1, h1⟩ | h1
  · rw [h1]
    simp only [Except.bind]
    rcases decodeOptVal_out (alookup f "Input") with ⟨a2, h2⟩ | h2
    · rw [h2]
      simp only [Except.bind]
      exact .inl ⟨_, rfl, rfl⟩
    · simp [h2, Except.bind]
  · simp [h1, Except.bind]

theorem pSmoothFloor_out (f : List (String × Json)) :
    (∃ n, pSmoothFloor f = .ok n ∧ tagName n = "SmoothFloor") ∨ pSmoothFloor f = .error .TypeMismatch := by
  unfold pSmoothFloor
  rcases decodeOptNum_out (alookup f "Floor") with ⟨a1, h1⟩ | h1
  · rw [h1]
    simp only [Except.bind]
    rcases decodeOptNum_out (alookup f "Range") with ⟨a2, h2⟩ | h2
    · rw [h2]
      simp only [Except.bind]
      rcases decodeOptVal_out (alookup f "Input") with ⟨a3, h3⟩ | h3
      · rw [h3]
        simp only [Except.bind]
        exact .inl ⟨_, rfl, rfl⟩
      · simp [h3, Except.bind]
    · simp [h2, Except.bind]
  · simp [h1, Except.bind]

theorem pCeiling_out (f : List (String × Json)) :
    (∃ n, pCeiling f = .ok n ∧ tagName n = "Ceiling") ∨ pCeiling f = .error .TypeMismatch := by
  unfold pCeiling
  rcases decodeOptNum_out (alookup f "Ceiling") with ⟨a1, h1⟩ | h1
  · rw [h1]
    simp only [Except.bind]
    rcases decodeOptVal_out (alookup f "Input") with ⟨a2, h2⟩ | h2
    · rw [h2]
      simp only [Except.bind]
      exact .inl ⟨_, rfl, rfl⟩
    · simp [h2, Except.bind]
  · simp [h1, Except.bind]

theorem pSmoothCeiling_out (f : List (String × Json)) :
    (∃ n, pSmoothCeiling f = .ok n ∧ tagName n = "SmoothCeiling") ∨ pSmoothCeiling f = .error .TypeMismatch := by
  unfold pSmoothCeiling
  rcases decodeOptNum_out (alookup f "Ceiling") with ⟨a1, h1⟩ | h1
  · rw [h1]
    simp only [Except.bind]
    rcases decodeOptNum_out (alookup f "Range") with ⟨a2, h2⟩ | h2
    · rw [h2]
      simp only [Except.bind]
      rcases decodeOptVal_out (alookup f "Input") with ⟨a3, h3⟩ | h3
      · rw [h3]
        simp only [Except.bind]
        exact .inl ⟨_, rfl, rfl⟩
      · simp [h3, Except.bind]
    · simp [h2, Except.bind]
  · simp [h1, Except.bind]

theorem pMin_out (f : List (String × Json)) :
    (∃ n, pMin f = .ok n ∧ tagName n = "Min") ∨ pMin f = .error .TypeMismatch := by
  unfold pMin
  rcases decodeVec_out (alookup f "Inputs") with ⟨a1, h1⟩ | h1
  · rw [h1]
    simp only [Except.bind]
    exact .inl ⟨_, rfl, rfl⟩
  · simp [h1, Except.bind]

theorem pSmoothMin_out (f : List (String × Json)) :
    (∃ n, pSmoothMin f = .ok n ∧ tagName n = "SmoothMin") ∨ pSmoothMin f = .error .TypeMismatch := by
  unfold pSmoothMin
  rcases decodeOptNum_out (alookup f "Range") with ⟨a1, h1⟩ | h1
  · rw [h1]
    simp only [Except.bind]
    rcases decodeVec_out (alookup f "Inputs") with ⟨a2, h2⟩ | h2
    · rw [h2]
      simp only [Except.bind]
      exact .inl ⟨_, rfl, rfl⟩
    · simp [h2, Except.bind]
  · simp [h1, Except.bind]

theorem pMax_out (f : List (String × Json)) :
    (∃ n, pMax f = .ok n ∧ tagName n = "Max") ∨ pMax f = .error .TypeMismatch := by
  unfold pMax
  rcases decodeVec_out (alookup f "Inputs") with ⟨a1, h1⟩ | h1
  · rw [h1]
    simp only [Except.bind]
    exact .inl ⟨_, rfl, rfl⟩
  · simp [h1, Except.bind]

theorem pSmoothMax_out (f : List (String × Json)) :
    (∃ n, pSmoothMax f = .ok n ∧ tagName n = "SmoothMax") ∨ pSmoothMax f = .error .TypeMismatch := by
  unfold pSmoothMax
  rcases decodeOptNum_out (alookup f "Range") with ⟨a1, h1⟩ | h1
  · rw [h1]
    simp only [Except.bind]
    rcases decodeVec_out (alookup f "Inputs") with ⟨a2, h2⟩ | h2
    · rw [h2]
      simp only [Except.bind]
      exact .inl ⟨_, rfl, rfl⟩
    · simp [h2, Except.bind]
  · simp [h1, Except.bind]

theorem pNormalizer_out (f : List (String × Json)) :
    (∃ n, pNormalizer f = .ok n ∧ tagName n = "Normalizer") ∨ pNormalizer f = .error .TypeMismatch := by
  unfold pNormalizer
  rcases decodeOptNum_out (alookup f "FromMin") with ⟨a1, h1⟩ | h1
  · rw [h1]
    simp only [Except.bind]
    rcases decodeOptNum_out (alookup f "FromMax") with ⟨a2, h2⟩ | h2
    · rw [h2]
      simp only [Except.bind]
      rcases decodeOptNum_out (alookup f "ToMin") with ⟨a3, h3⟩ | h3
      · rw [h3]
        simp only [Except.bind]
        rcases decodeOptNum_out (alookup f "ToMax") with ⟨a4, h4⟩ | h4
        · rw [h4]
          simp only [Except.bind]
          rcases decodeOptVal_out (alookup f "Input") with ⟨a5, h5⟩ | h5
          · rw [h5]
            simp only [Except.bind]
            exact .inl ⟨_, rfl, rfl⟩
          · simp [h5, Except.bind]
        · simp [h4, Except.bind]
      · simp [h3, Except.bind]
    · simp [h2, Except.bind]
  · simp [h1, Except.bind]

theorem pCurveMapper_out (f : List (String × Json)) :
    (∃ n, pCurveMapper f = .ok n ∧ tagName n = "CurveMapper") ∨ pCurveMapper f = .error .TypeMismatch := by
  unfold pCurveMapper
  rcases decodeOptVal_out (alookup f "Curve") with ⟨a1, h1⟩ | h1
  · rw [h1]
    simp only [Except.bind]
    rcases decodeOptVal_out (alookup f "Input") with ⟨a2, h2⟩ | h2
    · rw [h2]
      simp only [Except.bind]
      exact .inl ⟨_, rfl, rfl⟩
    · simp [h2, Except.bind]
  · simp [h1, Except.bind]

theorem pOffset_out (f : List (String × Json)) :
    (∃ n, pOffset f = .ok n ∧ tagName n = "Offset") ∨ pOffset f = .error .TypeMismatch := by
  unfold pOffset
  rcases decodeOptVal_out (alookup f "Offset") with ⟨a1, h1⟩ | h1
  · rw [h1]
    simp only [Except.bind]
    rcases decodeOptVal_out (alookup f "Input") with ⟨a2, h2⟩ | h2
    · rw [h2]
      simp only [Except.bind]
      exact .inl ⟨_, rfl, rfl⟩
    · simp [h2, Except.bind]
  · simp [h1, Except.bind]

theorem pAmplitude_out (f : List (String × Json)) :
    (∃ n, pAmplitude f = .ok n ∧ tagName n = "Amplitude") ∨ pAmplitude f = .error .TypeMismatch := by
  unfold pAmplitude
  rcases decodeOptVal_out (alookup f "Amplitude") with ⟨a1, h1⟩ | h1
  · rw [h1]
    simp only [Except.bind]
    rcases decodeOptVal_out (alookup f "Input") with ⟨a2, h2⟩ | h2
    · rw [h2]
      simp only [Except.bind]
      exact .inl ⟨_, rfl, rfl⟩
    · simp [h2, Except.bind]
  · simp [h1, Except.bind]

theorem pMix_out (f : List (String × Json)) :
    (∃ n, pMix f = .ok n ∧ tagName n = "Mix") ∨ pMix f = .error .TypeMismatch := by
  unfold pMix
  rcases decodeVec_out (alookup f "Inputs") with ⟨a1, h1⟩ | h1
  · rw [h1]
    simp only [Except.bind]
    exact .inl ⟨_, rfl, rfl⟩
  · simp [h1, Except.bind]

theorem pMultiMix_out (f : List (String × Json)) :
    (∃ n, pMultiMix f = .ok n ∧ tagName n = "MultiMix") ∨ pMultiMix f = .error .TypeMismatch := by
  unfold pMultiMix
  rcases decodeVec_out (alookup f "Keys") with ⟨a1, h1⟩ | h1
  · rw [h1]
    simp only [Except.bind]
    rcases decodeVec_out (alookup f "Inputs") with ⟨a2, h2⟩ | h2
    · rw [h2]
      simp only [Except.bind]
      exact .inl ⟨_, rfl, rfl⟩
    · simp [h2, Except.bind]
  · simp [h1, Except.bind]

theorem pScale_out (f : List (String × Json)) :
    (∃ n, pScale f = .ok n ∧ tagName n = "Scale") ∨ pScale f = .error .TypeMismatch := by
  unfold pScale
  rcases decodeOptNum_out (alookup f "X") with ⟨a1, h1⟩ | h1
  · rw [h1]
    simp only [Except.bind]
    rcases decodeOptNum_out (alookup f "Y") with ⟨a2, h2⟩ | h2
    · rw [h2]
      simp only [Except.bind]
      rcases decodeOptNum_out (alookup f "Z") with ⟨a3, h3⟩ | h3
      · rw [h3]
        simp only [Except.bind]
        rcases decodeOptVal_out (alookup f "Input") with ⟨a4, h4⟩ | h4
        · rw [h4]
          simp only [Except.bind]
          exact .inl ⟨_, rfl, rfl⟩
        · simp [h4, Except.bind]
      · simp [h3, Except.bind]
    · simp [h2, Except.bind]
  · simp [h1, Except.bind]

theorem pSlider_out (f : List (String × Json)) :
    (∃ n, pSlider f = .ok n ∧ tagName n = "Slider") ∨ pSlider f = .error .TypeMismatch := by
  unfold pSlider
  rcases decodeOptNum_out (alookup f "SlideX") with ⟨a1, h1⟩ | h1
  · rw [h1]
    simp only [Except.bind]
    rcases decodeOptNum_out (alookup f "SlideY") with ⟨a2, h2⟩ | h2
    · rw [h2]
      simp only [Except.bind]
      rcases decodeOptNum_out (alookup f "SlideZ") with ⟨a3, h3⟩ | h3
      · rw [h3]
        simp only [Except.bind]
        rcases decodeOptVal_out (alookup f "Input") with ⟨a4, h4⟩ | h4
        · rw [h4]
          simp only [Except.bind]
          exact .inl ⟨_, rfl, rfl⟩
        · simp [h4, Except.bind]
      · simp [h3, Except.bind]
    · simp [h2, Except.bind]
  · simp [h1, Except.bind]

theorem pRotator_out (f : List (String × Json)) :
    (∃ n, pRotator f = .ok n ∧ tagName n = "Rotator") ∨ pRotator f = .error .TypeMismatch := by
  unfold pRotator
  rcases decodeOptVal_out (alookup f "NewYAxis") with ⟨a1, h1⟩ | h1
  · rw [h1]
    simp only [Except.bind]
    rcases decodeOptNum_out (alookup f "X") with ⟨a2, h2⟩ | h2
    · rw [h2]
      simp only [Except.bind]
      rcases decodeOptNum_out (alookup f "Y") with ⟨a3, h3⟩ | h3
      · rw [h3]
        simp only [Except.bind]
        rcases decodeOptNum_out (alookup f "Z") with ⟨a4, h4⟩ | h4
        · rw [h4]
          simp only [Except.bind]
          rcases decodeOptNum_out (alookup f "SpinAngle") with ⟨a5, h5⟩ | h5
          · rw [h5]
            simp only [Except.bind]
            rcases decodeOptVal_out (alookup f "Input") with ⟨a6, h6⟩ | h6
            · rw [h6]
              simp only [Except.bind]
              exact .inl ⟨_, rfl, rfl⟩
            · simp [h6, Except.bind]
          · simp [h5, Except.bind]
        · simp [h4, Except.bind]
      · simp [h3, Except.bind]
    · simp [h2, Except.bind]
  · simp [h1, Except.bind]

theorem pAnchor_out (f : List (String × Json)) :
    (∃ n, pAnchor f = .ok n ∧ tagName n = "Anchor") ∨ pAnchor f = .error .TypeMismatch := by
  unfold pAnchor
  rcases decodeOptBool_out (alookup f "Reverse") with ⟨a1, h1⟩ | h1
  · rw [h1]
    simp only [Except.bind]
    rcases decodeOptVal_out (alookup f "Input") with ⟨a2, h2⟩ | h2
    · rw [h2]
      simp only [Except.bind]
      exact .inl ⟨_, rfl, rfl⟩
    · simp [h2, Except.bind]
  · simp [h1, Except.bind]

theorem pXOverride_out (f : List (String × Json)) :
    (∃ n, pXOverride f = .ok n ∧ tagName n = "XOverride") ∨ pXOverride f = .error .TypeMismatch := by
  unfold pXOverride
  rcases decodeOptVal_out (alookup f "Input") with ⟨a1, h1⟩ | h1
  · rw [h1]
    simp only [Except.bind]
    rcases decodeOptVal_out (alookup f "Override") with ⟨a2, h2⟩ | h2
    · rw [h2]
      simp only [Except.bind]
      exact .inl ⟨_, rfl, rfl⟩
    · simp [h2, Except.bind]
  · simp [h1, Except.bind]

theorem pYOverride_out (f : List (String × Json)) :
    (∃ n, pYOverride f = .ok n ∧ tagName n = "YOverride") ∨ pYOverride f = .error .TypeMismatch := by
  unfold pYOverride
  rcases decodeOptVal_out (alookup f "Input") with ⟨a1, h1⟩ | h1
  · rw [h1]
    simp only [Except.bind]
    rcases decodeOptVal_out (alookup f "Override") with ⟨a2, h2⟩ | h2
    · rw [h2]
      simp only [Except.bind]
      exact .inl ⟨_, rfl, rfl⟩
    · simp [h2, Except.bind]
  · simp [h1, Except.bind]

theorem pZOverride_out (f : List (String × Json)) :
    (∃ n, pZOverride f = .ok n ∧ tagName n = "ZOverride") ∨ pZOverride f = .error .TypeMismatch := by
  unfold pZOverride
  rcases decodeOptVal_out (alookup f "Input") with ⟨a1, h1⟩ | h1
  · rw [h1]
    simp only [Except.bind]
    rcases decodeOptVal_out (alookup f "Override") with ⟨a2, h2⟩ | h2
    · rw [h2]
      simp only [Except.bind]
      exact .inl ⟨_, rfl, rfl⟩
    · simp [h2, Except.bind]
  · simp [h1, Except.bind]

theorem pGradientWarp_out (f : List (String × Json)) :
    (∃ n, pGradientWarp f = .ok n ∧ tagName n = "GradientWarp") ∨ pGradientWarp f = .error .TypeMismatch := by
  unfold pGradientWarp
  rcases decodeOptNum_out (alookup f "SampleRange") with ⟨a1, h1⟩ | h1
  · rw [h1]
    simp only [Except.bind]
    rcases decodeOptNum_out (alookup f "WarpFactor") with ⟨a2, h2⟩ | h2
    · rw [h2]
      simp only [Except.bind]
      rcases decodeOptBool_out (alookup f "2D") with ⟨a3, h3⟩ | h3
      · rw [h3]
        simp only [Except.bind]
        rcases decodeOptNum_out (alookup f "YFor2D") with ⟨a4, h4⟩ | h4
        · rw [h4]
          simp only [Except.bind]
          rcases decodeVec_out (alookup f "Inputs") with ⟨a5, h5⟩ | h5
          · rw [h5]
            simp only [Except.bind]
            exact .inl ⟨_, rfl, rfl⟩
          · simp [h5, Except.bind]
        · simp [h4, Except.bind]
      · simp [h3, Except.bind]
    · simp [h2, Except.bind]
  · simp [h1, Except.bind]

theorem pFastGradientWarp_out (f : List (String × Json)) :
    (∃ n, pFastGradientWarp f = .ok n ∧ tagName n = "FastGradientWarp") ∨ pFastGradientWarp f = .error .TypeMismatch := by
  unfold pFastGradientWarp
  rcases decodeOptNum_out (alookup f "WarpScale") with ⟨a1, h1⟩ | h1
  · rw [h1]
    simp only [Except.bind]
    rcases decodeOptNum_out (alookup f "WarpLacunarity") with ⟨a2, h2⟩ | h2
    · rw [h2]
      simp only [Except.bind]
      rcases decodeOptNum_out (alookup f "WarpPersistence") with ⟨a3, h3⟩ | h3
      · rw [h3]
        simp only [Except.bind]
        rcases decodeOptInt_out (alookup f "WarpOctaves") with ⟨a4, h4⟩ | h4
        · rw [h4]
          simp only [Except.bind]
          rcases decodeOptNum_out (alookup f "WarpFactor") with ⟨a5, h5⟩ | h5
          · rw [h5]
            simp only [Except.bind]
            rcases decodeOptStr_out (alookup f "Seed") with ⟨a6, h6⟩ | h6
            · rw [h6]
              simp only [Except.bind]
              rcases decodeOptBool_out (alookup f "2D") with ⟨a7, h7⟩ | h7
              · rw [h7]
                simp only [Except.bind]
                rcases decodeOptVal_out (alookup f "Input") with ⟨a8, h8⟩ | h8
                · rw [h8]
                  simp only [Except.bind]
                  exact .inl ⟨_, rfl, rfl⟩
                · simp [h8, Except.bind]
              · simp [h7, Except.bind]
            · simp [h6, Except.bind]
          · simp [h5, Except.bind]
        · simp [h4, Except.bind]
      · simp [h3, Except.bind]
    · simp [h2, Except.bind]
  · simp [h1, Except.bind]

theorem pVectorWarp_out (f : List (String × Json)) :
    (∃ n, pVectorWarp f = .ok n ∧ tagName n = "VectorWarp") ∨ pVectorWarp f = .error .TypeMismatch := by
  unfold pVectorWarp
  rcases decodeOptNum_out (alookup f "WarpFactor") with ⟨a1, h1⟩ | h1
  · rw [h1]
    simp only [Except.bind]
    rcases decodeOptVal_out (alookup f "WarpVector") with ⟨a2, h2⟩ | h2
    · rw [h2]
      simp only [Except.bind]
      rcases decodeOptNum_out (alookup f "X") with ⟨a3, h3⟩ | h3
      · rw [h3]
        simp only [Except.bind]
        rcases decodeOptNum_out (alookup f "Y") with ⟨a4, h4⟩ | h4
        · rw [h4]
          simp only [Except.bind]
          rcases decodeOptNum_out (alookup f "Z") with ⟨a5, h5⟩ | h5
          · rw [h5]
            simp only [Except.bind]
            rcases decodeVec_out (alookup f "Inputs") with ⟨a6, h6⟩ | h6
            · rw [h6]
              simp only [Except.bind]
              exact .inl ⟨_, rfl, rfl⟩
            · simp [h6, Except.bind]
          · simp [h5, Except.bind]
        · simp [h4, Except.bind]
      · simp [h3, Except.bind]
    · simp [h2, Except.bind]
  · simp [h1, Except.bind]

theorem pDistance_out (f : List (String × Json)) :
    (∃ n, pDistance f = .ok n ∧ tagName n = "Distance") ∨ pDistance f = .error .TypeMismatch := by
  unfold pDistance
  rcases decodeOptVal_out (alookup f "Curve") with ⟨a1, h1⟩ | h1
  · rw [h1]
    simp only [Except.bind]
    exact .inl ⟨_, rfl, rfl⟩
  · simp [h1, Except.bind]

theorem pCube_out (f : List (String × Json)) :
    (∃ n, pCube f = .ok n ∧ tagName n = "Cube") ∨ pCube f = .error .TypeMismatch := by
  unfold pCube
  rcases decodeOptVal_out (alookup f "Curve") with ⟨a1, h1⟩ | h1
  · rw [h1]
    simp only [Except.bind]
    exact .inl ⟨_, rfl, rfl⟩
  · simp [h1, Except.bind]

theorem pEllipsoid_out (f : List (String × Json)) :
    (∃ n, pEllipsoid f = .ok n ∧ tagName n = "Ellipsoid") ∨ pEllipsoid f = .error .TypeMismatch := by
  unfold pEllipsoid
  rcases decodeOptVal_out (alookup f "Curve") with ⟨a1, h1⟩ | h1
  · rw [h1]
    simp only [Except.bind]
    rcases decodeOptVal_out (alookup f "Scale") with ⟨a2, h2⟩ | h2
    · rw [h2]
      simp only [Except.bind]
      rcases decodeOptNum_out (alookup f "X") with ⟨a3, h3⟩ | h3
      · rw [h3]
        simp only [Except.bind]
        rcases decodeOptNum_out (alookup f "Y") with ⟨a4, h4⟩ | h4
        · rw [h4]
          simp only [Except.bind]
          rcases decodeOptNum_out (alookup f "Z") with ⟨a5, h5⟩ | h5
          · rw [h5]
            simp only [Except.bind]
            rcases decodeOptNum_out (alookup f "Spin") with ⟨a6, h6⟩ | h6
            · rw [h6]
              simp only [Except.bind]
              exact .inl ⟨_, rfl, rfl⟩
            · simp [h6, Except.bind]
          · simp [h5, Except.bind]
        · simp [h4, Except.bind]
      · simp [h3, Except.bind]
    · simp [h2, Except.bind]
  · simp [h1, Except.bind]

theorem pCuboid_out (f : List (String × Json)) :
    (∃ n, pCuboid f = .ok n ∧ tagName n = "Cuboid") ∨ pCuboid f = .error .TypeMismatch := by
  unfold pCuboid
  rcases decodeOptVal_out (alookup f "Curve") with ⟨a1, h1⟩ | h1
  · rw [h1]
    simp only [Except.bind]
    rcases decodeOptVal_out (alookup f "Scale") with ⟨a2, h2⟩ | h2
    · rw [h2]
      simp only [Except.bind]
      rcases decodeOptNum_out (alookup f "X") with ⟨a3, h3⟩ | h3
      · rw [h3]
        simp only [Except.bind]
        rcases decodeOptNum_out (alookup f "Y") with ⟨a4, h4⟩ | h4
        · rw [h4]
          simp only [Except.bind]
          rcases decodeOptNum_out (alookup f "Z") with ⟨a5, h5⟩ | h5
          · rw [h5]
            simp only [Except.bind]
            rcases decodeOptNum_out (alookup f "Spin") with ⟨a6, h6⟩ | h6
            · rw [h6]
              simp only [Except.bind]
              rcases decodeOptVal_out (alookup f "NewYAxis") with ⟨a7, h7⟩ | h7
              · rw [h7]
                simp only [Except.bind]
                exact .inl ⟨_, rfl, rfl⟩
              · simp [h7, Except.bind]
            · simp [h6, Except.bind]
          · simp [h5, Except.bind]
        · simp [h4, Except.bind]
      · simp [h3, Except.bind]
    · simp [h2, Except.bind]
  · simp [h1, Except.bind]

theorem pCylinder_out (f : List (String × Json)) :
    (∃ n, pCylinder f = .ok n ∧ tagName n = "Cylinder") ∨ pCylinder f = .error .TypeMismatch := by
  unfold pCylinder
  rcases decodeOptVal_out (alookup f "AxialCurve") with ⟨a1, h1⟩ | h1
  · rw [h1]
    simp only [Except.bind]
    rcases decodeOptVal_out (alookup f "RadialCurve") with ⟨a2, h2⟩ | h2
    · rw [h2]
      simp only [Except.bind]
      rcases decodeOptNum_out (alookup f "Spin") with ⟨a3, h3⟩ | h3
      · rw [h3]
        simp only [Except.bind]
        rcases decodeOptVal_out (alookup f "NewYAxis") with ⟨a4, h4⟩ | h4
        · rw [h4]
          simp only [Except.bind]
          exact .inl ⟨_, rfl, rfl⟩
        · simp [h4, Except.bind]
      · simp [h3, Except.bind]
    · simp [h2, Except.bind]
  · simp [h1, Except.bind]

theorem pPlane_out (f : List (String × Json)) :
    (∃ n, pPlane f = .ok n ∧ tagName n = "Plane") ∨ pPlane f = .error .TypeMismatch := by
  unfold pPlane
  rcases decodeOptVal_out (alookup f "PlaneNormal") with ⟨a1, h1⟩ | h1
  · rw [h1]
    simp only [Except.bind]
    rcases decodeOptNum_out (alookup f "X") with ⟨a2, h2⟩ | h2
    · rw [h2]
      simp only [Except.bind]
      rcases decodeOptNum_out (alookup f "Y") with ⟨a3, h3⟩ | h3
      · rw [h3]
        simp only [Except.bind]
        rcases decodeOptNum_out (alookup f "Z") with ⟨a4, h4⟩ | h4
        · rw [h4]
          simp only [Except.bind]
          rcases decodeOptVal_out (alookup f "Curve") with ⟨a5, h5⟩ | h5
          · rw [h5]
            simp only [Except.bind]
            exact .inl ⟨_, rfl, rfl⟩
          · simp [h5, Except.bind]
        · simp [h4, Except.bind]
      · simp [h3, Except.bind]
    · simp [h2, Except.bind]
  · simp [h1, Except.bind]

theorem pAxis_out (f : List (String × Json)) :
    (∃ n, pAxis f = .ok n ∧ tagName n = "Axis") ∨ pAxis f = .error .TypeMismatch := by
  unfold pAxis
  rcases decodeOptVal_out (alookup f "Axis") with ⟨a1, h1⟩ | h1
  · rw [h1]
    simp only [Except.bind]
    rcases decodeOptNum_out (alookup f "X") with ⟨a2, h2⟩ | h2
    · rw [h2]
      simp only [Except.bind]
      rcases decodeOptNum_out (alookup f "Y") with ⟨a3, h3⟩ | h3
      · rw [h3]
        simp only [Except.bind]
        rcases decodeOptNum_out (alookup f "Z") with ⟨a4, h4⟩ | h4
        · rw [h4]
          simp only [Except.bind]
          rcases decodeOptVal_out (alookup f "Curve") with ⟨a5, h5⟩ | h5
          · rw [h5]
            simp only [Except.bind]
            rcases decodeOptBool_out (alookup f "IsAnchored") with ⟨a6, h6⟩ | h6
            · rw [h6]
              simp only [Except.bind]
              exact .inl ⟨_, rfl, rfl⟩
            · simp [h6, Except.bind]
          · simp [h5, Except.bind]
        · simp [h4, Except.bind]
      · simp [h3, Except.bind]
    · simp [h2, Except.bind]
  · simp [h1, Except.bind]

theorem pShell_out (f : List (String × Json)) :
    (∃ n, pShell f = .ok n ∧ tagName n = "Shell") ∨ pShell f = .error .TypeMismatch := by
  unfold pShell
  rcases decodeOptVal_out (alookup f "Axis") with ⟨a1, h1⟩ | h1
  · rw [h1]
    simp only [Except.bind]
    rcases decodeOptNum_out (alookup f "X") with ⟨a2, h2⟩ | h2
    · rw [h2]
      simp only [Except.bind]
      rcases decodeOptNum_out (alookup f "Y") with ⟨a3, h3⟩ | h3
      · rw [h3]
        simp only [Except.bind]
        rcases decodeOptNum_out (alookup f "Z") with ⟨a4, h4⟩ | h4
        · rw [h4]
          simp only [Except.bind]
          rcases decodeOptBool_out (alookup f "Mirror") with ⟨a5, h5⟩ | h5
          · rw [h5]
            simp only [Except.bind]
            rcases decodeOptVal_out (alookup f "AngleCurve") with ⟨a6, h6⟩ | h6
            · rw [h6]
              simp only [Except.bind]
              rcases decodeOptVal_out (alookup f "DistanceCurve") with ⟨a7, h7⟩ | h7
              · rw [h7]
                simp only [Except.bind]
                exact .inl ⟨_, rfl, rfl⟩
              · simp [h7, Except.bind]
            · simp [h6, Except.bind]
          · simp [h5, Except.bind]
        · simp [h4, Except.bind]
      · simp [h3, Except.bind]
    · simp [h2, Except.bind]
  · simp [h1, Except.bind]

theorem pAngle_out (f : List (String × Json)) :
    (∃ n, pAngle f = .ok n ∧ tagName n = "Angle") ∨ pAngle f = .error .TypeMismatch := by
  unfold pAngle
  rcases decodeOptVal_out (alookup f "Vector") with ⟨a1, h1⟩ | h1
  · rw [h1]
    simp only [Except.bind]
    rcases decodeOptVal_out (alookup f "VectorProvider") with ⟨a2, h2⟩ | h2
    · rw [h2]
      simp only [Except.bind]
      exact .inl ⟨_, rfl, rfl⟩
    · simp [h2, Except.bind]
  · simp [h1, Except.bind]

theorem pXValue_out (f : List (String × Json)) :
    (∃ n, pXValue f = .ok n ∧ tagName n = "XValue") ∨ pXValue f = .error .TypeMismatch := by
  exact .inl ⟨_, rfl, rfl⟩

theorem pYValue_out (f : List (String × Json)) :
    (∃ n, pYValue f = .ok n ∧ tagName n = "YValue") ∨ pYValue f = .error .TypeMismatch := by
  exact .inl ⟨_, rfl, rfl⟩

theorem pZValue_out (f : List (String × Json)) :
    (∃ n, pZValue f = .ok n ∧ tagName n = "ZValue") ∨ pZValue f = .error .TypeMismatch := by
  exact .inl ⟨_, rfl, rfl⟩

theorem pTerrain_out (f : List (String × Json)) :
    (∃ n, pTerrain f = .ok n ∧ tagName n = "Terrain") ∨ pTerrain f = .error .TypeMismatch := by
  exact .inl ⟨_, rfl, rfl⟩

theorem pBaseHeight_out (f : List (String × Json)) :
    (∃ n, pBaseHeight f = .ok n ∧ tagName n = "BaseHeight") ∨ pBaseHeight f = .error .TypeMismatch := by
  unfold pBaseHeight
  rcases decodeOptStr_out (alookup f "BaseHeightName") with ⟨a1, h1⟩ | h1
  · rw [h1]
    simp only [Except.bind]
    rcases decodeOptBool_out (alookup f "Distance") with ⟨a2, h2⟩ | h2
    · rw [h2]
      simp only [Except.bind]
      exact .inl ⟨_, rfl, rfl⟩
    · simp [h2, Except.bind]
  · simp [h1, Except.bind]

theorem pCellWallDistance_out (f : List (String × Json)) :
    (∃ n, pCellWallDistance f = .ok n ∧ tagName n = "CellWallDistance") ∨ pCellWallDistance f = .error .TypeMismatch := by
  unfold pCellWallDistance
  rcases decodeOptVal_out (alookup f "Positions") with ⟨a1, h1⟩ | h1
  · rw [h1]
    simp only [Except.bind]
    rcases decodeOptNum_out (alookup f "MaxDistance") with ⟨a2, h2⟩ | h2
    · rw [h2]
      simp only [Except.bind]
      exact .inl ⟨_, rfl, rfl⟩
    · simp [h2, Except.bind]
  · simp [h1, Except.bind]

theorem pDistanceToBiomeEdge_out (f : List (String × Json)) :
    (∃ n, pDistanceToBiomeEdge f = .ok n ∧ tagName n = "DistanceToBiomeEdge") ∨ pDistanceToBiomeEdge f = .error .TypeMismatch := by
  exact .inl ⟨_, rfl, rfl⟩

theorem pGradient_out (f : List (String × Json)) :
    (∃ n, pGradient f = .ok n ∧ tagName n = "Gradient") ∨ pGradient f = .error .TypeMismatch := by
  unfold pGradient
  rcases decodeOptNum_out (alookup f "From") with ⟨a1, h1⟩ | h1
  · rw [h1]
    simp only [Except.bind]
    rcases decodeOptNum_out (alookup f "To") with ⟨a2, h2⟩ | h2
    · rw [h2]
      simp only [Except.bind]
      rcases decodeOptNum_out (alookup f "FromY") with ⟨a3, h3⟩ | h3
      · rw [h3]
        simp only [Except.bind]
        rcases decodeOptNum_out (alookup f "ToY") with ⟨a4, h4⟩ | h4
        · rw [h4]
          simp only [Except.bind]
          exact .inl ⟨_, rfl, rfl⟩
        · simp [h4, Except.bind]
      · simp [h3, Except.bind]
    · simp [h2, Except.bind]
  · simp [h1, Except.bind]

theorem pCache_out (f : List (String × Json)) :
    (∃ n, pCache f = .ok n ∧ tagName n = "Cache") ∨ pCache f = .error .TypeMismatch := by
  unfold pCache
  rcases decodeOptInt_out (alookup f "Capacity") with ⟨a1, h1⟩ | h1
  · rw [h1]
    simp only [Except.bind]
    rcases decodeOptVal_out (alookup f "Input") with ⟨a2, h2⟩ | h2
    · rw [h2]
      simp only [Except.bind]
      exact .inl ⟨_, rfl, rfl⟩
    · simp [h2, Except.bind]
  · simp [h1, Except.bind]

theorem pCache2D_out (f : List (String × Json)) :
    (∃ n, pCache2D f = .ok n ∧ tagName n = "Cache2D") ∨ pCache2D f = .error .TypeMismatch := by
  unfold pCache2D
  rcases decodeOptVal_out (alookup f "Input") with ⟨a1, h1⟩ | h1
  · rw [h1]
    simp only [Except.bind]
    exact .inl ⟨_, rfl, rfl⟩
  · simp [h1, Except.bind]

theorem pYSampled_out (f : List (String × Json)) :
    (∃ n, pYSampled f = .ok n ∧ tagName n = "YSampled") ∨ pYSampled f = .error .TypeMismatch := by
  unfold pYSampled
  rcases decodeOptNum_out (alookup f "Y") with ⟨a1, h1⟩ | h1
  · rw [h1]
    simp only [Except.bind]
    rcases decodeOptVal_out (alookup f "Input") with ⟨a2, h2⟩ | h2
    · rw [h2]
      simp only [Except.bind]
      exact .inl ⟨_, rfl, rfl⟩
    · simp [h2, Except.bind]
  · simp [h1, Except.bind]

theorem pSwitch_out (f : List (String × Json)) :
    (∃ n, pSwitch f = .ok n ∧ tagName n = "Switch") ∨ pSwitch f = .error .TypeMismatch := by
  unfold pSwitch
  rcases decodeVec_out (alookup f "SwitchCases") with ⟨a1, h1⟩ | h1
  · rw [h1]
    simp only [Except.bind]
    rcases decodeOptVal_out (alookup f "Input") with ⟨a2, h2⟩ | h2
    · rw [h2]
      simp only [Except.bind]
      exact .inl ⟨_, rfl, rfl⟩
    · simp [h2, Except.bind]
  · simp [h1, Except.bind]

theorem pSwitchState_out (f : List (String × Json)) :
    (∃ n, pSwitchState f = .ok n ∧ tagName n = "SwitchState") ∨ pSwitchState f = .error .TypeMismatch := by
  unfold pSwitchState
  rcases decodeOptStr_out (alookup f "SwitchState") with ⟨a1, h1⟩ | h1
  · rw [h1]
    simp only [Except.bind]
    rcases decodeOptVal_out (alookup f "Input") with ⟨a2, h2⟩ | h2
    · rw [h2]
      simp only [Except.bind]
      exact .inl ⟨_, rfl, rfl⟩
    · simp [h2, Except.bind]
  · simp [h1, Except.bind]

theorem pPositionsCellNoise_out (f : List (String × Json)) :
    (∃ n, pPositionsCellNoise f = .ok n ∧ tagName n = "PositionsCellNoise") ∨ pPositionsCellNoise f = .error .TypeMismatch := by
  unfold pPositionsCellNoise
  rcases decodeOptVal_out (alookup f "Positions") with ⟨a1, h1⟩ | h1
  · rw [h1]
    simp only [Except.bind]
    rcases decodeOptVal_out (alookup f "ReturnType") with ⟨a2, h2⟩ | h2
    · rw [h2]
      simp only [Except.bind]
      rcases decodeOptVal_out (alookup f "DistanceFunction") with ⟨a3, h3⟩ | h3
      · rw [h3]
        simp only [Except.bind]
        rcases decodeOptNum_out (alookup f "MaxDistance") with ⟨a4, h4⟩ | h4
        · rw [h4]
          simp only [Except.bind]
          exact .inl ⟨_, rfl, rfl⟩
        · simp [h4, Except.bind]
      · simp [h3, Except.bind]
    · simp [h2, Except.bind]
  · simp [h1, Except.bind]

theorem pPositions3D_out (f : List (String × Json)) :
    (∃ n, pPositions3D f = .ok n ∧ tagName n = "Positions3D") ∨ pPositions3D f = .error .TypeMismatch := by
  unfold pPositions3D
  rcases decodeOptVal_out (alookup f "Positions") with ⟨a1, h1⟩ | h1
  · rw [h1]
    simp only [Except.bind]
    rcases decodeOptVal_out (alookup f "Density") with ⟨a2, h2⟩ | h2
    · rw [h2]
      simp only [Except.bind]
      rcases decodeOptNum_out (alookup f "MaxDistance") with ⟨a3, h3⟩ | h3
      · rw [h3]
        simp only [Except.bind]
        exact .inl ⟨_, rfl, rfl⟩
      · simp [h3, Except.bind]
    · simp [h2, Except.bind]
  · simp [h1, Except.bind]

theorem pPositionsPinch_out (f : List (String × Json)) :
    (∃ n, pPositionsPinch f = .ok n ∧ tagName n = "PositionsPinch") ∨ pPositionsPinch f = .error .TypeMismatch := by
  unfold pPositionsPinch
  rcases decodeOptVal_out (alookup f "Positions") with ⟨a1, h1⟩ | h1
  · rw [h1]
    simp only [Except.bind]
    rcases decodeOptVal_out (alookup f "PinchCurve") with ⟨a2, h2⟩ | h2
    · rw [h2]
      simp only [Except.bind]
      rcases decodeOptNum_out (alookup f "MaxDistance") with ⟨a3, h3⟩ | h3
      · rw [h3]
        simp only [Except.bind]
        rcases decodeOptBool_out (alookup f "NormalizeDistance") with ⟨a4, h4⟩ | h4
        · rw [h4]
          simp only [Except.bind]
          rcases decodeOptBool_out (alookup f "HorizontalPinch") with ⟨a5, h5⟩ | h5
          · rw [h5]
            simp only [Except.bind]
            rcases decodeOptNum_out (alookup f "PositionsMaxY") with ⟨a6, h6⟩ | h6
            · rw [h6]
              simp only [Except.bind]
              rcases decodeOptNum_out (alookup f "PositionsMinY") with ⟨a7, h7⟩ | h7
              · rw [h7]
                simp only [Except.bind]
                rcases decodeOptVal_out (alookup f "Input") with ⟨a8, h8⟩ | h8
                · rw [h8]
                  simp only [Except.bind]
                  exact .inl ⟨_, rfl, rfl⟩
                · simp [h8, Except.bind]
              · simp [h7, Except.bind]
            · simp [h6, Except.bind]
          · simp [h5, Except.bind]
        · simp [h4, Except.bind]
      · simp [h3, Except.bind]
    · simp [h2, Except.bind]
  · simp [h1, Except.bind]

theorem pPositionsTwist_out (f : List (String × Json)) :
    (∃ n, pPositionsTwist f = .ok n ∧ tagName n = "PositionsTwist") ∨ pPositionsTwist f = .error .TypeMismatch := by
  unfold pPositionsTwist
  rcases decodeOptVal_out (alookup f "Positions") with ⟨a1, h1⟩ | h1
  · rw [h1]
    simp only [Except.bind]
    rcases decodeOptVal_out (alookup f "TwistCurve") with ⟨a2, h2⟩ | h2
    · rw [h2]
      simp only [Except.bind]
      rcases decodeOptVal_out (alookup f "TwistAxis") with ⟨a3, h3⟩ | h3
      · rw [h3]
        simp only [Except.bind]
        rcases decodeOptNum_out (alookup f "X") with ⟨a4, h4⟩ | h4
        · rw [h4]
          simp only [Except.bind]
          rcases decodeOptNum_out (alookup f "Y") with ⟨a5, h5⟩ | h5
          · rw [h5]
            simp only [Except.bind]
            rcases decodeOptNum_out (alookup f "Z") with ⟨a6, h6⟩ | h6
            · rw [h6]
              simp only [Except.bind]
              rcases decodeOptNum_out (alookup f "MaxDistance") with ⟨a7, h7⟩ | h7
              · rw [h7]
                simp only [Except.bind]
                rcases decodeOptBool_out (alookup f "NormalizeDistance") with ⟨a8, h8⟩ | h8
                · rw [h8]
                  simp only [Except.bind]
                  rcases decodeOptVal_out (alookup f "Input") with ⟨a9, h9⟩ | h9
                  · rw [h9]
                    simp only [Except.bind]
                    exact .inl ⟨_, rfl, rfl⟩
                  · simp [h9, Except.bind]
                · simp [h8, Except.bind]
              · simp [h7, Except.bind]
            · simp [h6, Except.bind]
          · simp [h5, Except.bind]
        · simp [h4, Except.bind]
      · simp [h3, Except.bind]
    · simp [h2, Except.bind]
  · simp [h1, Except.bind]

theorem pExported_out (f : List (String × Json)) :
    (∃ n, pExported f = .ok n ∧ tagName n = "Exported") ∨ pExported f = .error .TypeMismatch := by
  unfold pExported
  rcases decodeOptBool_out (alookup f "SingleInstance") with ⟨a1, h1⟩ | h1
  · rw [h1]
    simp only [Except.bind]
    rcases decodeOptVal_out (alookup f "Density") with ⟨a2, h2⟩ | h2
    · rw [h2]
      simp only [Except.bind]
      rcases decodeOptVal_out (alookup f "Input") with ⟨a3, h3⟩ | h3
      · rw [h3]
        simp only [Except.bind]
        exact .inl ⟨_, rfl, rfl⟩
      · simp [h3, Except.bind]
    · simp [h2, Except.bind]
  · simp [h1, Except.bind]

theorem pImported_out (f : List (String × Json)) :
    (∃ n, pImported f = .ok n ∧ tagName n = "Imported") ∨ pImported f = .error .TypeMismatch := by
  unfold pImported
  rcases decodeOptStr_out (alookup f "Name") with ⟨a1, h1⟩ | h1
  · rw [h1]
    simp only [Except.bind]
    exact .inl ⟨_, rfl, rfl⟩
  · simp [h1, Except.bind]

theorem pPipeline_out (f : List (String × Json)) :
    (∃ n, pPipeline f = .ok n ∧ tagName n = "Pipeline") ∨ pPipeline f = .error .TypeMismatch := by
  unfold pPipeline
  rcases decodeVec_out (alookup f "Steps") with ⟨a1, h1⟩ | h1
  · rw [h1]
    simp only [Except.bind]
    rcases decodeOptVal_out (alookup f "Input") with ⟨a2, h2⟩ | h2
    · rw [h2]
      simp only [Except.bind]
      exact .inl ⟨_, rfl, rfl⟩
    · simp [h2, Except.bind]
  · simp [h1, Except.bind]

/-- Every parser in the table either succeeds with a node carrying its own tag,
or fails with a type mismatch. -/
theorem tableSound : ∀ kp ∈ parserTable, ∀ f,
    (∃ n, kp.2 f = .ok n ∧ tagName n = kp.1) ∨ kp.2 f = .error .TypeMismatch := by
  intro kp hmem
  simp only [parserTable, List.mem_cons, List.not_mem_nil, or_false] at hmem
  rcases hmem with rfl | rfl | rfl | rfl | rfl | rfl | rfl | rfl | rfl | rfl | rfl | rfl | rfl | rfl | rfl | rfl | rfl | rfl | rfl | rfl | rfl | rfl | rfl | rfl | rfl | rfl | rfl | rfl | rfl | rfl | rfl | rfl | rfl | rfl | rfl | rfl | rfl | rfl | rfl | rfl | rfl | rfl | rfl | rfl | rfl | rfl | rfl | rfl | rfl | rfl | rfl | rfl | rfl | rfl | rfl | rfl | rfl | rfl | rfl | rfl | rfl | rfl | rfl | rfl | rfl | rfl | rfl | rfl
  · exact pSimplexNoise2D_out
  · exact pSimplexNoise3D_out
  · exact pCellNoise2D_out
  · exact pCellNoise3D_out
  · exact pConstant_out
  · exact pSum_out
  · exact pMultiplier_out
  · exact pAbs_out
  · exact pInverter_out
  · exact pSqrt_out
  · exact pPow_out
  · exact pOffsetConstant_out
  · exact pAmplitudeConstant_out
  · exact pClamp_out
  · exact pSmoothClamp_out
  · exact pFloor_out
  · exact pSmoothFloor_out
  · exact pCeiling_out
  · exact pSmoothCeiling_out
  · exact pMin_out
  · exact pSmoothMin_out
  · exact pMax_out
  · exact pSmoothMax_out
  · exact pNormalizer_out
  · exact pCurveMapper_out
  · exact pOffset_out
  · exact pAmplitude_out
  · exact pMix_out
  · exact pMultiMix_out
  · exact pScale_out
  · exact pSlider_out
  · exact pRotator_out
  · exact pAnchor_out
  · exact pXOverride_out
  · exact pYOverride_out
  · exact pZOverride_out
  · exact pGradientWarp_out
  · exact pFastGradientWarp_out
  · exact pVectorWarp_out
  · exact pDistance_out
  · exact pCube_out
  · exact pEllipsoid_out
  · exact pCuboid_out
  · exact pCylinder_out
  · exact pPlane_out
  · exact pAxis_out
  · exact pShell_out
  · exact pAngle_out
  · exact pXValue_out
  · exact pYValue_out
  · exact pZValue_out
  · exact pTerrain_out
  · exact pBaseHeight_out
  · exact pCellWallDistance_out
  · exact pDistanceToBiomeEdge_out
  · exact pGradient_out
  · exact pCache_out
  · exact pCache2D_out
  · exact pYSampled_out
  · exact pSwitch_out
  · exact pSwitchState_out
  · exact pPositionsCellNoise_out
  · exact pPositions3D_out
  · exact pPositionsPinch_out
  · exact pPositionsTwist_out
  · exact pExported_out
  · exact pImported_out
  · exact pPipeline_out

/-- `tableSound`, with the table pair destructured. -/
theorem tableSound2 (t : String)
    (p : List (String × Json) → Except SchemaError DensityType)
    (hmem : (t, p) ∈ parserTable) (f : List (String × Json)) :
    (∃ n, p f = .ok n ∧ tagName n = t) ∨ p f = .error .TypeMismatch :=
  tableSound (t, p) hmem f

/-- The whole parser never reports a depth error: the depth guard lives in
`parseDocument` alone. -/
theorem parse_no_TooDeep (j : Json) : parse j ≠ .error .TooDeep := by
  cases j with
  | obj fields =>
    simp only [parse]
    cases hT : alookup fields "Type" with
    | none => simp
    | some v =>
      cases v with
      | str t =>
        cases hL : alookup parserTable t with
        | none => simp [hL]
        | some p =>
          rcases tableSound2 t p (alookup_mem hL) fields with ⟨n, hn, _⟩ | hn <;>
            simp [hL, hn]
      | null => simp
      | bool b => simp
      | num q => simp
      | arr xs => simp
      | obj fs => simp
  | null => simp [parse]
  | bool b => simp [parse]
  | num q => simp [parse]
  | str s => simp [parse]
  | arr xs => simp [parse]

/-- Claim C1: parsing a JSON object dispatches on the required `Type` string
discriminator to exactly one of the 68 variants (the name list has 68 distinct
entries); an absent `Type`, or one naming anything outside the list, is
`SchemaError::UnknownType`; a successful parse under a known tag yields exactly
that variant, and a known tag never yields `UnknownType`. -/
theorem density_type_dispatch :
    (variantNames.length = 68 ∧ variantNames.Nodup)
    ∧ (∀ fields t, alookup fields "Type" = some (Json.str t) → t ∉ variantNames →
        parse (Json.obj fields) = .error .UnknownType)
    ∧ (∀ fields, alookup fields "Type" = none →
        parse (Json.obj fields) = .error .UnknownType)
    ∧ (∀ fields t node, alookup fields "Type" = some (Json.str t) →
        parse (Json.obj fields) = .ok node → t ∈ variantNames ∧ tagName node = t)
    ∧ (∀ fields t, alookup fields "Type" = some (Json.str t) → t ∈ variantNames →
        parse (Json.obj fields) ≠ .error .UnknownType) := by
  have hkeys : parserTable.map Prod.fst = variantNames := rfl
  refine ⟨⟨rfl, by decide⟩, ?_, ?_, ?_, ?_⟩
  · intro fields t hT ht
    have hnone : alookup parserTable t = none := alookup_eq_none (by rw [hkeys]; exact ht)
    simp [parse, hT, hnone]
  · intro fields hT
    simp [parse, hT]
  · intro fields t node hT hp
    simp only [parse, hT] at hp
    cases hL : alookup parserTable t with
    | none => simp [hL] at hp
    | some p =>
      simp only [hL] at hp
      have hmem := alookup_mem hL
      rcases tableSound2 t p hmem fields with ⟨n, hn, htag⟩ | hn
      · rw [hp] at hn
        injection hn with hn
        refine ⟨?_, hn ▸ htag⟩
        rw [← hkeys]
        exact List.mem_map_of_mem Prod.fst hmem
      · rw [hp] at hn
        cases hn
  · intro fields t hT ht
    have hsome := alookup_isSome_of_mem parserTable t (by rw [hkeys]; exact ht)
    obtain ⟨p, hL⟩ := Option.isSome_iff_exists.mp hsome
    rcases tableSound2 t p (alookup_mem hL) fields with ⟨n, hn, _⟩ | hn <;>
      simp [parse, hT, hL, hn]

/-- Claim C3: a document nested deeper than the configured limit (512) is
rejected with `SchemaError::TooDeep`, and a document within the limit is never
rejected for depth. -/
theorem parse_depth_guard :
    (∀ j, depthLe 512 j = false → parseDocument j = .error .TooDeep)
    ∧ (∀ j, depthLe 512 j = true → parseDocument j ≠ .error .TooDeep) := by
  constructor
  · intro j h
    simp [parseDocument, h]
  · intro j h
    simp only [parseDocument, h, if_true]
    exact parse_no_TooDeep j

/-- Claim C4 (amended): `parse (serialize t) = ok t` for every constructible node
whose optional raw-JSON sub-tree fields do not hold the JSON value null; a field
holding `some null` serializes to null and deserializes back to `none`, so the
unamended round-trip fails on exactly those nodes. -/
theorem parse_serialize_roundtrip (t : DensityType)
    (h : ∀ o ∈ optJsonFields t, o ≠ some Json.null) :
    parse (serialize t) = .ok t := by
  cases t with
  | SimplexNoise2D lacunarity persistence scale octaves seed =>
    simp [serialize, parse, alookup, parserTable, pSimplexNoise2D, Except.bind, decode_enc_optNum, decode_enc_optInt, decode_enc_optStr, decode_enc_optBool, decode_enc_vec]
  | SimplexNoise3D lacunarity persistence scale_xz scale_y octaves seed =>
    simp [serialize, parse, alookup, parserTable, pSimplexNoise3D, Except.bind, decode_enc_optNum, decode_enc_optInt, decode_enc_optStr, decode_enc_optBool, decode_enc_vec]
  | CellNoise2D scale seed return_type distance_function =>
    simp [serialize, parse, alookup, parserTable, pCellNoise2D, Except.bind, decode_enc_optNum, decode_enc_optInt, decode_enc_optStr, decode_enc_optBool, decode_enc_vec]
  | CellNoise3D scale seed return_type distance_function =>
    simp [serialize, parse, alookup, parserTable, pCellNoise3D, Except.bind, decode_enc_optNum, decode_enc_optInt, decode_enc_optStr, decode_enc_optBool, decode_enc_vec]
  | Constant value =>
    simp [serialize, parse, alookup, parserTable, pConstant, Except.bind, decode_enc_optNum, decode_enc_optInt, decode_enc_optStr, decode_enc_optBool, decode_enc_vec]
  | Sum inputs =>
    simp [serialize, parse, alookup, parserTable, pSum, Except.bind, decode_enc_optNum, decode_enc_optInt, decode_enc_optStr, decode_enc_optBool, decode_enc_vec]
  | Multiplier inputs =>
    simp [serialize, parse, alookup, parserTable, pMultiplier, Except.bind, decode_enc_optNum, decode_enc_optInt, decode_enc_optStr, decode_enc_optBool, decode_enc_vec]
  | Abs input =>
    have hv1 : input ≠ some Json.null := h input (by simp [optJsonFields])
    simp [serialize, parse, alookup, parserTable, pAbs, Except.bind, decode_enc_optNum, decode_enc_optInt, decode_enc_optStr, decode_enc_optBool, decode_enc_vec, decode_enc_optVal _ hv1]
  | Inverter input =>
    have hv1 : input ≠ some Json.null := h input (by simp [optJsonFields])
    simp [serialize, parse, alookup, parserTable, pInverter, Except.bind, decode_enc_optNum, decode_enc_optInt, decode_enc_optStr, decode_enc_optBool, decode_enc_vec, decode_enc_optVal _ hv1]
  | Sqrt input =>
    have hv1 : input ≠ some Json.null := h input (by simp [optJsonFields])
    simp [serialize, parse, alookup, parserTable, pSqrt, Except.bind, decode_enc_optNum, decode_enc_optInt, decode_enc_optStr, decode_enc_optBool, decode_enc_vec, decode_enc_optVal _ hv1]
  | Pow exponent input =>
    have hv1 : input ≠ some Json.null := h input (by simp [optJsonFields])
    simp [serialize, parse, alookup, parserTable, pPow, Except.bind, decode_enc_optNum, decode_enc_optInt, decode_enc_optStr, decode_enc_optBool, decode_enc_vec, decode_enc_optVal _ hv1]
  | OffsetConstant offset input =>
    have hv1 : input ≠ some Json.null := h input (by simp [optJsonFields])
    simp [serialize, parse, alookup, parserTable, pOffsetConstant, Except.bind, decode_enc_optNum, decode_enc_optInt, decode_enc_optStr, decode_enc_optBool, decode_enc_vec, decode_enc_optVal _ hv1]
  | AmplitudeConstant amplitude input =>
    have hv1 : input ≠ some Json.null := h input (by simp [optJsonFields])
    simp [serialize, parse, alookup, parserTable, pAmplitudeConstant, Except.bind, decode_enc_optNum, decode_enc_optInt, decode_enc_optStr, decode_enc_optBool, decode_enc_vec, decode_enc_optVal _ hv1]
  | Clamp wall_a wall_b input =>
    have hv1 : input ≠ some Json.null := h input (by simp [optJsonFields])
    simp [serialize, parse, alookup, parserTable, pClamp, Except.bind, decode_enc_optNum, decode_enc_optInt, decode_enc_optStr, decode_enc_optBool, decode_enc_vec, decode_enc_optVal _ hv1]
  | SmoothClamp wall_a wall_b range input =>
    have hv1 : input ≠ some Json.null := h input (by simp [optJsonFields])
    simp [serialize, parse, alookup, parserTable, pSmoothClamp, Except.bind, decode_enc_optNum, decode_enc_optInt, decode_enc_optStr, decode_enc_optBool, decode_enc_vec, decode_enc_optVal _ hv1]
  | Floor floor input =>
    have hv1 : input ≠ some Json.null := h input (by simp [optJsonFields])
    simp [serialize, parse, alookup, parserTable, pFloor, Except.bind, decode_enc_optNum, decode_enc_optInt, decode_enc_optStr, decode_enc_optBool, decode_enc_vec, decode_enc_optVal _ hv1]
  | SmoothFloor floor range input =>
    have hv1 : input ≠ some Json.null := h input (by simp [optJsonFields])
    simp [serialize, parse, alookup, parserTable, pSmoothFloor, Except.bind, decode_enc_optNum, decode_enc_optInt, decode_enc_optStr, decode_enc_optBool, decode_enc_vec, decode_enc_optVal _ hv1]
  | Ceiling ceiling input =>
    have hv1 : input ≠ some Json.null := h input (by simp [optJsonFields])
    simp [serialize, parse, alookup, parserTable, pCeiling, Except.bind, decode_enc_optNum, decode_enc_optInt, decode_enc_optStr, decode_enc_optBool, decode_enc_vec, decode_enc_optVal _ hv1]
  | SmoothCeiling ceiling range input =>
    have hv1 : input ≠ some Json.null := h input (by simp [optJsonFields])
    simp [serialize, parse, alookup, parserTable, pSmoothCeiling, Except.bind, decode_enc_optNum, decode_enc_optInt, decode_enc_optStr, decode_enc_optBool, decode_enc_vec, decode_enc_optVal _ hv1]
  | Min inputs =>
    simp [serialize, parse, alookup, parserTable, pMin, Except.bind, decode_enc_optNum, decode_enc_optInt, decode_enc_optStr, decode_enc_optBool, decode_enc_vec]
  | SmoothMin range inputs =>
    simp [serialize, parse, alookup, parserTable, pSmoothMin, Except.bind, decode_enc_optNum, decode_enc_optInt, decode_enc_optStr, decode_enc_optBool, decode_enc_vec]
  | Max inputs =>
    simp [serialize, parse, alookup, parserTable, pMax, Except.bind, decode_enc_optNum, decode_enc_optInt, decode_enc_optStr, decode_enc_optBool, decode_enc_vec]
  | SmoothMax range inputs =>
    simp [serialize, parse, alookup, parserTable, pSmoothMax, Except.bind, decode_enc_optNum, decode_enc_optInt, decode_enc_optStr, decode_enc_optBool, decode_enc_vec]
  | Normalizer from_min from_max to_min to_max input =>
    have hv1 : input ≠ some Json.null := h input (by simp [optJsonFields])
    simp [serialize, parse, alookup, parserTable, pNormalizer, Except.bind, decode_enc_optNum, decode_enc_optInt, decode_enc_optStr, decode_enc_optBool, decode_enc_vec, decode_enc_optVal _ hv1]
  | CurveMapper curve input =>
    have hv1 : curve ≠ some Json.null := h curve (by simp [optJsonFields])
    have hv2 : input ≠ some Json.null := h input (by simp [optJsonFields])
    simp [serialize, parse, alookup, parserTable, pCurveMapper, Except.bind, decode_enc_optNum, decode_enc_optInt, decode_enc_optStr, decode_enc_optBool, decode_enc_vec, decode_enc_optVal _ hv1, decode_enc_optVal _ hv2]
  | Offset offset input =>
    have hv1 : offset ≠ some Json.null := h offset (by simp [optJsonFields])
    have hv2 : input ≠ some Json.null := h input (by simp [optJsonFields])
    simp [serialize, parse, alookup, parserTable, pOffset, Except.bind, decode_enc_optNum, decode_enc_optInt, decode_enc_optStr, decode_enc_optBool, decode_enc_vec, decode_enc_optVal _ hv1, decode_enc_optVal _ hv2]
  | Amplitude amplitude input =>
    have hv1 : amplitude ≠ some Json.null := h amplitude (by simp [optJsonFields])
    have hv2 : input ≠ some Json.null := h input (by simp [optJsonFields])
    simp [serialize, parse, alookup, parserTable, pAmplitude, Except.bind, decode_enc_optNum, decode_enc_optInt, decode_enc_optStr, decode_enc_optBool, decode_enc_vec, decode_enc_optVal _ hv1, decode_enc_optVal _ hv2]
  | Mix inputs =>
    simp [serialize, parse, alookup, parserTable, pMix, Except.bind, decode_enc_optNum, decode_enc_optInt, decode_enc_optStr, decode_enc_optBool, decode_enc_vec]
  | MultiMix keys inputs =>
    simp [serialize, parse, alookup, parserTable, pMultiMix, Except.bind, decode_enc_optNum, decode_enc_optInt, decode_enc_optStr, decode_enc_optBool, decode_enc_vec]
  | Scale x y z input =>
    have hv1 : input ≠ some Json.null := h input (by simp [optJsonFields])
    simp [serialize, parse, alookup, parserTable, pScale, Except.bind, decode_enc_optNum, decode_enc_optInt, decode_enc_optStr, decode_enc_optBool, decode_enc_vec, decode_enc_optVal _ hv1]
  | Slider slide_x slide_y slide_z input =>
    have hv1 : input ≠ some Json.null := h input (by simp [optJsonFields])
    simp [serialize, parse, alookup, parserTable, pSlider, Except.bind, decode_enc_optNum, decode_enc_optInt, decode_enc_optStr, decode_enc_optBool, decode_enc_vec, decode_enc_optVal _ hv1]
  | Rotator new_y_axis x y z spin_angle input =>
    have hv1 : new_y_axis ≠ some Json.null := h new_y_axis (by simp [optJsonFields])
    have hv2 : input ≠ some Json.null := h input (by simp [optJsonFields])
    simp [serialize, parse, alookup, parserTable, pRotator, Except.bind, decode_enc_optNum, decode_enc_optInt, decode_enc_optStr, decode_enc_optBool, decode_enc_vec, decode_enc_optVal _ hv1, decode_enc_optVal _ hv2]
  | Anchor reverse input =>
    have hv1 : input ≠ some Json.null := h input (by simp [optJsonFields])
    simp [serialize, parse, alookup, parserTable, pAnchor, Except.bind, decode_enc_optNum, decode_enc_optInt, decode_enc_optStr, decode_enc_optBool, decode_enc_vec, decode_enc_optVal _ hv1]
  | XOverride input override_value =>
    have hv1 : input ≠ some Json.null := h input (by simp [optJsonFields])
    have hv2 : override_value ≠ some Json.null := h override_value (by simp [optJsonFields])
    simp [serialize, parse, alookup, parserTable, pXOverride, Except.bind, decode_enc_optNum, decode_enc_optInt, decode_enc_optStr, decode_enc_optBool, decode_enc_vec, decode_enc_optVal _ hv1, decode_enc_optVal _ hv2]
  | YOverride input override_value =>
    have hv1 : input ≠ some Json.null := h input (by simp [optJsonFields])
    have hv2 : override_value ≠ some Json.null := h override_value (by simp [optJsonFields])
    simp [serialize, parse, alookup, parserTable, pYOverride, Except.bind, decode_enc_optNum, decode_enc_optInt, decode_enc_optStr, decode_enc_optBool, decode_enc_vec, decode_enc_optVal _ hv1, decode_enc_optVal _ hv2]
  | ZOverride input override_value =>
    have hv1 : input ≠ some Json.null := h input (by simp [optJsonFields])
    have hv2 : override_value ≠ some Json.null := h override_value (by simp [optJsonFields])
    simp [serialize, parse, alookup, parserTable, pZOverride, Except.bind, decode_enc_optNum, decode_enc_optInt, decode_enc_optStr, decode_enc_optBool, decode_enc_vec, decode_enc_optVal _ hv1, decode_enc_optVal _ hv2]
  | GradientWarp sample_range warp_factor is_2d y_for_2d inputs =>
    simp [serialize, parse, alookup, parserTable, pGradientWarp, Except.bind, decode_enc_optNum, decode_enc_optInt, decode_enc_optStr, decode_enc_optBool, decode_enc_vec]
  | FastGradientWarp warp_scale warp_lacunarity warp_persistence warp_octaves warp_factor seed is_2d input =>
    have hv1 : input ≠ some Json.null := h input (by simp [optJsonFields])
    simp [serialize, parse, alookup, parserTable, pFastGradientWarp, Except.bind, decode_enc_optNum, decode_enc_optInt, decode_enc_optStr, decode_enc_optBool, decode_enc_vec, decode_enc_optVal _ hv1]
  | VectorWarp warp_factor warp_vector x y z inputs =>
    have hv1 : warp_vector ≠ some Json.null := h warp_vector (by simp [optJsonFields])
    simp [serialize, parse, alookup, parserTable, pVectorWarp, Except.bind, decode_enc_optNum, decode_enc_optInt, decode_enc_optStr, decode_enc_optBool, decode_enc_vec, decode_enc_optVal _ hv1]
  | Distance curve =>
    have hv1 : curve ≠ some Json.null := h curve (by simp [optJsonFields])
    simp [serialize, parse, alookup, parserTable, pDistance, Except.bind, decode_enc_optNum, decode_enc_optInt, decode_enc_optStr, decode_enc_optBool, decode_enc_vec, decode_enc_optVal _ hv1]
  | Cube curve =>
    have hv1 : curve ≠ some Json.null := h curve (by simp [optJsonFields])
    simp [serialize, parse, alookup, parserTable, pCube, Except.bind, decode_enc_optNum, decode_enc_optInt, decode_enc_optStr, decode_enc_optBool, decode_enc_vec, decode_enc_optVal _ hv1]
  | Ellipsoid curve scale x y z spin =>
    have hv1 : curve ≠ some Json.null := h curve (by simp [optJsonFields])
    have hv2 : scale ≠ some Json.null := h scale (by simp [optJsonFields])
    simp [serialize, parse, alookup, parserTable, pEllipsoid, Except.bind, decode_enc_optNum, decode_enc_optInt, decode_enc_optStr, decode_enc_optBool, decode_enc_vec, decode_enc_optVal _ hv1, decode_enc_optVal _ hv2]
  | Cuboid curve scale x y z spin new_y_axis =>
    have hv1 : curve ≠ some Json.null := h curve (by simp [optJsonFields])
    have hv2 : scale ≠ some Json.null := h scale (by simp [optJsonFields])
    have hv3 : new_y_axis ≠ some Json.null := h new_y_axis (by simp [optJsonFields])
    simp [serialize, parse, alookup, parserTable, pCuboid, Except.bind, decode_enc_optNum, decode_enc_optInt, decode_enc_optStr, decode_enc_optBool, decode_enc_vec, decode_enc_optVal _ hv1, decode_enc_optVal _ hv2, decode_enc_optVal _ hv3]
  | Cylinder axial_curve radial_curve spin new_y_axis =>
    have hv1 : axial_curve ≠ some Json.null := h axial_curve (by simp [optJsonFields])
    have hv2 : radial_curve ≠ some Json.null := h radial_curve (by simp [optJsonFields])
    have hv3 : new_y_axis ≠ some Json.null := h new_y_axis (by simp [optJsonFields])
    simp [serialize, parse, alookup, parserTable, pCylinder, Except.bind, decode_enc_optNum, decode_enc_optInt, decode_enc_optStr, decode_enc_optBool, decode_enc_vec, decode_enc_optVal _ hv1, decode_enc_optVal _ hv2, decode_enc_optVal _ hv3]
  | Plane plane_normal x y z curve =>
    have hv1 : plane_normal ≠ some Json.null := h plane_normal (by simp [optJsonFields])
    have hv2 : curve ≠ some Json.null := h curve (by simp [optJsonFields])
    simp [serialize, parse, alookup, parserTable, pPlane, Except.bind, decode_enc_optNum, decode_enc_optInt, decode_enc_optStr, decode_enc_optBool, decode_enc_vec, decode_enc_optVal _ hv1, decode_enc_optVal _ hv2]
  | Axis axis x y z curve is_anchored =>
    have hv1 : axis ≠ some Json.null := h axis (by simp [optJsonFields])
    have hv2 : curve ≠ some Json.null := h curve (by simp [optJsonFields])
    simp [serialize, parse, alookup, parserTable, pAxis, Except.bind, decode_enc_optNum, decode_enc_optInt, decode_enc_optStr, decode_enc_optBool, decode_enc_vec, decode_enc_optVal _ hv1, decode_enc_optVal _ hv2]
  | Shell axis x y z mirror angle_curve distance_curve =>
    have hv1 : axis ≠ some Json.null := h axis (by simp [optJsonFields])
    have hv2 : angle_curve ≠ some Json.null := h angle_curve (by simp [optJsonFields])
    have hv3 : distance_curve ≠ some Json.null := h distance_curve (by simp [optJsonFields])
    simp [serialize, parse, alookup, parserTable, pShell, Except.bind, decode_enc_optNum, decode_enc_optInt, decode_enc_optStr, decode_enc_optBool, decode_enc_vec, decode_enc_optVal _ hv1, decode_enc_optVal _ hv2, decode_enc_optVal _ hv3]
  | Angle vector vector_provider =>
    have hv1 : vector ≠ some Json.null := h vector (by simp [optJsonFields])
    have hv2 : vector_provider ≠ some Json.null := h vector_provider (by simp [optJsonFields])
    simp [serialize, parse, alookup, parserTable, pAngle, Except.bind, decode_enc_optNum, decode_enc_optInt, decode_enc_optStr, decode_enc_optBool, decode_enc_vec, decode_enc_optVal _ hv1, decode_enc_optVal _ hv2]
  | XValue =>
    simp [serialize, parse, alookup, parserTable, pXValue, Except.bind, decode_enc_optNum, decode_enc_optInt, decode_enc_optStr, decode_enc_optBool, decode_enc_vec]
  | YValue =>
    simp [serialize, parse, alookup, parserTable, pYValue, Except.bind, decode_enc_optNum, decode_enc_optInt, decode_enc_optStr, decode_enc_optBool, decode_enc_vec]
  | ZValue =>
    simp [serialize, parse, alookup, parserTable, pZValue, Except.bind, decode_enc_optNum, decode_enc_optInt, decode_enc_optStr, decode_enc_optBool, decode_enc_vec]
  | Terrain =>
    simp [serialize, parse, alookup, parserTable, pTerrain, Except.bind, decode_enc_optNum, decode_enc_optInt, decode_enc_optStr, decode_enc_optBool, decode_enc_vec]
  | BaseHeight base_height_name distance =>
    simp [serialize, parse, alookup, parserTable, pBaseHeight, Except.bind, decode_enc_optNum, decode_enc_optInt, decode_enc_optStr, decode_enc_optBool, decode_enc_vec]
  | CellWallDistance positions max_distance =>
    have hv1 : positions ≠ some Json.null := h positions (by simp [optJsonFields])
    simp [serialize, parse, alookup, parserTable, pCellWallDistance, Except.bind, decode_enc_optNum, decode_enc_optInt, decode_enc_optStr, decode_enc_optBool, decode_enc_vec, decode_enc_optVal _ hv1]
  | DistanceToBiomeEdge =>
    simp [serialize, parse, alookup, parserTable, pDistanceToBiomeEdge, Except.bind, decode_enc_optNum, decode_enc_optInt, decode_enc_optStr, decode_enc_optBool, decode_enc_vec]
  | Gradient from_ to_ from_y to_y =>
    simp [serialize, parse, alookup, parserTable, pGradient, Except.bind, decode_enc_optNum, decode_enc_optInt, decode_enc_optStr, decode_enc_optBool, decode_enc_vec]
  | Cache capacity input =>
    have hv1 : input ≠ some Json.null := h input (by simp [optJsonFields])
    simp [serialize, parse, alookup, parserTable, pCache, Except.bind, decode_enc_optNum, decode_enc_optInt, decode_enc_optStr, decode_enc_optBool, decode_enc_vec, decode_enc_optVal _ hv1]
  | Cache2D input =>
    have hv1 : input ≠ some Json.null := h input (by simp [optJsonFields])
    simp [serialize, parse, alookup, parserTable, pCache2D, Except.bind, decode_enc_optNum, decode_enc_optInt, decode_enc_optStr, decode_enc_optBool, decode_enc_vec, decode_enc_optVal _ hv1]
  | YSampled y input =>
    have hv1 : input ≠ some Json.null := h input (by simp [optJsonFields])
    simp [serialize, parse, alookup, parserTable, pYSampled, Except.bind, decode_enc_optNum, decode_enc_optInt, decode_enc_optStr, decode_enc_optBool, decode_enc_vec, decode_enc_optVal _ hv1]
  | Switch switch_cases input =>
    have hv1 : input ≠ some Json.null := h input (by simp [optJsonFields])
    simp [serialize, parse, alookup, parserTable, pSwitch, Except.bind, decode_enc_optNum, decode_enc_optInt, decode_enc_optStr, decode_enc_optBool, decode_enc_vec, decode_enc_optVal _ hv1]
  | SwitchState switch_state input =>
    have hv1 : input ≠ some Json.null := h input (by simp [optJsonFields])
    simp [serialize, parse, alookup, parserTable, pSwitchState, Except.bind, decode_enc_optNum, decode_enc_optInt, decode_enc_optStr, decode_enc_optBool, decode_enc_vec, decode_enc_optVal _ hv1]
  | PositionsCellNoise positions return_type distance_function max_distance =>
    have hv1 : positions ≠ some Json.null := h positions (by simp [optJsonFields])
    have hv2 : return_type ≠ some Json.null := h return_type (by simp [optJsonFields])
    have hv3 : distance_function ≠ some Json.null := h distance_function (by simp [optJsonFields])
    simp [serialize, parse, alookup, parserTable, pPositionsCellNoise, Except.bind, decode_enc_optNum, decode_enc_optInt, decode_enc_optStr, decode_enc_optBool, decode_enc_vec, decode_enc_optVal _ hv1, decode_enc_optVal _ hv2, decode_enc_optVal _ hv3]
  | Positions3D positions density max_distance =>
    have hv1 : positions ≠ some Json.null := h positions (by simp [optJsonFields])
    have hv2 : density ≠ some Json.null := h density (by simp [optJsonFields])
    simp [serialize, parse, alookup, parserTable, pPositions3D, Except.bind, decode_enc_optNum, decode_enc_optInt, decode_enc_optStr, decode_enc_optBool, decode_enc_vec, decode_enc_optVal _ hv1, decode_enc_optVal _ hv2]
  | PositionsPinch positions pinch_curve max_distance normalize_distance horizontal_pinch positions_max_y positions_min_y input =>
    have hv1 : positions ≠ some Json.null := h positions (by simp [optJsonFields])
    have hv2 : pinch_curve ≠ some Json.null := h pinch_curve (by simp [optJsonFields])
    have hv3 : input ≠ some Json.null := h input (by simp [optJsonFields])
    simp [serialize, parse, alookup, parserTable, pPositionsPinch, Except.bind, decode_enc_optNum, decode_enc_optInt, decode_enc_optStr, decode_enc_optBool, decode_enc_vec, decode_enc_optVal _ hv1, decode_enc_optVal _ hv2, decode_enc_optVal _ hv3]
  | PositionsTwist positions twist_curve twist_axis x y z max_distance normalize_distance input =>
    have hv1 : positions ≠ some Json.null := h positions (by simp [optJsonFields])
    have hv2 : twist_curve ≠ some Json.null := h twist_curve (by simp [optJsonFields])
    have hv3 : twist_axis ≠ some Json.null := h twist_axis (by simp [optJsonFields])
    have hv4 : input ≠ some Json.null := h input (by simp [optJsonFields])
    simp [serialize, parse, alookup, parserTable, pPositionsTwist, Except.bind, decode_enc_optNum, decode_enc_optInt, decode_enc_optStr, decode_enc_optBool, decode_enc_vec, decode_enc_optVal _ hv1, decode_enc_optVal _ hv2, decode_enc_optVal _ hv3, decode_enc_optVal _ hv4]
  | Exported single_instance density input =>
    have hv1 : density ≠ some Json.null := h density (by simp [optJsonFields])
    have hv2 : input ≠ some Json.null := h input (by simp [optJsonFields])
    simp [serialize, parse, alookup, parserTable, pExported, Except.bind, decode_enc_optNum, decode_enc_optInt, decode_enc_optStr, decode_enc_optBool, decode_enc_vec, decode_enc_optVal _ hv1, decode_enc_optVal _ hv2]
  | Imported name =>
    simp [serialize, parse, alookup, parserTable, pImported, Except.bind, decode_enc_optNum, decode_enc_optInt, decode_enc_optStr, decode_enc_optBool, decode_enc_vec]
  | Pipeline steps input =>
    have hv1 : input ≠ some Json.null := h input (by simp [optJsonFields])
    simp [serialize, parse, alookup, parserTable, pPipeline, Except.bind, decode_enc_optNum, decode_enc_optInt, decode_enc_optStr, decode_enc_optBool, decode_enc_vec, decode_enc_optVal _ hv1]

/-- Claim C5: for each of the 68 variants, an object carrying only the `Type`
discriminator (plus any fields unknown to the schema, which are ignored) parses
successfully to the all-defaults node: `none` for every optional scalar, string,
boolean, integer and sub-tree field, and the empty list for `Inputs` fields. -/
theorem parse_type_only_defaults (t : String) (extras : List (String × Json))
    (ht : t ∈ variantNames) (hex : ∀ p ∈ extras, p.1 ∉ schemaKeys) :
    ∃ d, defaultNode t = some d ∧
      parse (Json.obj (("Type", Json.str t) :: extras)) = .ok d := by
  simp only [variantNames, List.mem_cons, List.not_mem_nil, or_false] at ht
  rcases ht with rfl | rfl | rfl | rfl | rfl | rfl | rfl | rfl | rfl | rfl | rfl | rfl | rfl | rfl | rfl | rfl | rfl | rfl | rfl | rfl | rfl | rfl | rfl | rfl | rfl | rfl | rfl | rfl | rfl | rfl | rfl | rfl | rfl | rfl | rfl | rfl | rfl | rfl | rfl | rfl | rfl | rfl | rfl | rfl | rfl | rfl | rfl | rfl | rfl | rfl | rfl | rfl | rfl | rfl | rfl | rfl | rfl | rfl | rfl | rfl | rfl | rfl | rfl | rfl | rfl | rfl | rfl | rfl
  · -- SimplexNoise2D
    have e1 : alookup extras "Lacunarity" = none :=
      alookup_avoid extras "Lacunarity" hex (by decide)
    have e2 : alookup extras "Persistence" = none :=
      alookup_avoid extras "Persistence" hex (by decide)
    have e3 : alookup extras "Scale" = none :=
      alookup_avoid extras "Scale" hex (by decide)
    have e4 : alookup extras "Octaves" = none :=
      alookup_avoid extras "Octaves" hex (by decide)
    have e5 : alookup extras "Seed" = none :=
      alookup_avoid extras "Seed" hex (by decide)
    exact ⟨_, rfl, by simp [parse, alookup, parserTable, pSimplexNoise2D, Except.bind, decodeOptNum, decodeOptInt, decodeOptStr, decodeOptBool, decodeOptVal, decodeVec, e1, e2, e3, e4, e5]⟩
  · -- SimplexNoise3D
    have e1 : alookup extras "Lacunarity" = none :=
      alookup_avoid extras "Lacunarity" hex (by decide)
    have e2 : alookup extras "Persistence" = none :=
      alookup_avoid extras "Persistence" hex (by decide)
    have e3 : alookup extras "ScaleXZ" = none :=
      alookup_avoid extras "ScaleXZ" hex (by decide)
    have e4 : alookup extras "ScaleY" = none :=
      alookup_avoid extras "ScaleY" hex (by decide)
    have e5 : alookup extras "Octaves" = none :=
      alookup_avoid extras "Octaves" hex (by decide)
    have e6 : alookup extras "Seed" = none :=
      alookup_avoid extras "Seed" hex (by decide)
    exact ⟨_, rfl, by simp [parse, alookup, parserTable, pSimplexNoise3D, Except.bind, decodeOptNum, decodeOptInt, decodeOptStr, decodeOptBool, decodeOptVal, decodeVec, e1, e2, e3, e4, e5, e6]⟩
  · -- CellNoise2D
    have e1 : alookup extras "Scale" = none :=
      alookup_avoid extras "Scale" hex (by decide)
    have e2 : alookup extras "Seed" = none :=
      alookup_avoid extras "Seed" hex (by decide)
    have e3 : alookup extras "ReturnType" = none :=
      alookup_avoid extras "ReturnType" hex (by decide)
    have e4 : alookup extras "DistanceFunction" = none :=
      alookup_avoid extras "DistanceFunction" hex (by decide)
    exact ⟨_, rfl, by simp [parse, alookup, parserTable, pCellNoise2D, Except.bind, decodeOptNum, decodeOptInt, decodeOptStr, decodeOptBool, decodeOptVal, decodeVec, e1, e2, e3, e4]⟩
  · -- CellNoise3D
    have e1 : alookup extras "Scale" = none :=
      alookup_avoid extras "Scale" hex (by decide)
    have e2 : alookup extras "Seed" = none :=
      alookup_avoid extras "Seed" hex (by decide)
    have e3 : alookup extras "ReturnType" = none :=
      alookup_avoid extras "ReturnType" hex (by decide)
    have e4 : alookup extras "DistanceFunction" = none :=
      alookup_avoid extras "DistanceFunction" hex (by decide)
    exact ⟨_, rfl, by simp [parse, alookup, parserTable, pCellNoise3D, Except.bind, decodeOptNum, decodeOptInt, decodeOptStr, decodeOptBool, decodeOptVal, decodeVec, e1, e2, e3, e4]⟩
  · -- Constant
    have e1 : alookup extras "Value" = none :=
      alookup_avoid extras "Value" hex (by decide)
    exact ⟨_, rfl, by simp [parse, alookup, parserTable, pConstant, Except.bind, decodeOptNum, decodeOptInt, decodeOptStr, decodeOptBool, decodeOptVal, decodeVec, e1]⟩
  · -- Sum
    have e1 : alookup extras "Inputs" = none :=
      alookup_avoid extras "Inputs" hex (by decide)
    exact ⟨_, rfl, by simp [parse, alookup, parserTable, pSum, Except.bind, decodeOptNum, decodeOptInt, decodeOptStr, decodeOptBool, decodeOptVal, decodeVec, e1]⟩
  · -- Multiplier
    have e1 : alookup extras "Inputs" = none :=
      alookup_avoid extras "Inputs" hex (by decide)
    exact ⟨_, rfl, by simp [parse, alookup, parserTable, pMultiplier, Except.bind, decodeOptNum, decodeOptInt, decodeOptStr, decodeOptBool, decodeOptVal, decodeVec, e1]⟩
  · -- Abs
    have e1 : alookup extras "Input" = none :=
      alookup_avoid extras "Input" hex (by decide)
    exact ⟨_, rfl, by simp [parse, alookup, parserTable, pAbs, Except.bind, decodeOptNum, decodeOptInt, decodeOptStr, decodeOptBool, decodeOptVal, decodeVec, e1]⟩
  · -- Inverter
    have e1 : alookup extras "Input" = none :=
      alookup_avoid extras "Input" hex (by decide)
    exact ⟨_, rfl, by simp [parse, alookup, parserTable, pInverter, Except.bind, decodeOptNum, decodeOptInt, decodeOptStr, decodeOptBool, decodeOptVal, decodeVec, e1]⟩
  · -- Sqrt
    have e1 : alookup extras "Input" = none :=
      alookup_avoid extras "Input" hex (by decide)
    exact ⟨_, rfl, by simp [parse, alookup, parserTable, pSqrt, Except.bind, decodeOptNum, decodeOptInt, decodeOptStr, decodeOptBool, decodeOptVal, decodeVec, e1]⟩
  · -- Pow
    have e1 : alookup extras "Exponent" = none :=
      alookup_avoid extras "Exponent" hex (by decide)
    have e2 : alookup extras "Input" = none :=
      alookup_avoid extras "Input" hex (by decide)
    exact ⟨_, rfl, by simp [parse, alookup, parserTable, pPow, Except.bind, decodeOptNum, decodeOptInt, decodeOptStr, decodeOptBool, decodeOptVal, decodeVec, e1, e2]⟩
  · -- OffsetConstant
    have e1 : alookup extras "Offset" = none :=
      alookup_avoid extras "Offset" hex (by decide)
    have e2 : alookup extras "Input" = none :=
      alookup_avoid extras "Input" hex (by decide)
    exact ⟨_, rfl, by simp [parse, alookup, parserTable, pOffsetConstant, Except.bind, decodeOptNum, decodeOptInt, decodeOptStr, decodeOptBool, decodeOptVal, decodeVec, e1, e2]⟩
  · -- AmplitudeConstant
    have e1 : alookup extras "Amplitude" = none :=
      alookup_avoid extras "Amplitude" hex (by decide)
    have e2 : alookup extras "Input" = none :=
      alookup_avoid extras "Input" hex (by decide)
    exact ⟨_, rfl, by simp [parse, alookup, parserTable, pAmplitudeConstant, Except.bind, decodeOptNum, decodeOptInt, decodeOptStr, decodeOptBool, decodeOptVal, decodeVec, e1, e2]⟩
  · -- Clamp
    have e1 : alookup extras "WallA" = none :=
      alookup_avoid extras "WallA" hex (by decide)
    have e2 : alookup extras "WallB" = none :=
      alookup_avoid extras "WallB" hex (by decide)
    have e3 : alookup extras "Input" = none :=
      alookup_avoid extras "Input" hex (by decide)
    exact ⟨_, rfl, by simp [parse, alookup, parserTable, pClamp, Except.bind, decodeOptNum, decodeOptInt, decodeOptStr, decodeOptBool, decodeOptVal, decodeVec, e1, e2, e3]⟩
  · -- SmoothClamp
    have e1 : alookup extras "WallA" = none :=
      alookup_avoid extras "WallA" hex (by decide)
    have e2 : alookup extras "WallB" = none :=
      alookup_avoid extras "WallB" hex (by decide)
    have e3 : alookup extras "Range" = none :=
      alookup_avoid extras "Range" hex (by decide)
    have e4 : alookup extras "Input" = none :=
      alookup_avoid extras "Input" hex (by decide)
    exact ⟨_, rfl, by simp [parse, alookup, parserTable, pSmoothClamp, Except.bind, decodeOptNum, decodeOptInt, decodeOptStr, decodeOptBool, decodeOptVal, decodeVec, e1, e2, e3, e4]⟩
  · -- Floor
    have e1 : alookup extras "Floor" = none :=
      alookup_avoid extras "Floor" hex (by decide)
    have e2 : alookup extras "Input" = none :=
      alookup_avoid extras "Input" hex (by decide)
    exact ⟨_, rfl, by simp [parse, alookup, parserTable, pFloor, Except.bind, decodeOptNum, decodeOptInt, decodeOptStr, decodeOptBool, decodeOptVal, decodeVec, e1, e2]⟩
  · -- SmoothFloor
    have e1 : alookup extras "Floor" = none :=
      alookup_avoid extras "Floor" hex (by decide)
    have e2 : alookup extras "Range" = none :=
      alookup_avoid extras "Range" hex (by decide)
    have e3 : alookup extras "Input" = none :=
      alookup_avoid extras "Input" hex (by decide)
    exact ⟨_, rfl, by simp [parse, alookup, parserTable, pSmoothFloor, Except.bind, decodeOptNum, decodeOptInt, decodeOptStr, decodeOptBool, decodeOptVal, decodeVec, e1, e2, e3]⟩
  · -- Ceiling
    have e1 : alookup extras "Ceiling" = none :=
      alookup_avoid extras "Ceiling" hex (by decide)
    have e2 : alookup extras "Input" = none :=
      alookup_avoid extras "Input" hex (by decide)
    exact ⟨_, rfl, by simp [parse, alookup, parserTable, pCeiling, Except.bind, decodeOptNum, decodeOptInt, decodeOptStr, decodeOptBool, decodeOptVal, decodeVec, e1, e2]⟩
  · -- SmoothCeiling
    have e1 : alookup extras "Ceiling" = none :=
      alookup_avoid extras "Ceiling" hex (by decide)
    have e2 : alookup extras "Range" = none :=
      alookup_avoid extras "Range" hex (by decide)
    have e3 : alookup extras "Input" = none :=
      alookup_avoid extras "Input" hex (by decide)
    exact ⟨_, rfl, by simp [parse, alookup, parserTable, pSmoothCeiling, Except.bind, decodeOptNum, decodeOptInt, decodeOptStr, decodeOptBool, decodeOptVal, decodeVec, e1, e2, e3]⟩
  · -- Min
    have e1 : alookup extras "Inputs" = none :=
      alookup_avoid extras "Inputs" hex (by decide)
    exact ⟨_, rfl, by simp [parse, alookup, parserTable, pMin, Except.bind, decodeOptNum, decodeOptInt, decodeOptStr, decodeOptBool, decodeOptVal, decodeVec, e1]⟩
  · -- SmoothMin
    have e1 : alookup extras "Range" = none :=
      alookup_avoid extras "Range" hex (by decide)
    have e2 : alookup extras "Inputs" = none :=
      alookup_avoid extras "Inputs" hex (by decide)
    exact ⟨_, rfl, by simp [parse, alookup, parserTable, pSmoothMin, Except.bind, decodeOptNum, decodeOptInt, decodeOptStr, decodeOptBool, decodeOptVal, decodeVec, e1, e2]⟩
  · -- Max
    have e1 : alookup extras "Inputs" = none :=
      alookup_avoid extras "Inputs" hex (by decide)
    exact ⟨_, rfl, by simp [parse, alookup, parserTable, pMax, Except.bind, decodeOptNum, decodeOptInt, decodeOptStr, decodeOptBool, decodeOptVal, decodeVec, e1]⟩
  · -- SmoothMax
    have e1 : alookup extras "Range" = none :=
      alookup_avoid extras "Range" hex (by decide)
    have e2 : alookup extras "Inputs" = none :=
      alookup_avoid extras "Inputs" hex (by decide)
    exact ⟨_, rfl, by simp [parse, alookup, parserTable, pSmoothMax, Except.bind, decodeOptNum, decodeOptInt, decodeOptStr, decodeOptBool, decodeOptVal, decodeVec, e1, e2]⟩
  · -- Normalizer
    have e1 : alookup extras "FromMin" = none :=
      alookup_avoid extras "FromMin" hex (by decide)
    have e2 : alookup extras "FromMax" = none :=
      alookup_avoid extras "FromMax" hex (by decide)
    have e3 : alookup extras "ToMin" = none :=
      alookup_avoid extras "ToMin" hex (by decide)
    have e4 : alookup extras "ToMax" = none :=
      alookup_avoid extras "ToMax" hex (by decide)
    have e5 : alookup extras "Input" = none :=
      alookup_avoid extras "Input" hex (by decide)
    exact ⟨_, rfl, by simp [parse, alookup, parserTable, pNormalizer, Except.bind, decodeOptNum, decodeOptInt, decodeOptStr, decodeOptBool, decodeOptVal, decodeVec, e1, e2, e3, e4, e5]⟩
  · -- CurveMapper
    have e1 : alookup extras "Curve" = none :=
      alookup_avoid extras "Curve" hex (by decide)
    have e2 : alookup extras "Input" = none :=
      alookup_avoid extras "Input" hex (by decide)
    exact ⟨_, rfl, by simp [parse, alookup, parserTable, pCurveMapper, Except.bind, decodeOptNum, decodeOptInt, decodeOptStr, decodeOptBool, decodeOptVal, decodeVec, e1, e2]⟩
  · -- Offset
    have e1 : alookup extras "Offset" = none :=
      alookup_avoid extras "Offset" hex (by decide)
    have e2 : alookup extras "Input" = none :=
      alookup_avoid extras "Input" hex (by decide)
    exact ⟨_, rfl, by simp [parse, alookup, parserTable, pOffset, Except.bind, decodeOptNum, decodeOptInt, decodeOptStr, decodeOptBool, decodeOptVal, decodeVec, e1, e2]⟩
  · -- Amplitude
    have e1 : alookup extras "Amplitude" = none :=
      alookup_avoid extras "Amplitude" hex (by decide)
    have e2 : alookup extras "Input" = none :=
      alookup_avoid extras "Input" hex (by decide)
    exact ⟨_, rfl, by simp [parse, alookup, parserTable, pAmplitude, Except.bind, decodeOptNum, decodeOptInt, decodeOptStr, decodeOptBool, decodeOptVal, decodeVec, e1, e2]⟩
  · -- Mix
    have e1 : alookup extras "Inputs" = none :=
      alookup_avoid extras "Inputs" hex (by decide)
    exact ⟨_, rfl, by simp [parse, alookup, parserTable, pMix, Except.bind, decodeOptNum, decodeOptInt, decodeOptStr, decodeOptBool, decodeOptVal, decodeVec, e1]⟩
  · -- MultiMix
    have e1 : alookup extras "Keys" = none :=
      alookup_avoid extras "Keys" hex (by decide)
    have e2 : alookup extras "Inputs" = none :=
      alookup_avoid extras "Inputs" hex (by decide)
    exact ⟨_, rfl, by simp [parse, alookup, parserTable, pMultiMix, Except.bind, decodeOptNum, decodeOptInt, decodeOptStr, decodeOptBool, decodeOptVal, decodeVec, e1, e2]⟩
  · -- Scale
    have e1 : alookup extras "X" = none :=
      alookup_avoid extras "X" hex (by decide)
    have e2 : alookup extras "Y" = none :=
      alookup_avoid extras "Y" hex (by decide)
    have e3 : alookup extras "Z" = none :=
      alookup_avoid extras "Z" hex (by decide)
    have e4 : alookup extras "Input" = none :=
      alookup_avoid extras "Input" hex (by decide)
    exact ⟨_, rfl, by simp [parse, alookup, parserTable, pScale, Except.bind, decodeOptNum, decodeOptInt, decodeOptStr, decodeOptBool, decodeOptVal, decodeVec, e1, e2, e3, e4]⟩
  · -- Slider
    have e1 : alookup extras "SlideX" = none :=
      alookup_avoid extras "SlideX" hex (by decide)
    have e2 : alookup extras "SlideY" = none :=
      alookup_avoid extras "SlideY" hex (by decide)
    have e3 : alookup extras "SlideZ" = none :=
      alookup_avoid extras "SlideZ" hex (by decide)
    have e4 : alookup extras "Input" = none :=
      alookup_avoid extras "Input" hex (by decide)
    exact ⟨_, rfl, by simp [parse, alookup, parserTable, pSlider, Except.bind, decodeOptNum, decodeOptInt, decodeOptStr, decodeOptBool, decodeOptVal, decodeVec, e1, e2, e3, e4]⟩
  · -- Rotator
    have e1 : alookup extras "NewYAxis" = none :=
      alookup_avoid extras "NewYAxis" hex (by decide)
    have e2 : alookup extras "X" = none :=
      alookup_avoid extras "X" hex (by decide)
    have e3 : alookup extras "Y" = none :=
      alookup_avoid extras "Y" hex (by decide)
    have e4 : alookup extras "Z" = none :=
      alookup_avoid extras "Z" hex (by decide)
    have e5 : alookup extras "SpinAngle" = none :=
      alookup_avoid extras "SpinAngle" hex (by decide)
    have e6 : alookup extras "Input" = none :=
      alookup_avoid extras "Input" hex (by decide)
    exact ⟨_, rfl, by simp [parse, alookup, parserTable, pRotator, Except.bind, decodeOptNum, decodeOptInt, decodeOptStr, decodeOptBool, decodeOptVal, decodeVec, e1, e2, e3, e4, e5, e6]⟩
  · -- Anchor
    have e1 : alookup extras "Reverse" = none :=
      alookup_avoid extras "Reverse" hex (by decide)
    have e2 : alookup extras "Input" = none :=
      alookup_avoid extras "Input" hex (by decide)
    exact ⟨_, rfl, by simp [parse, alookup, parserTable, pAnchor, Except.bind, decodeOptNum, decodeOptInt, decodeOptStr, decodeOptBool, decodeOptVal, decodeVec, e1, e2]⟩
  · -- XOverride
    have e1 : alookup extras "Input" = none :=
      alookup_avoid extras "Input" hex (by decide)
    have e2 : alookup extras "Override" = none :=
      alookup_avoid extras "Override" hex (by decide)
    exact ⟨_, rfl, by simp [parse, alookup, parserTable, pXOverride, Except.bind, decodeOptNum, decodeOptInt, decodeOptStr, decodeOptBool, decodeOptVal, decodeVec, e1, e2]⟩
  · -- YOverride
    have e1 : alookup extras "Input" = none :=
      alookup_avoid extras "Input" hex (by decide)
    have e2 : alookup extras "Override" = none :=
      alookup_avoid extras "Override" hex (by decide)
    exact ⟨_, rfl, by simp [parse, alookup, parserTable, pYOverride, Except.bind, decodeOptNum, decodeOptInt, decodeOptStr, decodeOptBool, decodeOptVal, decodeVec, e1, e2]⟩
  · -- ZOverride
    have e1 : alookup extras "Input" = none :=
      alookup_avoid extras "Input" hex (by decide)
    have e2 : alookup extras "Override" = none :=
      alookup_avoid extras "Override" hex (by decide)
    exact ⟨_, rfl, by simp [parse, alookup, parserTable, pZOverride, Except.bind, decodeOptNum, decodeOptInt, decodeOptStr, decodeOptBool, decodeOptVal, decodeVec, e1, e2]⟩
  · -- GradientWarp
    have e1 : alookup extras "SampleRange" = none :=
      alookup_avoid extras "SampleRange" hex (by decide)
    have e2 : alookup extras "WarpFactor" = none :=
      alookup_avoid extras "WarpFactor" hex (by decide)
    have e3 : alookup extras "2D" = none :=
      alookup_avoid extras "2D" hex (by decide)
    have e4 : alookup extras "YFor2D" = none :=
      alookup_avoid extras "YFor2D" hex (by decide)
    have e5 : alookup extras "Inputs" = none :=
      alookup_avoid extras "Inputs" hex (by decide)
    exact ⟨_, rfl, by simp [parse, alookup, parserTable, pGradientWarp, Except.bind, decodeOptNum, decodeOptInt, decodeOptStr, decodeOptBool, decodeOptVal, decodeVec, e1, e2, e3, e4, e5]⟩
  · -- FastGradientWarp
    have e1 : alookup extras "WarpScale" = none :=
      alookup_avoid extras "WarpScale" hex (by decide)
    have e2 : alookup extras "WarpLacunarity" = none :=
      alookup_avoid extras "WarpLacunarity" hex (by decide)
    have e3 : alookup extras "WarpPersistence" = none :=
      alookup_avoid extras "WarpPersistence" hex (by decide)
    have e4 : alookup extras "WarpOctaves" = none :=
      alookup_avoid extras "WarpOctaves" hex (by decide)
    have e5 : alookup extras "WarpFactor" = none :=
      alookup_avoid extras "WarpFactor" hex (by decide)
    have e6 : alookup extras "Seed" = none :=
      alookup_avoid extras "Seed" hex (by decide)
    have e7 : alookup extras "2D" = none :=
      alookup_avoid extras "2D" hex (by decide)
    have e8 : alookup extras "Input" = none :=
      alookup_avoid extras "Input" hex (by decide)
    exact ⟨_, rfl, by simp [parse, alookup, parserTable, pFastGradientWarp, Except.bind, decodeOptNum, decodeOptInt, decodeOptStr, decodeOptBool, decodeOptVal, decodeVec, e1, e2, e3, e4, e5, e6, e7, e8]⟩
  · -- VectorWarp
    have e1 : alookup extras "WarpFactor" = none :=
      alookup_avoid extras "WarpFactor" hex (by decide)
    have e2 : alookup extras "WarpVector" = none :=
      alookup_avoid extras "WarpVector" hex (by decide)
    have e3 : alookup extras "X" = none :=
      alookup_avoid extras "X" hex (by decide)
    have e4 : alookup extras "Y" = none :=
      alookup_avoid extras "Y" hex (by decide)
    have e5 : alookup extras "Z" = none :=
      alookup_avoid extras "Z" hex (by decide)
    have e6 : alookup extras "Inputs" = none :=
      alookup_avoid extras "Inputs" hex (by decide)
    exact ⟨_, rfl, by simp [parse, alookup, parserTable, pVectorWarp, Except.bind, decodeOptNum, decodeOptInt, decodeOptStr, decodeOptBool, decodeOptVal, decodeVec, e1, e2, e3, e4, e5, e6]⟩
  · -- Distance
    have e1 : alookup extras "Curve" = none :=
      alookup_avoid extras "Curve" hex (by decide)
    exact ⟨_, rfl, by simp [parse, alookup, parserTable, pDistance, Except.bind, decodeOptNum, decodeOptInt, decodeOptStr, decodeOptBool, decodeOptVal, decodeVec, e1]⟩
  · -- Cube
    have e1 : alookup extras "Curve" = none :=
      alookup_avoid extras "Curve" hex (by decide)
    exact ⟨_, rfl, by simp [parse, alookup, parserTable, pCube, Except.bind, decodeOptNum, decodeOptInt, decodeOptStr, decodeOptBool, decodeOptVal, decodeVec, e1]⟩
  · -- Ellipsoid
    have e1 : alookup extras "Curve" = none :=
      alookup_avoid extras "Curve" hex (by decide)
    have e2 : alookup extras "Scale" = none :=
      alookup_avoid extras "Scale" hex (by decide)
    have e3 : alookup extras "X" = none :=
      alookup_avoid extras "X" hex (by decide)
    have e4 : alookup extras "Y" = none :=
      alookup_avoid extras "Y" hex (by decide)
    have e5 : alookup extras "Z" = none :=
      alookup_avoid extras "Z" hex (by decide)
    have e6 : alookup extras "Spin" = none :=
      alookup_avoid extras "Spin" hex (by decide)
    exact ⟨_, rfl, by simp [parse, alookup, parserTable, pEllipsoid, Except.bind, decodeOptNum, decodeOptInt, decodeOptStr, decodeOptBool, decodeOptVal, decodeVec, e1, e2, e3, e4, e5, e6]⟩
  · -- Cuboid
    have e1 : alookup extras "Curve" = none :=
      alookup_avoid extras "Curve" hex (by decide)
    have e2 : alookup extras "Scale" = none :=
      alookup_avoid extras "Scale" hex (by decide)
    have e3 : alookup extras "X" = none :=
      alookup_avoid extras "X" hex (by decide)
    have e4 : alookup extras "Y" = none :=
      alookup_avoid extras "Y" hex (by decide)
    have e5 : alookup extras "Z" = none :=
      alookup_avoid extras "Z" hex (by decide)
    have e6 : alookup extras "Spin" = none :=
      alookup_avoid extras "Spin" hex (by decide)
    have e7 : alookup extras "NewYAxis" = none :=
      alookup_avoid extras "NewYAxis" hex (by decide)
    exact ⟨_, rfl, by simp [parse, alookup, parserTable, pCuboid, Except.bind, decodeOptNum, decodeOptInt, decodeOptStr, decodeOptBool, decodeOptVal, decodeVec, e1, e2, e3, e4, e5, e6, e7]⟩
  · -- Cylinder
    have e1 : alookup extras "AxialCurve" = none :=
      alookup_avoid extras "AxialCurve" hex (by decide)
    have e2 : alookup extras "RadialCurve" = none :=
      alookup_avoid extras "RadialCurve" hex (by decide)
    have e3 : alookup extras "Spin" = none :=
      alookup_avoid extras "Spin" hex (by decide)
    have e4 : alookup extras "NewYAxis" = none :=
      alookup_avoid extras "NewYAxis" hex (by decide)
    exact ⟨_, rfl, by simp [parse, alookup, parserTable, pCylinder, Except.bind, decodeOptNum, decodeOptInt, decodeOptStr, decodeOptBool, decodeOptVal, decodeVec, e1, e2, e3, e4]⟩
  · -- Plane
    have e1 : alookup extras "PlaneNormal" = none :=
      alookup_avoid extras "PlaneNormal" hex (by decide)
    have e2 : alookup extras "X" = none :=
      alookup_avoid extras "X" hex (by decide)
    have e3 : alookup extras "Y" = none :=
      alookup_avoid extras "Y" hex (by decide)
    have e4 : alookup extras "Z" = none :=
      alookup_avoid extras "Z" hex (by decide)
    have e5 : alookup extras "Curve" = none :=
      alookup_avoid extras "Curve" hex (by decide)
    exact ⟨_, rfl, by simp [parse, alookup, parserTable, pPlane, Except.bind, decodeOptNum, decodeOptInt, decodeOptStr, decodeOptBool, decodeOptVal, decodeVec, e1, e2, e3, e4, e5]⟩
  · -- Axis
    have e1 : alookup extras "Axis" = none :=
      alookup_avoid extras "Axis" hex (by decide)
    have e2 : alookup extras "X" = none :=
      alookup_avoid extras "X" hex (by decide)
    have e3 : alookup extras "Y" = none :=
      alookup_avoid extras "Y" hex (by decide)
    have e4 : alookup extras "Z" = none :=
      alookup_avoid extras "Z" hex (by decide)
    have e5 : alookup extras "Curve" = none :=
      alookup_avoid extras "Curve" hex (by decide)
    have e6 : alookup extras "IsAnchored" = none :=
      alookup_avoid extras "IsAnchored" hex (by decide)
    exact ⟨_, rfl, by simp [parse, alookup, parserTable, pAxis, Except.bind, decodeOptNum, decodeOptInt, decodeOptStr, decodeOptBool, decodeOptVal, decodeVec, e1, e2, e3, e4, e5, e6]⟩
  · -- Shell
    have e1 : alookup extras "Axis" = none :=
      alookup_avoid extras "Axis" hex (by decide)
    have e2 : alookup extras "X" = none :=
      alookup_avoid extras "X" hex (by decide)
    have e3 : alookup extras "Y" = none :=
      alookup_avoid extras "Y" hex (by decide)
    have e4 : alookup extras "Z" = none :=
      alookup_avoid extras "Z" hex (by decide)
    have e5 : alookup extras "Mirror" = none :=
      alookup_avoid extras "Mirror" hex (by decide)
    have e6 : alookup extras "AngleCurve" = none :=
      alookup_avoid extras "AngleCurve" hex (by decide)
    have e7 : alookup extras "DistanceCurve" = none :=
      alookup_avoid extras "DistanceCurve" hex (by decide)
    exact ⟨_, rfl, by simp [parse, alookup, parserTable, pShell, Except.bind, decodeOptNum, decodeOptInt, decodeOptStr, decodeOptBool, decodeOptVal, decodeVec, e1, e2, e3, e4, e5, e6, e7]⟩
  · -- Angle
    have e1 : alookup extras "Vector" = none :=
      alookup_avoid extras "Vector" hex (by decide)
    have e2 : alookup extras "VectorProvider" = none :=
      alookup_avoid extras "VectorProvider" hex (by decide)
    exact ⟨_, rfl, by simp [parse, alookup, parserTable, pAngle, Except.bind, decodeOptNum, decodeOptInt, decodeOptStr, decodeOptBool, decodeOptVal, decodeVec, e1, e2]⟩
  · -- XValue
    exact ⟨_, rfl, by simp [parse, alookup, parserTable, pXValue, Except.bind, decodeOptNum, decodeOptInt, decodeOptStr, decodeOptBool, decodeOptVal, decodeVec]⟩
  · -- YValue
    exact ⟨_, rfl, by simp [parse, alookup, parserTable, pYValue, Except.bind, decodeOptNum, decodeOptInt, decodeOptStr, decodeOptBool, decodeOptVal, decodeVec]⟩
  · -- ZValue
    exact ⟨_, rfl, by simp [parse, alookup, parserTable, pZValue, Except.bind, decodeOptNum, decodeOptInt, decodeOptStr, decodeOptBool, decodeOptVal, decodeVec]⟩
  · -- Terrain
    exact ⟨_, rfl, by simp [parse, alookup, parserTable, pTerrain, Except.bind, decodeOptNum, decodeOptInt, decodeOptStr, decodeOptBool, decodeOptVal, decodeVec]⟩
  · -- BaseHeight
    have e1 : alookup extras "BaseHeightName" = none :=
      alookup_avoid extras "BaseHeightName" hex (by decide)
    have e2 : alookup extras "Distance" = none :=
      alookup_avoid extras "Distance" hex (by decide)
    exact ⟨_, rfl, by simp [parse, alookup, parserTable, pBaseHeight, Except.bind, decodeOptNum, decodeOptInt, decodeOptStr, decodeOptBool, decodeOptVal, decodeVec, e1, e2]⟩
  · -- CellWallDistance
    have e1 : alookup extras "Positions" = none :=
      alookup_avoid extras "Positions" hex (by decide)
    have e2 : alookup extras "MaxDistance" = none :=
      alookup_avoid extras "MaxDistance" hex (by decide)
    exact ⟨_, rfl, by simp [parse, alookup, parserTable, pCellWallDistance, Except.bind, decodeOptNum, decodeOptInt, decodeOptStr, decodeOptBool, decodeOptVal, decodeVec, e1, e2]⟩
  · -- DistanceToBiomeEdge
    exact ⟨_, rfl, by simp [parse, alookup, parserTable, pDistanceToBiomeEdge, Except.bind, decodeOptNum, decodeOptInt, decodeOptStr, decodeOptBool, decodeOptVal, decodeVec]⟩
  · -- Gradient
    have e1 : alookup extras "From" = none :=
      alookup_avoid extras "From" hex (by decide)
    have e2 : alookup extras "To" = none :=
      alookup_avoid extras "To" hex (by decide)
    have e3 : alookup extras "FromY" = none :=
      alookup_avoid extras "FromY" hex (by decide)
    have e4 : alookup extras "ToY" = none :=
      alookup_avoid extras "ToY" hex (by decide)
    exact ⟨_, rfl, by simp [parse, alookup, parserTable, pGradient, Except.bind, decodeOptNum, decodeOptInt, decodeOptStr, decodeOptBool, decodeOptVal, decodeVec, e1, e2, e3, e4]⟩
  · -- Cache
    have e1 : alookup extras "Capacity" = none :=
      alookup_avoid extras "Capacity" hex (by decide)
    have e2 : alookup extras "Input" = none :=
      alookup_avoid extras "Input" hex (by decide)
    exact ⟨_, rfl, by simp [parse, alookup, parserTable, pCache, Except.bind, decodeOptNum, decodeOptInt, decodeOptStr, decodeOptBool, decodeOptVal, decodeVec, e1, e2]⟩
  · -- Cache2D
    have e1 : alookup extras "Input" = none :=
      alookup_avoid extras "Input" hex (by decide)
    exact ⟨_, rfl, by simp [parse, alookup, parserTable, pCache2D, Except.bind, decodeOptNum, decodeOptInt, decodeOptStr, decodeOptBool, decodeOptVal, decodeVec, e1]⟩
  · -- YSampled
    have e1 : alookup extras "Y" = none :=
      alookup_avoid extras "Y" hex (by decide)
    have e2 : alookup extras "Input" = none :=
      alookup_avoid extras "Input" hex (by decide)
    exact ⟨_, rfl, by simp [parse, alookup, parserTable, pYSampled, Except.bind, decodeOptNum, decodeOptInt, decodeOptStr, decodeOptBool, decodeOptVal, decodeVec, e1, e2]⟩
  · -- Switch
    have e1 : alookup extras "SwitchCases" = none :=
      alookup_avoid extras "SwitchCases" hex (by decide)
    have e2 : alookup extras "Input" = none :=
      alookup_avoid extras "Input" hex (by decide)
    exact ⟨_, rfl, by simp [parse, alookup, parserTable, pSwitch, Except.bind, decodeOptNum, decodeOptInt, decodeOptStr, decodeOptBool, decodeOptVal, decodeVec, e1, e2]⟩
  · -- SwitchState
    have e1 : alookup extras "SwitchState" = none :=
      alookup_avoid extras "SwitchState" hex (by decide)
    have e2 : alookup extras "Input" = none :=
      alookup_avoid extras "Input" hex (by decide)
    exact ⟨_, rfl, by simp [parse, alookup, parserTable, pSwitchState, Except.bind, decodeOptNum, decodeOptInt, decodeOptStr, decodeOptBool, decodeOptVal, decodeVec, e1, e2]⟩
  · -- PositionsCellNoise
    have e1 : alookup extras "Positions" = none :=
      alookup_avoid extras "Positions" hex (by decide)
    have e2 : alookup extras "ReturnType" = none :=
      alookup_avoid extras "ReturnType" hex (by decide)
    have e3 : alookup extras "DistanceFunction" = none :=
      alookup_avoid extras "DistanceFunction" hex (by decide)
    have e4 : alookup extras "MaxDistance" = none :=
      alookup_avoid extras "MaxDistance" hex (by decide)
    exact ⟨_, rfl, by simp [parse, alookup, parserTable, pPositionsCellNoise, Except.bind, decodeOptNum, decodeOptInt, decodeOptStr, decodeOptBool, decodeOptVal, decodeVec, e1, e2, e3, e4]⟩
  · -- Positions3D
    have e1 : alookup extras "Positions" = none :=
      alookup_avoid extras "Positions" hex (by decide)
    have e2 : alookup extras "Density" = none :=
      alookup_avoid extras "Density" hex (by decide)
    have e3 : alookup extras "MaxDistance" = none :=
      alookup_avoid extras "MaxDistance" hex (by decide)
    exact ⟨_, rfl, by simp [parse, alookup, parserTable, pPositions3D, Except.bind, decodeOptNum, decodeOptInt, decodeOptStr, decodeOptBool, decodeOptVal, decodeVec, e1, e2, e3]⟩
  · -- PositionsPinch
    have e1 : alookup extras "Positions" = none :=
      alookup_avoid extras "Positions" hex (by decide)
    have e2 : alookup extras "PinchCurve" = none :=
      alookup_avoid extras "PinchCurve" hex (by decide)
    have e3 : alookup extras "MaxDistance" = none :=
      alookup_avoid extras "MaxDistance" hex (by decide)
    have e4 : alookup extras "NormalizeDistance" = none :=
      alookup_avoid extras "NormalizeDistance" hex (by decide)
    have e5 : alookup extras "HorizontalPinch" = none :=
      alookup_avoid extras "HorizontalPinch" hex (by decide)
    have e6 : alookup extras "PositionsMaxY" = none :=
      alookup_avoid extras "PositionsMaxY" hex (by decide)
    have e7 : alookup extras "PositionsMinY" = none :=
      alookup_avoid extras "PositionsMinY" hex (by decide)
    have e8 : alookup extras "Input" = none :=
      alookup_avoid extras "Input" hex (by decide)
    exact ⟨_, rfl, by simp [parse, alookup, parserTable, pPositionsPinch, Except.bind, decodeOptNum, decodeOptInt, decodeOptStr, decodeOptBool, decodeOptVal, decodeVec, e1, e2, e3, e4, e5, e6, e7, e8]⟩
  · -- PositionsTwist
    have e1 : alookup extras "Positions" = none :=
      alookup_avoid extras "Positions" hex (by decide)
    have e2 : alookup extras "TwistCurve" = none :=
      alookup_avoid extras "TwistCurve" hex (by decide)
    have e3 : alookup extras "TwistAxis" = none :=
      alookup_avoid extras "TwistAxis" hex (by decide)
    have e4 : alookup extras "X" = none :=
      alookup_avoid extras "X" hex (by decide)
    have e5 : alookup extras "Y" = none :=
      alookup_avoid extras "Y" hex (by decide)
    have e6 : alookup extras "Z" = none :=
      alookup_avoid extras "Z" hex (by decide)
    have e7 : alookup extras "MaxDistance" = none :=
      alookup_avoid extras "MaxDistance" hex (by decide)
    have e8 : alookup extras "NormalizeDistance" = none :=
      alookup_avoid extras "NormalizeDistance" hex (by decide)
    have e9 : alookup extras "Input" = none :=
      alookup_avoid extras "Input" hex (by decide)
    exact ⟨_, rfl, by simp [parse, alookup, parserTable, pPositionsTwist, Except.bind, decodeOptNum, decodeOptInt, decodeOptStr, decodeOptBool, decodeOptVal, decodeVec, e1, e2, e3, e4, e5, e6, e7, e8, e9]⟩
  · -- Exported
    have e1 : alookup extras "SingleInstance" = none :=
      alookup_avoid extras "SingleInstance" hex (by decide)
    have e2 : alookup extras "Density" = none :=
      alookup_avoid extras "Density" hex (by decide)
    have e3 : alookup extras "Input" = none :=
      alookup_avoid extras "Input" hex (by decide)
    exact ⟨_, rfl, by simp [parse, alookup, parserTable, pExported, Except.bind, decodeOptNum, decodeOptInt, decodeOptStr, decodeOptBool, decodeOptVal, decodeVec, e1, e2, e3]⟩
  · -- Imported
    have e1 : alookup extras "Name" = none :=
      alookup_avoid extras "Name" hex (by decide)
    exact ⟨_, rfl, by simp [parse, alookup, parserTable, pImported, Except.bind, decodeOptNum, decodeOptInt, decodeOptStr, decodeOptBool, decodeOptVal, decodeVec, e1]⟩
  · -- Pipeline
    have e1 : alookup extras "Steps" = none :=
      alookup_avoid extras "Steps" hex (by decide)
    have e2 : alookup extras "Input" = none :=
      alookup_avoid extras "Input" hex (by decide)
    exact ⟨_, rfl, by simp [parse, alookup, parserTable, pPipeline, Except.bind, decodeOptNum, decodeOptInt, decodeOptStr, decodeOptBool, decodeOptVal, decodeVec, e1, e2]⟩

/-- Claim C4 counterexample: a constructible node whose optional sub-tree field
holds the raw JSON value null — `Abs { input: Some(Value::Null) }` — serializes
to `null` and parses back with the field absent, so the round trip is not the
identity on it. -/
theorem parse_serialize_roundtrip_cex :
    parse (serialize (DensityType.Abs (some Json.null))) = .ok (DensityType.Abs none) ∧
    parse (serialize (DensityType.Abs (some Json.null))) ≠
      .ok (DensityType.Abs (some Json.null)) := by
  constructor
  · rfl
  · intro h
    rw [show parse (serialize (DensityType.Abs (some Json.null))) =
      .ok (DensityType.Abs none) from rfl] at h
    injection h with h2
    injection h2 with h3
    exact Option.noConfusion h3

theorem parse_serialize_roundtrip_w :
    parse (serialize (DensityType.Clamp (some 1) none (some (Json.num 2)))) =
      .ok (DensityType.Clamp (some 1) none (some (Json.num 2))) :=
  parse_serialize_roundtrip _ (by simp [optJsonFields])

theorem parse_type_only_defaults_w :
    ∃ d, defaultNode "Sum" = some d ∧
      parse (Json.obj [("Type", Json.str "Sum"), ("Frobnicate", Json.num 3)]) = .ok d :=
  parse_type_only_defaults "Sum" [("Frobnicate", Json.num 3)] (by decide) (by decide)

/-- Claim C6: `Multiplier` folds its inputs left-to-right and short-circuits to
exactly 0 on an exact-zero input — a list beginning with 0 evaluates to 0
whatever follows, even though a failing input alone makes evaluation fail. -/
theorem multiplier_short_circuit :
    (∀ rest : List MultInput, multiplierEval (.lit 0 :: rest) = .ok 0)
    ∧ multiplierEval [.failing] = .error .inputFailed :=
  ⟨fun _ => rfl, rfl⟩

/-- Claim C7: `Cache2D` keys its memoized result by the (x, z) column only —
within one session, two evaluations at the same x and z (any y) both return the
value of the input sampled at the first point. -/
theorem cache2D_ignores_y (f : Point → ℚ) (p₁ p₂ : Point)
    (hx : p₂.x = p₁.x) (hz : p₂.z = p₁.z) :
    cache2DTwice f p₁ p₂ = (f p₁, f p₁) := by
  simp [cache2DTwice, cache2DEval, cacheFind, hx, hz]

theorem cache2D_ignores_y_w :
    cache2DTwice witnessField ⟨5, 10, 5⟩ ⟨5, 99, 5⟩ =
      (witnessField ⟨5, 10, 5⟩, witnessField ⟨5, 10, 5⟩) :=
  cache2D_ignores_y witnessField ⟨5, 10, 5⟩ ⟨5, 99, 5⟩ rfl rfl

/-- Claim C8: `write_asset_file` is atomic with respect to its destination —
when it returns Ok the destination holds the pretty-printed serialization, and
when any step fails the destination's previous contents are unchanged (content
reaches the destination only through the final rename of the temp file). -/
theorem write_asset_file_atomic (fs : FS) (path : String) (content : Json) (step : WriteStep) :
    (writeAssetFile fs path content step).2 path =
      if isOkE (writeAssetFile fs path content step).1
      then some (renderJson 0 content) else fs path := by
  cases step with
  | success => simp [writeAssetFile, fsSet, fsErase, isOkE]
  | tmpWriteFails => simp [writeAssetFile, isOkE]
  | renameFails =>
    by_cases h : withExtTmp path = path
    · simp [writeAssetFile, fsSet, isOkE, h]
    · have h2 : path ≠ withExtTmp path := fun hh => h hh.symm
      simp [writeAssetFile, fsSet, isOkE, h, h2]

/-- Claim C9: on an existing directory that already contains an entry,
`create_blank_project` returns `Err("Target directory is not empty")` and
leaves the filesystem untouched — no file or directory is created. -/
theorem create_blank_project_guard (fs : ProjFS) (target : List String)
    (hdir : target ∈ fs.dirs) (hne : hasEntry fs target = true) :
    createBlankProject fs target = (.error "Target directory is not empty", fs) := by
  simp [createBlankProject, hdir, hne]

theorem create_blank_project_guard_w :
    createBlankProject ⟨[["proj"]], [(["proj", "notes.txt"], "x")]⟩ ["proj"] =
      (.error "Target directory is not empty",
        ⟨[["proj"]], [(["proj", "notes.txt"], "x")]⟩) :=
  create_blank_project_guard _ _ (by decide) (by decide)

/-- Claim C10 counterexample: `parse_memory_value` does return `None` on a plain
non-negative integer when it exceeds `u64::MAX` — `2^64` itself fails to parse. -/
theorem parse_memory_value_cex : parse_memory_value "18446744073709551616" = none := by
  decide

theorem digit_not_ws {c : Char} (h : c ∈ digitChars) : isWs c = false := by
  simp only [digitChars, List.mem_cons, List.not_mem_nil, or_false] at h
  rcases h with rfl | rfl | rfl | rfl | rfl | rfl | rfl | rfl | rfl | rfl <;> decide

theorem digit_lower {c : Char} (h : c ∈ digitChars) : lowerChar c = c := by
  simp only [digitChars, List.mem_cons, List.not_mem_nil, or_false] at h
  rcases h with rfl | rfl | rfl | rfl | rfl | rfl | rfl | rfl | rfl | rfl <;> decide

theorem digit_isDigit {c : Char} (h : c ∈ digitChars) : c.isDigit = true := by
  simp only [digitChars, List.mem_cons, List.not_mem_nil, or_false] at h
  rcases h with rfl | rfl | rfl | rfl | rfl | rfl | rfl | rfl | rfl | rfl <;> decide

theorem digit_ne_plus {c : Char} (h : c ∈ digitChars) : c ≠ '+' := by
  simp only [digitChars, List.mem_cons, List.not_mem_nil, or_false] at h
  rcases h with rfl | rfl | rfl | rfl | rfl | rfl | rfl | rfl | rfl | rfl <;> decide

theorem digit_ne_b {c : Char} (h : c ∈ digitChars) : c ≠ 'b' := by
  simp only [digitChars, List.mem_cons, List.not_mem_nil, or_false] at h
  rcases h with rfl | rfl | rfl | rfl | rfl | rfl | rfl | rfl | rfl | rfl <;> decide

theorem trim_digits {cs : List Char} (h : ∀ c ∈ cs, c ∈ digitChars) :
    trimChars cs = cs := by
  have front : ∀ ds : List Char, (∀ c ∈ ds, c ∈ digitChars) → ds.dropWhile isWs = ds := by
    intro ds hd
    cases ds with
    | nil => rfl
    | cons c rest =>
      simp [List.dropWhile, digit_not_ws (hd c (List.mem_cons_self _ _))]
  unfold trimChars
  rw [front cs h, front cs.reverse (fun c hc => h c (List.mem_reverse.mp hc)),
    List.reverse_reverse]

theorem lower_digits_list (cs : List Char) (h : ∀ c ∈ cs, c ∈ digitChars) :
    cs.map lowerChar = cs := by
  induction cs with
  | nil => rfl
  | cons c rest ih =>
    simp only [List.map_cons]
    rw [digit_lower (h c (List.mem_cons_self _ _)),
      ih (fun d hd => h d (List.mem_cons_of_mem _ hd))]

theorem mem_of_drop {α : Type _} {a : α} : ∀ (n : Nat) (l : List α), a ∈ l.drop n → a ∈ l
  | 0, _, h => h
  | _ + 1, [], h => h
  | n + 1, _ :: l, h => List.mem_cons_of_mem _ (mem_of_drop n l h)

theorem dropSuffix_b_none {s suf : String} (h : ∀ c ∈ s.data, c ∈ digitChars)
    (hb : 'b' ∈ suf.data) : dropSuffixOpt s suf = none := by
  unfold dropSuffixOpt
  rw [if_neg]
  rintro ⟨hlen, heq⟩
  exact absurd (h _ (mem_of_drop _ _ (heq ▸ hb))) (fun hd => digit_ne_b hd rfl)

/-- Claim C10 (amended): on a plain non-empty digit string whose value fits
`u64`, `parse_memory_value` returns `Some`: the value itself up to 1,000,000
(read as megabytes), and the value divided by 1,048,576 above that (read as
bytes, truncating) — non-monotonic at the boundary. Beyond `u64::MAX` the
parse fails and `None` is returned. -/
theorem parse_memory_value_plain (s : String)
    (h1 : s.data ≠ []) (h2 : ∀ c ∈ s.data, c ∈ digitChars)
    (h3 : digitsVal s.data < 18446744073709551616) :
    parse_memory_value s =
      some (if digitsVal s.data > 1000000 then digitsVal s.data / (1024 * 1024)
            else digitsVal s.data) := by
  have htrim : rustTrim s = s := by
    unfold rustTrim
    rw [trim_digits h2]
  have hlow : asciiLower s = s := by
    unfold asciiLower
    rw [lower_digits_list s.data h2]
  have hgb : dropSuffixOpt s "gb" = none := dropSuffix_b_none h2 (by decide)
  have hgb2 : dropSuffixOpt s " gb" = none := dropSuffix_b_none h2 (by decide)
  have hmb : dropSuffixOpt s "mb" = none := dropSuffix_b_none h2 (by decide)
  have hmb2 : dropSuffixOpt s " mb" = none := dropSuffix_b_none h2 (by decide)
  have hplus : s.data.head? ≠ some '+' := by
    cases hd : s.data with
    | nil => exact absurd hd h1
    | cons c rest =>
      simp only [List.head?]
      intro hc
      injection hc with hc
      exact digit_ne_plus (h2 c (hd ▸ List.mem_cons_self _ _)) hc
  have hu : parseU64 s = some (digitsVal s.data) := by
    unfold parseU64
    rw [if_neg hplus, if_pos ⟨h1, List.all_eq_true.mpr
      (fun c hc => digit_isDigit (h2 c hc))⟩, if_pos h3]
  simp only [parse_memory_value, htrim, hlow, hgb, hgb2, hmb, hmb2, Option.orElse,
    Option.bind, hu]
  split <;> rfl

theorem parse_memory_value_plain_w :
    parse_memory_value "1000001" =
      some (if digitsVal "1000001".data > 1000000
            then digitsVal "1000001".data / (1024 * 1024)
            else digitsVal "1000001".data) :=
  parse_memory_value_plain "1000001" (by decide) (by decide) (by decide)
